import Mathlib

/-! Traintastic: the TraintasticDIY hardware kernel.

Shallow embedding of `server/src/hardware/protocol/traintasticdiy/kernel.cpp`.

The kernel owns an `io_context` (a queue of posted handlers run on the kernel thread), posts
closures to the main `EventLoop`, hands outbound messages to its IO handler and keeps two
per-address caches.  Both queues, the outbound message log, the main loop's observable actions and
a virtual clock for the heartbeat timer are explicit fields of the state.
-/

namespace TraintasticDIY

/-! ## Enumerations and messages -/

/-- Enum `InputState` of `inputstate.hpp` (values 0, 1, 2, 3). -/
inductive InputState
  | Undefined
  | False
  | True
  | Invalid
  deriving DecidableEq, Repr

/-- Enum `OutputState`, with the four enumerators the `toTriState(OutputState)` switch names. -/
inductive OutputState
  | Undefined
  | False
  | True
  | Invalid
  deriving DecidableEq, Repr

/-- Enum `TriState` of the shared enums: `Undefined`, `False`, `True`. -/
inductive TriState
  | Undefined
  | False
  | True
  deriving DecidableEq, Repr

/-- Function `toTriState(InputState)`, kernel.cpp lines 36-51: the switch returns on `False` and
`True`; `Undefined` and `Invalid` break out of it and reach the final `return`. -/
def toTriState (value : InputState) : TriState :=
  match value with
  | InputState.False => TriState.False
  | InputState.True => TriState.True
  | InputState.Undefined => TriState.Undefined
  | InputState.Invalid => TriState.Undefined

/-- Function `toTriState(OutputState)`, kernel.cpp lines 53-68. -/
def toTriStateOutput (value : OutputState) : TriState :=
  match value with
  | OutputState.False => TriState.False
  | OutputState.True => TriState.True
  | OutputState.Undefined => TriState.Undefined
  | OutputState.Invalid => TriState.Undefined

/-- Messages of the protocol, one constructor per `OpCode`; addresses are `uint16_t`, feature flag
bytes are `uint8_t`, both carried as natural numbers. -/
inductive Message
  | Heartbeat
  | GetInfo
  | Info (text : String)
  | GetFeatures
  | Features (featureFlags1 featureFlags2 featureFlags3 featureFlags4 : Nat)
  | GetInputState (address : Nat)
  | SetInputState (address : Nat) (state : InputState)
  | GetOutputState (address : Nat)
  | SetOutputState (address : Nat) (state : OutputState)
  deriving DecidableEq, Repr

/-- Kernel configuration: the three `Config` members kernel.cpp reads; the timeout is in
milliseconds. -/
structure Config where
  heartbeatTimeout : Nat
  debugLogRXTX : Bool
  debugLogHeartbeat : Bool
  deriving DecidableEq, Repr

/-- Constants and predicates declared in `kernel.hpp`, `inputcontroller.hpp` and
`outputcontroller.hpp`, which kernel.cpp uses without defining: they are parameters of the model.
The feature predicates read the four stored flag bytes. -/
structure Params where
  ioAddressMin : Nat
  ioAddressMax : Nat
  defaultInputChannel : Nat
  defaultOutputChannel : Nat
  featureInput : Nat → Nat → Nat → Nat → Bool
  featureOutput : Nat → Nat → Nat → Nat → Bool

/-- Modelled from the spec: `inRange` of `utils/inrange.hpp` (not under src); the spec reads the
call as `addr ∈ [ioAddressMin, ioAddressMax]`, bounds included. -/
def inRange (value min max : Nat) : Bool :=
  decide (min ≤ value) && decide (value ≤ max)

/-- Modelled from the spec: the enumerator `None` of the four `FeatureFlagsN` bitmask bytes, the
empty mask. -/
def FeatureFlagsNone : Nat := 0

/-! ## Closures and observable actions -/

/-- Closures that kernel.cpp hands to `EventLoop::call`, one constructor per lambda, each with its
captured values. -/
inductive MainTask
  | logRX (msg : Message)
  | logTX (msg : Message)
  | inputStateChanged (address : Nat) (state : InputState)
  | outputStateChanged (address : Nat) (state : OutputState)
  | requestInputStates
  | requestOutputStates
  | logInfo (text : String)
  | onStarted
  deriving DecidableEq, Repr

/-- Closures posted on the kernel's own `m_ioContext`: the start-up lambda of `start`, the send
lambda of `postSend`, the lambda of `simulateInputChange` and the one of `setConfig`. -/
inductive KernelTask
  | startup
  | send (msg : Message)
  | simulateInput (address : Nat)
  | setConfig (newConfig : Config)
  deriving DecidableEq, Repr

/-- What the main loop is seen to do when it runs a posted closure: log lines and calls into the
controllers or the started callback. -/
inductive MainEffect
  | logDebugRX (msg : Message)
  | logDebugTX (msg : Message)
  | logInfoText (text : String)
  | warnInputAddressInvalid (address : Nat)
  | warnOutputAddressInvalid (address : Nat)
  | updateInputValue (channel address : Nat) (value : TriState)
  | updateOutputValue (channel address : Nat) (value : TriState)
  | onStartedCalled
  deriving DecidableEq, Repr

/-- The controllers as the kernel sees them: the keys `(channel, address)` of
`InputController::inputs()` and of `OutputController::outputs()`, in iteration order. -/
structure Controllers where
  inputs : List (Nat × Nat)
  outputs : List (Nat × Nat)
  deriving DecidableEq, Repr

/-! ## Kernel state -/

/-- Members of `Kernel` that kernel.cpp touches, followed by the kernel's surroundings: the IO
handler, the virtual clock and expiry of `m_heartbeatTimeout`, the two handler queues, the
messages handed to the IO handler and the actions performed on the main loop. -/
structure Kernel where
  simulation : Bool
  config : Config
  featureFlagsSet : Bool
  featureFlags1 : Nat
  featureFlags2 : Nat
  featureFlags3 : Nat
  featureFlags4 : Nat
  inputValues : Nat → Option InputState
  outputValues : Nat → Option OutputState
  onStartedSet : Bool
  started : Bool
  ioHandlerStarted : Bool
  ioHandlerSend : Message → Bool
  now : Nat
  heartbeatExpiry : Option Nat
  ioContext : List KernelTask
  eventLoop : List MainTask
  sent : List Message
  effects : List MainEffect
  assertFailed : Bool
  undefinedBehaviour : Bool

/-- Assignment `m[address] = state` on a per-address cache. -/
def cacheSet {σ : Type} (m : Nat → Option σ) (address : Nat) (state : σ) : Nat → Option σ :=
  fun a => if a = address then some state else m a

/-- Constructor `Kernel::Kernel(config, simulation)`: empty caches and queues, no IO handler
activity yet, the clock at 0; `ioSend` is the behaviour of the IO handler installed by
`setIOHandler` and `onStarted` tells whether a started callback is installed.  The feature flag
members are not in the initialiser list; they are cleared here, as `start` clears them before
anything reads them. -/
def Kernel.construct (config : Config) (simulation : Bool) (ioSend : Message → Bool)
    (onStarted : Bool) : Kernel :=
  { simulation := simulation
    config := config
    featureFlagsSet := false
    featureFlags1 := FeatureFlagsNone
    featureFlags2 := FeatureFlagsNone
    featureFlags3 := FeatureFlagsNone
    featureFlags4 := FeatureFlagsNone
    inputValues := fun _ => none
    outputValues := fun _ => none
    onStartedSet := onStarted
    started := false
    ioHandlerStarted := false
    ioHandlerSend := ioSend
    now := 0
    heartbeatExpiry := none
    ioContext := []
    eventLoop := []
    sent := []
    effects := []
    assertFailed := false
    undefinedBehaviour := false }

/-- Predicate `hasFeatureInput()` on the stored flag bytes. -/
def hasFeatureInput (P : Params) (k : Kernel) : Bool :=
  P.featureInput k.featureFlags1 k.featureFlags2 k.featureFlags3 k.featureFlags4

/-- Predicate `hasFeatureOutput()` on the stored flag bytes. -/
def hasFeatureOutput (P : Params) (k : Kernel) : Bool :=
  P.featureOutput k.featureFlags1 k.featureFlags2 k.featureFlags3 k.featureFlags4

/-- Call `EventLoop::call(task)`: the closure is queued for the main loop. -/
def eventLoopCall (k : Kernel) (task : MainTask) : Kernel :=
  { k with eventLoop := k.eventLoop ++ [task] }

/-- Call `m_ioContext.post(task)`: the closure is queued for the kernel thread. -/
def ioContextPost (k : Kernel) (task : KernelTask) : Kernel :=
  { k with ioContext := k.ioContext ++ [task] }

/-- Condition `m_config.debugLogRXTX && (message != Heartbeat() || m_config.debugLogHeartbeat)`
shared by `receive` and `send`. -/
def debugLogs (k : Kernel) (message : Message) : Bool :=
  k.config.debugLogRXTX && (decide (message ≠ Message.Heartbeat) || k.config.debugLogHeartbeat)

/-- Method `Kernel::send`, lines 295-308: the message goes to the IO handler; when the handler
accepts it and debug logging applies, a TX log closure is posted to the main loop. -/
def send (k : Kernel) (message : Message) : Kernel :=
  let k1 := { k with sent := k.sent ++ [message] }
  if k.ioHandlerSend message then
    if debugLogs k1 message then eventLoopCall k1 (MainTask.logTX message) else k1
  else
    k1

/-- Modelled from the spec: `postSend` of `kernel.hpp` (not under src), "`post_send(msg)` that
runs on the kernel thread": a closure calling `send(message)` is posted on the kernel's context. -/
def postSend (k : Kernel) (message : Message) : Kernel :=
  ioContextPost k (KernelTask.send message)

/-- Method `Kernel::restartHeartbeatTimeout`, lines 310-314: `expires_after` moves the expiry
to the current instant plus the configured timeout (aborting a pending wait, whose handler then
returns at once) and `async_wait` registers the handler again. -/
def restartHeartbeatTimeout (k : Kernel) : Kernel :=
  { k with heartbeatExpiry := some (k.now + k.config.heartbeatTimeout) }

/-- Method `Kernel::heartbeatTimeoutExpired`, lines 316-323; `ec` is true for a wait that was
aborted.  `cancel` finds no pending wait, the one that just completed being consumed. -/
def heartbeatTimeoutExpired (k : Kernel) (ec : Bool) : Kernel :=
  if ec then k
  else restartHeartbeatTimeout (send k Message.Heartbeat)

/-- Method `Kernel::receive`, lines 152-269. -/
def receive (P : Params) (k : Kernel) (message : Message) : Kernel :=
  let k1 := if debugLogs k message then eventLoopCall k (MainTask.logRX message) else k
  let k2 := restartHeartbeatTimeout k1
  match message with
  | Message.Heartbeat => k2
  | Message.SetInputState address state =>
    if !k2.featureFlagsSet || !hasFeatureInput P k2 then k2
    else if inRange address P.ioAddressMin P.ioAddressMax then
      if k2.inputValues address = none ∨ k2.inputValues address ≠ some state then
        eventLoopCall { k2 with inputValues := cacheSet k2.inputValues address state }
          (MainTask.inputStateChanged address state)
      else k2
    else k2
  | Message.SetOutputState address state =>
    if !k2.featureFlagsSet || !hasFeatureOutput P k2 then k2
    else if inRange address P.ioAddressMin P.ioAddressMax then
      if k2.outputValues address = none ∨ k2.outputValues address ≠ some state then
        eventLoopCall { k2 with outputValues := cacheSet k2.outputValues address state }
          (MainTask.outputStateChanged address state)
      else k2
    else k2
  | Message.Features f1 f2 f3 f4 =>
    let k3 := { k2 with
      featureFlagsSet := true
      featureFlags1 := f1
      featureFlags2 := f2
      featureFlags3 := f3
      featureFlags4 := f4 }
    let k4 := if hasFeatureInput P k3 then eventLoopCall k3 MainTask.requestInputStates else k3
    if hasFeatureOutput P k4 then eventLoopCall k4 MainTask.requestOutputStates else k4
  | Message.Info text => eventLoopCall k2 (MainTask.logInfo text)
  | Message.GetInfo => { k2 with assertFailed := true }
  | Message.GetFeatures => { k2 with assertFailed := true }
  | Message.GetOutputState _ => { k2 with assertFailed := true }
  | Message.GetInputState _ => { k2 with assertFailed := true }

/-- Method `Kernel::start`, lines 92-132: resets the feature flags and posts the start-up closure.
The two assertions (an IO handler is installed, the kernel is not started) are obligations of the
caller; the thread created here is what runs the handlers of `ioContext`. -/
def start (k : Kernel) : Kernel :=
  let k1 := { k with
    featureFlagsSet := false
    featureFlags1 := FeatureFlagsNone
    featureFlags2 := FeatureFlagsNone
    featureFlags3 := FeatureFlagsNone
    featureFlags4 := FeatureFlagsNone }
  { ioContextPost k1 KernelTask.startup with started := true }

/-- Closure posted by `start`, lines 112-127. -/
def startupTask (k : Kernel) : Kernel :=
  let k1 := { k with ioHandlerStarted := true }
  let k2 := send k1 Message.GetInfo
  let k3 := send k2 Message.GetFeatures
  let k4 := restartHeartbeatTimeout k3
  if k4.onStartedSet then eventLoopCall k4 MainTask.onStarted else k4

/-- Method `Kernel::setConfig`, lines 83-90. -/
def setConfig (k : Kernel) (config : Config) : Kernel :=
  ioContextPost k (KernelTask.setConfig config)

/-- Method `Kernel::setOutput`, lines 271-275: the state, with the send closure posted, and the
returned value. -/
def setOutput (k : Kernel) (address : Nat) (value : Bool) : Kernel × Bool :=
  (postSend k (Message.SetOutputState address
    (if value then OutputState.True else OutputState.False)), true)

/-- Method `Kernel::simulateInputChange`, lines 277-286: posts its closure only in simulation. -/
def simulateInputChange (k : Kernel) (address : Nat) : Kernel :=
  if k.simulation then ioContextPost k (KernelTask.simulateInput address) else k

/-- The state argument built by the closure of `simulateInputChange`, line 284:
`(it == end && it->second == True) ? False : True`.  With a cached entry `it == end` is false, so
the conjunction is false without reading the entry and the result is `True`; without one the
right operand dereferences `end()`, which has no defined result (`none`). -/
def simulatedState (inputValues : Nat → Option InputState) (address : Nat) : Option InputState :=
  match inputValues address with
  | some _ => some InputState.True
  | none => none

/-- Closure posted by `simulateInputChange`, lines 281-285. -/
def simulateInputTask (P : Params) (k : Kernel) (address : Nat) : Kernel :=
  match simulatedState k.inputValues address with
  | some state => receive P k (Message.SetInputState address state)
  | none => { k with undefinedBehaviour := true }

/-- One handler run on the kernel thread. -/
def runKernelTask (P : Params) (k : Kernel) (task : KernelTask) : Kernel :=
  match task with
  | KernelTask.startup => startupTask k
  | KernelTask.send msg => send k msg
  | KernelTask.simulateInput address => simulateInputTask P k address
  | KernelTask.setConfig newConfig => { k with config := newConfig }

/-- Record an action of the main loop. -/
def emit (k : Kernel) (e : MainEffect) : Kernel :=
  { k with effects := k.effects ++ [e] }

/-- One closure run on the main loop, against the controllers as they are at that moment. -/
def runMainTask (P : Params) (c : Controllers) (k : Kernel) (task : MainTask) : Kernel :=
  match task with
  | MainTask.logRX msg => emit k (MainEffect.logDebugRX msg)
  | MainTask.logTX msg => emit k (MainEffect.logDebugTX msg)
  | MainTask.inputStateChanged address state =>
    if state = InputState.Invalid then
      if c.inputs.count (P.defaultInputChannel, address) ≠ 0 then
        emit k (MainEffect.warnInputAddressInvalid address)
      else k
    else
      emit k (MainEffect.updateInputValue P.defaultInputChannel address (toTriState state))
  | MainTask.outputStateChanged address state =>
    if state = OutputState.Invalid then
      if c.outputs.count (P.defaultOutputChannel, address) ≠ 0 then
        emit k (MainEffect.warnOutputAddressInvalid address)
      else k
    else
      emit k (MainEffect.updateOutputValue P.defaultOutputChannel address (toTriStateOutput state))
  | MainTask.requestInputStates =>
    c.inputs.foldl (fun acc it => postSend acc (Message.GetInputState (it.2 % 65536))) k
  | MainTask.requestOutputStates =>
    c.outputs.foldl (fun acc it => postSend acc (Message.GetOutputState (it.2 % 65536))) k
  | MainTask.logInfo text => emit k (MainEffect.logInfoText text)
  | MainTask.onStarted => emit k MainEffect.onStartedCalled

/-! ## Runs -/

/-- The virtual clock moves on by `dt` milliseconds and the kernel thread then polls its timer,
a `boost::asio::steady_timer`: a pending wait whose expiry has been reached completes and its
handler runs, without error, at the new instant. -/
def advance (k : Kernel) (dt : Nat) : Kernel :=
  let k1 := { k with now := k.now + dt }
  match k1.heartbeatExpiry with
  | some expiry =>
    if expiry ≤ k1.now then heartbeatTimeoutExpired { k1 with heartbeatExpiry := none } false
    else k1
  | none => k1

/-- What can happen to a started or starting kernel: calls of its public methods, a message
delivered by the IO handler, either thread running the oldest handler of its queue, and time
passing.  A call of `stop` ends the run and is no event. -/
inductive Event
  | start
  | setConfig (config : Config)
  | setOutput (address : Nat) (value : Bool)
  | simulateInputChange (address : Nat)
  | receive (message : Message)
  | kernelThread
  | mainLoop (c : Controllers)
  | advance (dt : Nat)
  deriving DecidableEq, Repr

/-- One event applied to the state. -/
def step (P : Params) (k : Kernel) (e : Event) : Kernel :=
  match e with
  | Event.start => start k
  | Event.setConfig config => setConfig k config
  | Event.setOutput address value => (setOutput k address value).1
  | Event.simulateInputChange address => simulateInputChange k address
  | Event.receive message => receive P k message
  | Event.kernelThread =>
    match k.ioContext with
    | [] => k
    | task :: rest => runKernelTask P { k with ioContext := rest } task
  | Event.mainLoop c =>
    match k.eventLoop with
    | [] => k
    | task :: rest => runMainTask P c { k with eventLoop := rest } task
  | Event.advance dt => advance k dt

/-- A run: the events applied in order. -/
def run (P : Params) (k : Kernel) (events : List Event) : Kernel :=
  events.foldl (step P) k

/-- The main loop runs every closure queued so far. -/
def drainEventLoop (P : Params) (c : Controllers) (k : Kernel) : Kernel :=
  k.eventLoop.foldl (runMainTask P c) { k with eventLoop := [] }

/-- The kernel thread runs every handler queued so far. -/
def drainIoContext (P : Params) (k : Kernel) : Kernel :=
  k.ioContext.foldl (runKernelTask P) { k with ioContext := [] }

/-- The closures `receive` posts ahead of its switch: the RX debug log line, when debug logging
applies to the message (lines 154-159). -/
def rxLog (k : Kernel) (message : Message) : List MainTask :=
  if debugLogs k message then [MainTask.logRX message] else []

/-- Number of `updateInputValue` calls among the actions of the main loop. -/
def updateInputValueCalls (effects : List MainEffect) : Nat :=
  effects.countP (fun e =>
    match e with
    | MainEffect.updateInputValue _ _ _ => true
    | _ => false)

/-- Whether a message is a `GetInputState` or a `GetOutputState`. -/
def isGetState (message : Message) : Bool :=
  match message with
  | Message.GetInputState _ => true
  | Message.GetOutputState _ => true
  | _ => false

/-- Whether an event delivers a `Features` message to `receive`. -/
def isFeaturesReceived (e : Event) : Bool :=
  match e with
  | Event.receive (Message.Features _ _ _ _) => true
  | _ => false

/-- Sample values for the constants of `kernel.hpp`, used to evaluate the model on concrete
inputs: addresses 1 to 65535, channel 0, the input feature in bit 0 and the output feature in
bit 1 of the first flag byte. -/
def sampleParams : Params :=
  { ioAddressMin := 1
    ioAddressMax := 65535
    defaultInputChannel := 0
    defaultOutputChannel := 0
    featureInput := fun f1 _ _ _ => f1 % 2 == 1
    featureOutput := fun f1 _ _ _ => (f1 / 2) % 2 == 1 }

/-- Sample configuration: heartbeat every 50 ms, no debug logging. -/
def sampleConfig : Config :=
  { heartbeatTimeout := 50, debugLogRXTX := false, debugLogHeartbeat := false }

/-- A simulation kernel just constructed, with an IO handler that accepts every message and a
started callback installed. -/
def freshKernel : Kernel :=
  Kernel.construct sampleConfig true (fun _ => true) true

/-- The kernel after `start` and its start-up closure. -/
def startedKernel : Kernel :=
  run sampleParams freshKernel [Event.start, Event.kernelThread]

/-- Started kernel that has received `Features` announcing inputs and outputs. -/
def featuredKernel : Kernel :=
  receive sampleParams startedKernel (Message.Features 3 0 0 0)

/-- Sample controllers: one input and one output, both at address 100 of channel 0. -/
def sampleControllers : Controllers :=
  { inputs := [(0, 100)], outputs := [(0, 100)] }

/-- Controllers that know no input and no output. -/
def emptyControllers : Controllers :=
  { inputs := [], outputs := [] }

/-- Featured kernel whose input cache holds `True` for address 100, the main loop having run
every closure posted so far. -/
def cachedKernel : Kernel :=
  drainEventLoop sampleParams emptyControllers
    (receive sampleParams featuredKernel (Message.SetInputState 100 InputState.True))

/-- The kernel of `cachedKernel` after `setConfig` with debug logging switched on, the kernel
thread having run the closure that stores the new configuration. -/
def debugKernel : Kernel :=
  run sampleParams cachedKernel
    [Event.setConfig { sampleConfig with debugLogRXTX := true }, Event.kernelThread]

/-- The closures `send` posts: the TX debug log line, when the IO handler took the message and
debug logging applies to it. -/
def txLog (k : Kernel) (message : Message) : List MainTask :=
  if k.ioHandlerSend message && debugLogs k message then [MainTask.logTX message] else []

/-- Whether a closure for the main loop is one of the two that request the known states. -/
def isRequestTask (t : MainTask) : Bool :=
  match t with
  | MainTask.requestInputStates => true
  | MainTask.requestOutputStates => true
  | _ => false

/-- Whether a handler on the kernel context sends a `GetInputState` or `GetOutputState`. -/
def isGetStateTask (t : KernelTask) : Bool :=
  match t with
  | KernelTask.send m => isGetState m
  | _ => false

/-- No `Get*State` message has been sent and none is on its way: none in the sent messages, no
send of one on the kernel context, no requesting closure waiting on the main loop. -/
def noGetState (k : Kernel) : Bool :=
  k.sent.all (fun m => !isGetState m) && k.ioContext.all (fun t => !isGetStateTask t)
    && k.eventLoop.all (fun t => !isRequestTask t)

/-- Started kernel whose main loop has run every closure posted so far: both queues are empty. -/
def idleKernel : Kernel :=
  drainEventLoop sampleParams sampleControllers startedKernel

/-! ## The renaming input ↔ output -/

/-- Renaming of the input states to the output states. -/
def InputState.toOutput (s : InputState) : OutputState :=
  match s with
  | InputState.Undefined => OutputState.Undefined
  | InputState.False => OutputState.False
  | InputState.True => OutputState.True
  | InputState.Invalid => OutputState.Invalid

/-- Renaming of the output states to the input states. -/
def OutputState.toInput (s : OutputState) : InputState :=
  match s with
  | OutputState.Undefined => InputState.Undefined
  | OutputState.False => InputState.False
  | OutputState.True => InputState.True
  | OutputState.Invalid => InputState.Invalid

/-- Renaming input ↔ output on messages. -/
def mirrorMessage (m : Message) : Message :=
  match m with
  | Message.GetInputState a => Message.GetOutputState a
  | Message.GetOutputState a => Message.GetInputState a
  | Message.SetInputState a s => Message.SetOutputState a s.toOutput
  | Message.SetOutputState a s => Message.SetInputState a s.toInput
  | other => other

/-- Renaming input ↔ output on the closures for the main loop. -/
def mirrorTask (t : MainTask) : MainTask :=
  match t with
  | MainTask.logRX m => MainTask.logRX (mirrorMessage m)
  | MainTask.logTX m => MainTask.logTX (mirrorMessage m)
  | MainTask.inputStateChanged a s => MainTask.outputStateChanged a s.toOutput
  | MainTask.outputStateChanged a s => MainTask.inputStateChanged a s.toInput
  | MainTask.requestInputStates => MainTask.requestOutputStates
  | MainTask.requestOutputStates => MainTask.requestInputStates
  | other => other

/-- Renaming input ↔ output on the handlers of the kernel context. -/
def mirrorKernelTask (t : KernelTask) : KernelTask :=
  match t with
  | KernelTask.send m => KernelTask.send (mirrorMessage m)
  | other => other

/-- Renaming input ↔ output on the actions of the main loop. -/
def mirrorEffect (e : MainEffect) : MainEffect :=
  match e with
  | MainEffect.logDebugRX m => MainEffect.logDebugRX (mirrorMessage m)
  | MainEffect.logDebugTX m => MainEffect.logDebugTX (mirrorMessage m)
  | MainEffect.warnInputAddressInvalid a => MainEffect.warnOutputAddressInvalid a
  | MainEffect.warnOutputAddressInvalid a => MainEffect.warnInputAddressInvalid a
  | MainEffect.updateInputValue ch a v => MainEffect.updateOutputValue ch a v
  | MainEffect.updateOutputValue ch a v => MainEffect.updateInputValue ch a v
  | other => other

/-- Renaming input ↔ output on the constants: the default channels and the feature predicates
change places. -/
def mirrorParams (P : Params) : Params :=
  { P with
    defaultInputChannel := P.defaultOutputChannel
    defaultOutputChannel := P.defaultInputChannel
    featureInput := P.featureOutput
    featureOutput := P.featureInput }

/-- Renaming input ↔ output on the controllers. -/
def mirrorControllers (c : Controllers) : Controllers :=
  { inputs := c.outputs, outputs := c.inputs }

/-- Renaming input ↔ output on the kernel state: the caches change places and every message,
closure and action held in the state is renamed. -/
def mirrorKernel (k : Kernel) : Kernel :=
  { k with
    inputValues := fun a => (k.outputValues a).map OutputState.toInput
    outputValues := fun a => (k.inputValues a).map InputState.toOutput
    ioHandlerSend := fun m => k.ioHandlerSend (mirrorMessage m)
    ioContext := k.ioContext.map mirrorKernelTask
    eventLoop := k.eventLoop.map mirrorTask
    sent := k.sent.map mirrorMessage
    effects := k.effects.map mirrorEffect }

end TraintasticDIY

/-! ## The ECoS interface: address ranges and output forwarding

Embedding of `server/src/hardware/interface/ecosinterface.cpp`. -/

namespace ECoSInterface

/-- Constants of `ECoS::Kernel` that ecosinterface.cpp names (`kernel.hpp` of the ECoS protocol
is not among the sources): the channel numbers used as case labels and the address bounds. -/
structure KernelConstants where
  s88 : Nat
  ecosDetector : Nat
  s88AddressMin : Nat
  s88AddressMax : Nat
  ecosDetectorAddressMin : Nat
  ecosDetectorAddressMax : Nat
  dcc : Nat
  motorola : Nat
  outputDCCAddressMin : Nat
  outputDCCAddressMax : Nat
  outputMotorolaAddressMin : Nat
  outputMotorolaAddressMax : Nat
  deriving DecidableEq, Repr

/-- Result of a function that ends in `assert(false); return fallback;`: either a value returned
from a case of its switch, or the assertion reached, with the value returned when assertions are
compiled out. -/
inductive Checked (α : Type)
  | ok (value : α)
  | assertFailed (fallback : α)
  deriving DecidableEq, Repr

/-- The value a caller receives when assertions are compiled out. -/
def Checked.value {α : Type} (r : Checked α) : α :=
  match r with
  | Checked.ok v => v
  | Checked.assertFailed v => v

/-- Whether the failing assertion was reached. -/
def Checked.failed {α : Type} (r : Checked α) : Bool :=
  match r with
  | Checked.ok _ => false
  | Checked.assertFailed _ => true

/-- Method `ECoSInterface::inputAddressMinMax`, lines 102-117. -/
def inputAddressMinMax (K : KernelConstants) (channel : Nat) : Checked (Nat × Nat) :=
  if channel = K.s88 then Checked.ok (K.s88AddressMin, K.s88AddressMax)
  else if channel = K.ecosDetector then
    Checked.ok (K.ecosDetectorAddressMin, K.ecosDetectorAddressMax)
  else Checked.assertFailed (0, 0)

/-- Method `ECoSInterface::outputAddressMinMax`, lines 141-156. -/
def outputAddressMinMax (K : KernelConstants) (channel : Nat) : Checked (Nat × Nat) :=
  if channel = K.dcc then Checked.ok (K.outputDCCAddressMin, K.outputDCCAddressMax)
  else if channel = K.motorola then
    Checked.ok (K.outputMotorolaAddressMin, K.outputMotorolaAddressMax)
  else Checked.assertFailed (0, 0)

/-- Calls the interface forwards to its kernel. -/
inductive KernelCall
  | setOutput (channel address : Nat) (value : Bool)
  | simulateInputChange (channel address : Nat)
  deriving DecidableEq, Repr

/-- The part of the interface these methods use: whether `m_kernel` is set (the interface is
online), the calls made on the kernel so far, and whether a failing assertion was reached. -/
structure Interface where
  kernel : Bool
  kernelCalls : List KernelCall
  assertFailed : Bool
  deriving DecidableEq, Repr

/-- Method `ECoSInterface::setOutputValue`, lines 174-180: the conjunction is evaluated left to
right and stops at the first false operand; `kernelSetOutput` is the result of
`ECoS::Kernel::setOutput`, which is not among the sources.  The range test is the pair overload of
`inRange`; the address is cast to 16 bits for the kernel. -/
def setOutputValue (K : KernelConstants) (kernelSetOutput : Nat → Nat → Bool → Bool)
    (i : Interface) (channel address : Nat) (value : Bool) : Interface × Bool :=
  if i.kernel then
    let range := outputAddressMinMax K channel
    let i1 := { i with assertFailed := i.assertFailed || range.failed }
    if TraintasticDIY.inRange address range.value.1 range.value.2 then
      ({ i1 with kernelCalls := i1.kernelCalls
          ++ [KernelCall.setOutput channel (address % 65536) value] },
        kernelSetOutput channel (address % 65536) value)
    else (i1, false)
  else (i, false)

/-- Method `ECoSInterface::inputSimulateChange`, lines 135-139: the conjunction is evaluated left
to right and stops at the first false operand; the range the source tests is the one returned by
`outputAddressMinMax`.  The kernel method takes the channel and the address as they are. -/
def inputSimulateChange (K : KernelConstants) (i : Interface) (channel address : Nat) :
    Interface :=
  if i.kernel then
    let range := outputAddressMinMax K channel
    let i1 := { i with assertFailed := i.assertFailed || range.failed }
    if TraintasticDIY.inRange address range.value.1 range.value.2 then
      { i1 with kernelCalls := i1.kernelCalls
          ++ [KernelCall.simulateInputChange channel address] }
    else i1
  else i

/-- Sample constants, for evaluating the model on concrete inputs. -/
def sampleConstants : KernelConstants :=
  { s88 := 1, ecosDetector := 2, s88AddressMin := 1, s88AddressMax := 1000,
    ecosDetectorAddressMin := 1, ecosDetectorAddressMax := 1000,
    dcc := 1, motorola := 2, outputDCCAddressMin := 1, outputDCCAddressMax := 2048,
    outputMotorolaAddressMin := 1, outputMotorolaAddressMax := 320 }

/-- An interface that is online and has called nothing yet. -/
def onlineInterface : Interface :=
  { kernel := true, kernelCalls := [], assertFailed := false }

end ECoSInterface

/-! ## The network client

Embedding of `client/src/network/client.cpp`, with the members of `Object` and `TableModel` that
it reads and writes.  The class `Message`, the Qt classes and the declarations of `client.hpp`
are not among the sources: a message is modelled by its header fields and the sequence of values
written into its payload, and Qt's text conversions and hash are parameters. -/

namespace Network

/-- Enum `Client::State`, with the enumerators client.cpp names. -/
inductive State
  | Disconnected
  | Connecting
  | Connected
  | Disconnecting
  | SocketError
  | ErrorAuthenticationFailed
  | ErrorNewSessionFailed
  deriving DecidableEq, Repr

/-- Enum `Message::Command`, with the enumerators client.cpp names and any other value. -/
inductive Command
  | Login
  | NewSession
  | GetObject
  | ReleaseObject
  | ObjectSetProperty
  | ObjectPropertyChanged
  | GetTableModel
  | ReleaseTableModel
  | TableModelSetRegion
  | TableModelColumnHeadersChanged
  | TableModelRowCountChanged
  | TableModelUpdateRegion
  | Other (code : Nat)
  deriving DecidableEq, Repr

/-- Enum `PropertyType`, with the enumerators client.cpp names and any other value. -/
inductive PropertyType
  | Invalid
  | Boolean
  | Integer
  | Float
  | String
  | Object
  | Other (code : Nat)
  deriving DecidableEq, Repr

/-- Enum `InterfaceItemType`: client.cpp names `Property` only. -/
inductive InterfaceItemType
  | Property
  | Other (code : Nat)
  deriving DecidableEq, Repr

/-- Modelled from the spec: a value written into a payload by one of the primitive writers of
`Message` (`message.hpp` is not under src).  Byte strings are lists of bytes, a double is its
bit pattern, a UUID its 128-bit number. -/
inductive Scalar
  | handle (h : Nat)
  | bytes (b : List Nat)
  | propertyType (t : PropertyType)
  | itemType (t : InterfaceItemType)
  | bool (b : Bool)
  | int64 (i : Int)
  | double (bits : Nat)
  | int (i : Int)
  | uint32 (n : Nat)
  | uuid (u : Nat)
  deriving DecidableEq, Repr

/-- Modelled from the spec: an item block inside an object block: the name, the item type and,
for a property, the property type and the value written after it, if any. -/
structure ItemBlock where
  name : List Nat
  itemType : InterfaceItemType
  propertyType : PropertyType
  value : Option Scalar
  deriving DecidableEq, Repr

/-- Modelled from the spec: one top-level element of a payload: a plain value, the object block
that `readObject` reads, or the model block that `readTableModel` reads (whose column count is
the number of headers that follow it). -/
inductive Field
  | value (s : Scalar)
  | objectBlock (handle : Nat) (classId : List Nat) (items : List ItemBlock)
  | tableModelBlock (handle : Nat) (classId : List Nat) (columnHeaders : List (List Nat))
      (rowCount : Int)
  deriving DecidableEq, Repr

/-- Modelled from the spec: a message: command, the flag bits of the header, error code, request
id and payload. -/
structure Message where
  command : Command
  isRequest : Bool
  isResponse : Bool
  isEvent : Bool
  isError : Bool
  errorCode : Nat
  requestId : Nat
  data : List Field
  deriving DecidableEq, Repr

/-- Qt functions client.cpp calls on texts and byte arrays: `QString::toUtf8`,
`QString::fromUtf8`, `QString::toLatin1`, `QString::fromLatin1` and
`QCryptographicHash::hash(..., Sha256)`. -/
structure QtLib where
  toUtf8 : String → List Nat
  fromUtf8 : List Nat → String
  toLatin1 : String → List Nat
  fromLatin1 : List Nat → String
  sha256 : List Nat → List Nat

/-- Modelled from the spec: `invalidHandle` of `handle.hpp` (not under src): "value `0` is
reserved as `INVALID`". -/
def invalidHandle : Nat := 0

/-- A `QVariant` holding a property value, or no value. -/
inductive Value
  | invalid
  | bool (b : Bool)
  | int64 (i : Int)
  | double (bits : Nat)
  | string (s : String)
  deriving DecidableEq, Repr

/-- Class `Property` as client.cpp uses it: name, type and `m_value`. -/
structure Property where
  name : String
  type : PropertyType
  value : Value
  deriving DecidableEq, Repr

/-- Class `Object` of object.hpp: `m_handle`, `m_classId` and the properties among
`m_interfaceItems`, in the order added. -/
structure Object where
  handle : Nat
  classId : String
  properties : List Property
  deriving DecidableEq, Repr

/-- Class `TableModel` of tablemodel.hpp: `m_handle`, `m_classId`, `m_columnHeaders`,
`m_rowCount` and `m_texts`, keyed by `ColumnRow` = (column, row). -/
structure TableModel where
  handle : Nat
  classId : String
  columnHeaders : List String
  rowCount : Int
  texts : Nat × Nat → Option String

/-- Closures registered in `m_requestCallback`: the two lambdas of `socketConnected` and the
lambdas of `getObject` and `getTableModel`, which capture the caller's callback (named by a
number). -/
inductive RequestCallback
  | login
  | newSession
  | getObject (callback : Nat)
  | getTableModel (callback : Nat)
  deriving DecidableEq, Repr

/-- Calls of the callbacks given to `getObject` and `getTableModel`: the callback, the mirror it
receives (a pointer, or none for a null pointer) and the error code. -/
inductive UserCall
  | object (callback : Nat) (object : Option Nat) (errorCode : Nat)
  | tableModel (callback : Nat) (tableModel : Option Nat) (errorCode : Nat)
  deriving DecidableEq, Repr

/-- Qt signals emitted by the client and its mirrors. -/
inductive Signal
  | stateChanged
  | valueChanged (object : Nat) (property : String)
  | valueChangedBool (object : Nat) (property : String) (value : Bool)
  | beginResetModel (tableModel : Nat)
  | endResetModel (tableModel : Nat)
  deriving DecidableEq, Repr

/-- Calls on `m_socket`. -/
inductive SocketCall
  | connectToHost (host : String) (port : Nat)
  | disconnectFromHost
  | write (message : Message)
  deriving DecidableEq, Repr

/-- Members of `Client` followed by its surroundings: the counter from which
`Message::newRequest` takes request ids, the mirrors alive (by pointer), the calls made on the
socket, the signals emitted, the request callbacks and user callbacks invoked, and three marks for
what the model does not follow further: a failing `Q_ASSERT`, a null or dangling pointer
dereferenced, and a read that does not find its value in the payload. -/
structure Client where
  state : State
  username : String
  password : List Nat
  sessionUUID : Nat
  requestCallback : Nat → Option RequestCallback
  objects : Nat → Option Nat
  tableModels : Nat → Option Nat
  nextRequestId : Nat
  objectHeap : Nat → Option Object
  tableModelHeap : Nat → Option TableModel
  nextPointer : Nat
  socket : List SocketCall
  signals : List Signal
  invoked : List (RequestCallback × Message)
  userCalls : List UserCall
  assertFailed : Bool
  undefinedBehaviour : Bool
  readError : Bool

/-- Constructor `Client::Client`: disconnected, nothing registered, nothing leased. -/
def Client.construct (firstRequestId : Nat) : Client :=
  { state := State.Disconnected
    username := ""
    password := []
    sessionUUID := 0
    requestCallback := fun _ => none
    objects := fun _ => none
    tableModels := fun _ => none
    nextRequestId := firstRequestId
    objectHeap := fun _ => none
    tableModelHeap := fun _ => none
    nextPointer := 1
    socket := []
    signals := []
    invoked := []
    userCalls := []
    assertFailed := false
    undefinedBehaviour := false
    readError := false }

/-- Assignment `m[key] = value` on a map. -/
def mapSet {κ α : Type} [DecidableEq κ] (m : κ → Option α) (key : κ) (value : α) :
    κ → Option α :=
  fun k => if k = key then some value else m k

/-- Removal of a key from a map (`erase`, `remove`). -/
def mapErase {κ α : Type} [DecidableEq κ] (m : κ → Option α) (key : κ) : κ → Option α :=
  fun k => if k = key then none else m k

/-- Method `Client::setState`, lines 293-300. -/
def setState (c : Client) (state : State) : Client :=
  if c.state ≠ state then
    { c with state := state, signals := c.signals ++ [Signal.stateChanged] }
  else c

/-- Modelled from the spec: `Message::newRequest` (`message.hpp` is not under src): a request
with the next request id, ids being 16 bits wide and wrapping around. -/
def newRequest (c : Client) (command : Command) (data : List Field) : Client × Message :=
  ({ c with nextRequestId := (c.nextRequestId + 1) % 65536 },
    { command := command, isRequest := true, isResponse := false, isEvent := false,
      isError := false, errorCode := 0, requestId := c.nextRequestId % 65536, data := data })

/-- Modelled from the spec: `Message::newEvent` (`message.hpp` is not under src): an event, whose
request id is zero. -/
def newEvent (command : Command) (data : List Field) : Message :=
  { command := command, isRequest := false, isResponse := false, isEvent := true,
    isError := false, errorCode := 0, requestId := 0, data := data }

/-- Call `m_socket->write` of the whole message. -/
def socketWrite (c : Client) (message : Message) : Client :=
  { c with socket := c.socket ++ [SocketCall.write message] }

/-- Method `Client::send(message)`, lines 198-202. -/
def send (c : Client) (message : Message) : Client :=
  socketWrite { c with assertFailed := c.assertFailed || message.isRequest } message

/-- Method `Client::send(message, callback)`, lines 204-210. -/
def sendRequest (c : Client) (message : Message) (callback : RequestCallback) : Client :=
  let c1 := { c with assertFailed := c.assertFailed || !message.isRequest
    || (c.requestCallback message.requestId).isSome }
  socketWrite
    { c1 with requestCallback := mapSet c1.requestCallback message.requestId callback } message

/-- Method `Client::connectToHost`, lines 69-78; `port` is the port of the URL if it has one and
`defaultPort` the constant of client.hpp. -/
def connectToHost (Q : QtLib) (defaultPort : Nat) (c : Client) (host : String)
    (port : Option Nat) (username password : String) : Client :=
  let c1 := { c with
    username := username
    password := if password.isEmpty then [] else Q.sha256 (Q.toUtf8 password) }
  let c2 := setState c1 State.Connecting
  { c2 with socket := c2.socket
      ++ [SocketCall.connectToHost host ((port.getD defaultPort) % 65536)] }

/-- Method `Client::disconnectFromHost`, lines 80-83. -/
def disconnectFromHost (c : Client) : Client :=
  { c with socket := c.socket ++ [SocketCall.disconnectFromHost] }

/-- Method `Client::cancelRequest`, lines 85-93. -/
def cancelRequest (c : Client) (requestId : Int) : Client :=
  if requestId < 0 ∨ requestId > 65535 then c
  else
    match c.requestCallback requestId.toNat with
    | some _ => { c with requestCallback := mapErase c.requestCallback requestId.toNat }
    | none => c

/-- Method `Client::getObject`, lines 95-109: the state and the request id returned. -/
def getObject (Q : QtLib) (c : Client) (id : String) (callback : Nat) : Client × Nat :=
  let r := newRequest c Command.GetObject [Field.value (Scalar.bytes (Q.toLatin1 id))]
  (sendRequest r.1 r.2 (RequestCallback.getObject callback), r.2.requestId)

/-- Method `Client::getTableModel`, lines 161-175: the state and the request id returned. -/
def getTableModel (Q : QtLib) (c : Client) (id : String) (callback : Nat) : Client × Nat :=
  let r := newRequest c Command.GetTableModel [Field.value (Scalar.bytes (Q.toLatin1 id))]
  (sendRequest r.1 r.2 (RequestCallback.getTableModel callback), r.2.requestId)

/-- Method `Client::releaseObject`, lines 111-119, on the mirror at pointer `object`. -/
def releaseObject (c : Client) (object : Nat) : Client :=
  match c.objectHeap object with
  | none => { c with undefinedBehaviour := true }
  | some o =>
    let c1 := { c with objects := mapErase c.objects o.handle }
    let c2 := send c1 (newEvent Command.ReleaseObject [Field.value (Scalar.handle o.handle)])
    { c2 with objectHeap := mapSet c2.objectHeap object { o with handle := invalidHandle } }

/-- Method `Client::releaseTableModel`, lines 177-185, on the mirror at pointer `tableModel`. -/
def releaseTableModel (c : Client) (tableModel : Nat) : Client :=
  match c.tableModelHeap tableModel with
  | none => { c with undefinedBehaviour := true }
  | some t =>
    let c1 := { c with tableModels := mapErase c.tableModels t.handle }
    let c2 := send c1 (newEvent Command.ReleaseTableModel [Field.value (Scalar.handle t.handle)])
    { c2 with tableModelHeap :=
        mapSet c2.tableModelHeap tableModel { t with handle := invalidHandle } }

/-- Method `Client::setTableModelRegion`, lines 187-196. -/
def setTableModelRegion (c : Client) (tableModel : Nat)
    (columnMin columnMax rowMin rowMax : Int) : Client :=
  match c.tableModelHeap tableModel with
  | none => { c with undefinedBehaviour := true }
  | some t =>
    send c (newEvent Command.TableModelSetRegion
      [Field.value (Scalar.handle t.handle), Field.value (Scalar.int columnMin),
        Field.value (Scalar.int columnMax), Field.value (Scalar.int rowMin),
        Field.value (Scalar.int rowMax)])

/-- Methods `Client::setPropertyBool`, `setPropertyInt64`, `setPropertyDouble` and
`setPropertyString`, lines 121-159: `value` is the value as written, after its type. -/
def setProperty (Q : QtLib) (c : Client) (object : Nat) (name : String) (type : PropertyType)
    (value : Scalar) : Client :=
  match c.objectHeap object with
  | none => { c with undefinedBehaviour := true }
  | some o =>
    send c (newEvent Command.ObjectSetProperty
      [Field.value (Scalar.handle o.handle), Field.value (Scalar.bytes (Q.toLatin1 name)),
        Field.value (Scalar.propertyType type), Field.value value])

/-! ### Reading a payload -/

/-- Template `Message::read<Handle>`: the next value of the payload, if it is a handle. -/
def readHandle (data : List Field) : Option (Nat × List Field) :=
  match data with
  | Field.value (Scalar.handle h) :: rest => some (h, rest)
  | _ => none

/-- Template `Message::read<QByteArray>`. -/
def readBytes (data : List Field) : Option (List Nat × List Field) :=
  match data with
  | Field.value (Scalar.bytes b) :: rest => some (b, rest)
  | _ => none

/-- Template `Message::read<PropertyType>`. -/
def readPropertyType (data : List Field) : Option (PropertyType × List Field) :=
  match data with
  | Field.value (Scalar.propertyType t) :: rest => some (t, rest)
  | _ => none

/-- Template `Message::read<bool>`. -/
def readBool (data : List Field) : Option (Bool × List Field) :=
  match data with
  | Field.value (Scalar.bool b) :: rest => some (b, rest)
  | _ => none

/-- Template `Message::read<int>`. -/
def readInt (data : List Field) : Option (Int × List Field) :=
  match data with
  | Field.value (Scalar.int i) :: rest => some (i, rest)
  | _ => none

/-- Template `Message::read<uint32_t>`. -/
def readUInt32 (data : List Field) : Option (Nat × List Field) :=
  match data with
  | Field.value (Scalar.uint32 n) :: rest => some (n, rest)
  | _ => none

/-- Reading a UUID, `message->read(m_sessionUUID)`. -/
def readUUID (data : List Field) : Option (Nat × List Field) :=
  match data with
  | Field.value (Scalar.uuid u) :: rest => some (u, rest)
  | _ => none

/-- The value read for a property of the given type in `readObject`, lines 236-260: none of the
types `Object`, `Invalid` reads anything and the value stays invalid; a value of another kind
than the type announces is no valid value either. -/
def readItemValue (Q : QtLib) (propertyType : PropertyType) (value : Option Scalar) : Value :=
  match propertyType, value with
  | PropertyType.Boolean, some (Scalar.bool b) => Value.bool b
  | PropertyType.Integer, some (Scalar.int64 i) => Value.int64 i
  | PropertyType.Float, some (Scalar.double d) => Value.double d
  | PropertyType.String, some (Scalar.bytes b) => Value.string (Q.fromUtf8 b)
  | _, _ => Value.invalid

/-- The loop body of `readObject`, lines 227-268, for one item block: the property added, if
any. -/
def readItem (Q : QtLib) (item : ItemBlock) : Option Property :=
  match item.itemType with
  | InterfaceItemType.Property =>
    match readItemValue Q item.propertyType item.value with
    | Value.invalid => none
    | v => some { name := Q.fromLatin1 item.name, type := item.propertyType, value := v }
  | InterfaceItemType.Other _ => none

/-- Method `Client::readObject`, lines 212-276, on an object block. -/
def readObject (Q : QtLib) (handle : Nat) (classId : List Nat) (items : List ItemBlock) :
    Object :=
  { handle := handle, classId := Q.fromLatin1 classId,
    properties := items.filterMap (readItem Q) }

/-- The assertion `Q_ASSERT(value.isValid())` of `readObject` fails for some item. -/
def readObjectAssertFails (Q : QtLib) (items : List ItemBlock) : Bool :=
  items.any (fun item => item.itemType == InterfaceItemType.Property
    && readItemValue Q item.propertyType item.value == Value.invalid)

/-- Method `Client::readTableModel`, lines 278-291, on a model block. -/
def readTableModel (Q : QtLib) (handle : Nat) (classId : List Nat)
    (columnHeaders : List (List Nat)) (rowCount : Int) : TableModel :=
  { handle := handle, classId := Q.fromLatin1 classId,
    columnHeaders := columnHeaders.map Q.fromUtf8, rowCount := rowCount,
    texts := fun _ => none }

/-- Modelled from the spec: `Object::getProperty` (`object.cpp` is not under src): the property of
that name, if the mirror has one. -/
def getProperty (o : Object) (name : String) : Option Property :=
  o.properties.find? (fun p => p.name == name)

/-- Assignment `property->m_value = value` on the property `getProperty` returned. -/
def setPropertyValue (properties : List Property) (name : String) (value : Value) :
    List Property :=
  match properties with
  | [] => []
  | p :: rest =>
    if p.name == name then { p with value := value } :: rest
    else p :: setPropertyValue rest name value

/-- Modelled from the spec: `TableModel::setRowCount` (`tablemodel.cpp` is not under src): the
row count of the mirror becomes the value. -/
def setRowCount (t : TableModel) (value : Int) : TableModel :=
  { t with rowCount := value }

/-- A read that does not find its value: the model stops following the message here. -/
def readFails (c : Client) : Client :=
  { c with readError := true }

/-- The loop `for(i = 0; i < columnCount; i++) push_back(fromUtf8(read<QByteArray>()))`, lines
350-351, with `n` iterations left: the headers pushed, and whether every read found a byte
string. -/
def readColumnHeaders (Q : QtLib) (n : Nat) (data : List Field) : List String × Bool :=
  match n with
  | 0 => ([], true)
  | n + 1 =>
    match readBytes data with
    | none => ([], false)
    | some (b, rest) =>
      let r := readColumnHeaders Q n rest
      (Q.fromUtf8 b :: r.1, r.2)

/-- Outcome of the cell loop of `TableModelUpdateRegion`: it ran to its end, with the texts and
the unread rest of the payload; or a read found no byte string, with the texts stored until
then; or the iterations allowed were used up. -/
inductive LoopResult
  | done (texts : Nat × Nat → Option String) (rest : List Field)
  | readError (texts : Nat × Nat → Option String)
  | outOfFuel

/-- Whether the loops ran to their end. -/
def LoopResult.isDone (r : LoopResult) : Bool :=
  match r with
  | LoopResult.done _ _ => true
  | _ => false

/-- The two nested loops of lines 373-378, entered at the test of the inner loop with
`index = (column, row)`; both counters are `uint32_t` and wrap around on increment.  Each unit of
`fuel` pays for one test of the inner loop. -/
def cellLoop (Q : QtLib) (fuel : Nat) (columnMin columnMax rowMax : Nat) (column row : Nat)
    (data : List Field) (texts : Nat × Nat → Option String) : LoopResult :=
  match fuel with
  | 0 => LoopResult.outOfFuel
  | fuel + 1 =>
    if column ≤ columnMax then
      match readBytes data with
      | none => LoopResult.readError texts
      | some (b, rest) =>
        cellLoop Q fuel columnMin columnMax rowMax ((column + 1) % 4294967296) row rest
          (mapSet texts (column, row) (Q.fromUtf8 b))
    else if (row + 1) % 4294967296 ≤ rowMax then
      cellLoop Q fuel columnMin columnMax rowMax columnMin ((row + 1) % 4294967296) data texts
    else LoopResult.done texts data

/-- The loops of lines 373-378 from their start: the outer loop tests `rowMin <= rowMax` first. -/
def updateRegion (Q : QtLib) (fuel : Nat) (columnMin columnMax rowMin rowMax : Nat)
    (data : List Field) (texts : Nat × Nat → Option String) : LoopResult :=
  if rowMin ≤ rowMax then cellLoop Q fuel columnMin columnMax rowMax columnMin rowMin data texts
  else LoopResult.done texts data

/-! ### Responses and events -/

/-- Lambda of `getObject`, lines 100-107.  For an error response `object` stays null and
`object->handle()` dereferences it. -/
def getObjectCallback (Q : QtLib) (c : Client) (callback : Nat) (message : Message) : Client :=
  if !message.isError then
    match message.data with
    | Field.objectBlock handle classId items :: _ =>
      let c1 := { c with
        objectHeap := mapSet c.objectHeap c.nextPointer (readObject Q handle classId items)
        nextPointer := c.nextPointer + 1
        assertFailed := c.assertFailed || readObjectAssertFails Q items }
      { c1 with
        objects := mapSet c1.objects handle c.nextPointer
        userCalls := c1.userCalls
          ++ [UserCall.object callback (some c.nextPointer) message.errorCode] }
    | _ => readFails c
  else { c with undefinedBehaviour := true }

/-- Lambda of `getTableModel`, lines 166-173.  For an error response `tableModel` stays null and
`tableModel->handle()` dereferences it. -/
def getTableModelCallback (Q : QtLib) (c : Client) (callback : Nat) (message : Message) :
    Client :=
  if !message.isError then
    match message.data with
    | Field.tableModelBlock handle classId columnHeaders rowCount :: _ =>
      let c1 := { c with
        tableModelHeap := mapSet c.tableModelHeap c.nextPointer
          (readTableModel Q handle classId columnHeaders rowCount)
        nextPointer := c.nextPointer + 1 }
      { c1 with
        tableModels := mapSet c1.tableModels handle c.nextPointer
        userCalls := c1.userCalls
          ++ [UserCall.tableModel callback (some c.nextPointer) message.errorCode] }
    | _ => readFails c
  else { c with undefinedBehaviour := true }

/-- Inner lambda of `socketConnected`, lines 403-415, registered for the `NewSession` request. -/
def newSessionCallback (c : Client) (message : Message) : Client :=
  if message.isResponse && !message.isError then
    match readUUID message.data with
    | some (u, _) => setState { c with sessionUUID := u } State.Connected
    | none => readFails c
  else
    disconnectFromHost (setState c State.ErrorNewSessionFailed)

/-- Outer lambda of `socketConnected`, lines 397-422, registered for the `Login` request. -/
def loginCallback (c : Client) (message : Message) : Client :=
  if message.isResponse && !message.isError then
    let r := newRequest c Command.NewSession []
    sendRequest r.1 r.2 RequestCallback.newSession
  else
    disconnectFromHost (setState c State.ErrorAuthenticationFailed)

/-- Method `Client::socketConnected`, lines 391-423. -/
def socketConnected (Q : QtLib) (c : Client) : Client :=
  let r := newRequest c Command.Login
    [Field.value (Scalar.bytes (Q.toUtf8 c.username)), Field.value (Scalar.bytes c.password)]
  sendRequest r.1 r.2 RequestCallback.login

/-- Method `Client::socketDisconnected`, lines 425-428. -/
def socketDisconnected (c : Client) : Client :=
  setState c State.Disconnected

/-- Method `Client::socketError`, lines 430-433. -/
def socketError (c : Client) : Client :=
  setState c State.SocketError

/-- Call `it.value()(message)` of a registered closure. -/
def runCallback (Q : QtLib) (c : Client) (callback : RequestCallback) (message : Message) :
    Client :=
  match callback with
  | RequestCallback.login => loginCallback c message
  | RequestCallback.newSession => newSessionCallback c message
  | RequestCallback.getObject cb => getObjectCallback Q c cb message
  | RequestCallback.getTableModel cb => getTableModelCallback Q c cb message

/-- Whether the closure registered for a request dereferences a null pointer when it is run
on `message`: the lambdas of `getObject` and `getTableModel` do so on an error response (lines
105 and 171), the two lambdas of `socketConnected` never. -/
def dereferencesNull (callback : RequestCallback) (message : Message) : Bool :=
  match callback with
  | RequestCallback.getObject _ => message.isError
  | RequestCallback.getTableModel _ => message.isError
  | _ => false

/-- Case `ObjectPropertyChanged` of `processMessage`, lines 317-343. -/
def objectPropertyChanged (Q : QtLib) (c : Client) (data : List Field) : Client :=
  match readHandle data with
  | none => readFails c
  | some (handle, d1) =>
    match c.objects handle with
    | none => c
    | some object =>
      match c.objectHeap object with
      | none => { c with undefinedBehaviour := true }
      | some o =>
        match readBytes d1 with
        | none => readFails c
        | some (name, d2) =>
          match getProperty o (Q.fromLatin1 name) with
          | none => c
          | some property =>
            match readPropertyType d2 with
            | none => readFails c
            | some (PropertyType.Boolean, d3) =>
              match readBool d3 with
              | none => readFails c
              | some (value, _) =>
                { c with
                  objectHeap := mapSet c.objectHeap object
                    { o with properties :=
                        setPropertyValue o.properties property.name (Value.bool value) }
                  signals := c.signals ++ [Signal.valueChanged object property.name,
                    Signal.valueChangedBool object property.name value] }
            | some (PropertyType.Integer, _) => c
            | some (PropertyType.Float, _) => c
            | some (PropertyType.String, _) => c
            | some (_, _) => c

/-- Case `TableModelColumnHeadersChanged` of `processMessage`, lines 345-354. -/
def tableModelColumnHeadersChanged (Q : QtLib) (c : Client) (data : List Field) : Client :=
  match readHandle data with
  | none => readFails c
  | some (handle, d1) =>
    match c.tableModels handle with
    | none => c
    | some model =>
      match c.tableModelHeap model with
      | none => { c with undefinedBehaviour := true }
      | some t =>
        match readInt d1 with
        | none => readFails c
        | some (columnCount, d2) =>
          let r := readColumnHeaders Q columnCount.toNat d2
          { c with
            tableModelHeap := mapSet c.tableModelHeap model { t with columnHeaders := r.1 }
            readError := c.readError || !r.2
            assertFailed := c.assertFailed || (r.2 && decide ((r.1.length : Int) ≠ columnCount)) }

/-- Case `TableModelRowCountChanged` of `processMessage`, lines 356-359. -/
def tableModelRowCountChanged (c : Client) (data : List Field) : Client :=
  match readHandle data with
  | none => readFails c
  | some (handle, d1) =>
    match c.tableModels handle with
    | none => c
    | some model =>
      match c.tableModelHeap model with
      | none => { c with undefinedBehaviour := true }
      | some t =>
        match readInt d1 with
        | none => readFails c
        | some (value, _) =>
          { c with tableModelHeap := mapSet c.tableModelHeap model (setRowCount t value) }

/-- Case `TableModelUpdateRegion` of `processMessage`, lines 361-382; no result when the
iterations allowed by `fuel` do not bring the loops to their end. -/
def tableModelUpdateRegion (Q : QtLib) (fuel : Nat) (c : Client) (data : List Field) :
    Option Client :=
  match readHandle data with
  | none => some (readFails c)
  | some (handle, d1) =>
    match c.tableModels handle with
    | none => some c
    | some model =>
      match c.tableModelHeap model with
      | none => some { c with undefinedBehaviour := true }
      | some t =>
        match readUInt32 d1 with
        | none => some (readFails c)
        | some (columnMin, d2) =>
          match readUInt32 d2 with
          | none => some (readFails c)
          | some (columnMax, d3) =>
            match readUInt32 d3 with
            | none => some (readFails c)
            | some (rowMin, d4) =>
              match readUInt32 d4 with
              | none => some (readFails c)
              | some (rowMax, d5) =>
                let c1 := { c with signals := c.signals ++ [Signal.beginResetModel model] }
                match updateRegion Q fuel columnMin columnMax rowMin rowMax d5 t.texts with
                | LoopResult.done texts _ =>
                  some { c1 with
                    tableModelHeap := mapSet c1.tableModelHeap model { t with texts := texts }
                    signals := c1.signals ++ [Signal.endResetModel model] }
                | LoopResult.readError texts =>
                  some { c1 with
                    tableModelHeap := mapSet c1.tableModelHeap model { t with texts := texts }
                    readError := true }
                | LoopResult.outOfFuel => none

/-- Method `Client::processMessage`, lines 302-389. -/
def processMessage (Q : QtLib) (fuel : Nat) (c : Client) (message : Message) : Option Client :=
  if message.isResponse then
    match c.requestCallback message.requestId with
    | some callback =>
      let c1 := runCallback Q { c with invoked := c.invoked ++ [(callback, message)] }
        callback message
      some { c1 with requestCallback := mapErase c1.requestCallback message.requestId }
    | none => some c
  else if message.isEvent then
    match message.command with
    | Command.ObjectPropertyChanged => some (objectPropertyChanged Q c message.data)
    | Command.TableModelColumnHeadersChanged =>
      some (tableModelColumnHeadersChanged Q c message.data)
    | Command.TableModelRowCountChanged => some (tableModelRowCountChanged c message.data)
    | Command.TableModelUpdateRegion => tableModelUpdateRegion Q fuel c message.data
    | _ => some { c with assertFailed := true }
  else some c

/-- Messages processed one after the other; no result when one of them has none. -/
def processMessages (Q : QtLib) (fuel : Nat) (c : Client) (messages : List Message) :
    Option Client :=
  match messages with
  | [] => some c
  | m :: rest =>
    match processMessage Q fuel c m with
    | some c1 => processMessages Q fuel c1 rest
    | none => none

/-- A response without error: the test `message->isResponse() && !message->isError()` of the two
lambdas of `socketConnected`. -/
def isGoodResponse (message : Message) : Bool :=
  message.isResponse && !message.isError

/-! ### Sample values -/

/-- Stand-ins for the Qt functions, for evaluating the model on concrete inputs: texts of
characters below 128 are converted byte by character, and the digest is 32 bytes computed from
the sum of the input. -/
def sampleQt : QtLib :=
  { toUtf8 := fun s => s.toList.map Char.toNat
    fromUtf8 := fun b => String.mk (b.map Char.ofNat)
    toLatin1 := fun s => s.toList.map Char.toNat
    fromLatin1 := fun b => String.mk (b.map Char.ofNat)
    sha256 := fun b => List.replicate 32 (b.foldl (fun x y => x + y) 0 % 256) }

/-- A response with the given request id and payload, without error. -/
def response (requestId : Nat) (data : List Field) : Message :=
  { command := Command.Other 0, isRequest := false, isResponse := true, isEvent := false,
    isError := false, errorCode := 0, requestId := requestId, data := data }

/-- An error response with the given request id and error code. -/
def errorResponse (requestId errorCode : Nat) : Message :=
  { command := Command.Other 0, isRequest := false, isResponse := true, isEvent := false,
    isError := true, errorCode := errorCode, requestId := requestId, data := [] }

/-- A client just constructed, request ids starting at 1. -/
def freshClient : Client :=
  Client.construct 1

/-- The fresh client after `connectToHost` as "admin" with password "secret" and the socket's
`connected` signal. -/
def loggingInClient : Client :=
  socketConnected sampleQt
    (connectToHost sampleQt 5740 freshClient "localhost" none "admin" "secret")

/-- The bytes of "notes". -/
def notesBytes : List Nat := [110, 111, 116, 101, 115]

/-- The bytes of "hi". -/
def hiBytes : List Nat := [104, 105]

/-- A client that has leased an object with handle 7, whose mirror has a `String` property
"notes" and a `Boolean` property "on", and a table model with handle 9 and headers "Id",
"Name". -/
def leasedClient : Client :=
  { freshClient with
    state := State.Connected
    objects := fun h => if h = 7 then some 1 else none
    tableModels := fun h => if h = 9 then some 2 else none
    objectHeap := fun p =>
      if p = 1 then
        some { handle := 7, classId := "world",
               properties := [{ name := "notes", type := PropertyType.String,
                                value := Value.string "" },
                              { name := "on", type := PropertyType.Boolean,
                                value := Value.bool false }] }
      else none
    tableModelHeap := fun p =>
      if p = 2 then
        some { handle := 9, classId := "trains", columnHeaders := ["Id", "Name"],
               rowCount := 3, texts := fun _ => none }
      else none
    nextPointer := 3 }

/-- Scenario S4: the update of region (0, 1, 0, 2) of the table model with handle 9, with the six
texts "a" to "f". -/
def updateRegionS4 : Message :=
  newEvent Command.TableModelUpdateRegion
    [Field.value (Scalar.handle 9), Field.value (Scalar.uint32 0),
      Field.value (Scalar.uint32 1), Field.value (Scalar.uint32 0),
      Field.value (Scalar.uint32 2), Field.value (Scalar.bytes [97]),
      Field.value (Scalar.bytes [98]), Field.value (Scalar.bytes [99]),
      Field.value (Scalar.bytes [100]), Field.value (Scalar.bytes [101]),
      Field.value (Scalar.bytes [102])]

/-- The update of the one cell in column 4294967295 of row 0 of the table model with handle 9,
with the text "x". -/
def updateRegionLastColumn : Message :=
  newEvent Command.TableModelUpdateRegion
    [Field.value (Scalar.handle 9), Field.value (Scalar.uint32 4294967295),
      Field.value (Scalar.uint32 4294967295), Field.value (Scalar.uint32 0),
      Field.value (Scalar.uint32 0), Field.value (Scalar.bytes [120])]

/-- A byte string as an element of a payload. -/
def bytesField (b : List Nat) : Field :=
  Field.value (Scalar.bytes b)

/-- What the texts of a table model are to be after the update of the region with first cell
`(columnMin, rowMin)`, `w + 1` columns and `h + 1` rows, when the first `k` texts of `strings`
have been stored in row-major order: those cells hold their texts, every other cell is as
before. -/
def RowMajorUpTo (Q : QtLib) (columnMin rowMin w h : Nat) (strings : List (List Nat))
    (before : Nat × Nat → Option String) (k : Nat) (texts : Nat × Nat → Option String) : Prop :=
  (∀ i j : Nat, i ≤ h → j ≤ w →
    texts (columnMin + j, rowMin + i)
      = if i * (w + 1) + j < k then (strings.get? (i * (w + 1) + j)).map Q.fromUtf8
        else before (columnMin + j, rowMin + i)) ∧
  (∀ c r : Nat, ¬ (columnMin ≤ c ∧ c ≤ columnMin + w ∧ rowMin ≤ r ∧ r ≤ rowMin + h) →
    texts (c, r) = before (c, r))

end Network

/-! ## Frames on the client's socket

Embedding of `Client::socketReadyRead` of `client/src/network/client.cpp`, with the layout of a
frame as the spec gives it. -/

namespace Network

/-- Modelled from the spec: `Message::Header` of `message.hpp` (not under src), "the 8-byte
header is exactly: command u8, flags u8, request_id u16 little-endian, data_size u32
little-endian, length of payload in bytes". -/
structure Header where
  command : Nat
  flags : Nat
  requestId : Nat
  dataSize : Nat
  deriving DecidableEq, Repr

/-- A message as `socketReadyRead` assembles it and hands it to `processMessage`: the header and
the bytes of the payload. -/
structure Frame where
  header : Header
  data : List Nat
  deriving DecidableEq, Repr

/-- Modelled from the spec: the header that 8 bytes stand for, as the struct `Header` laid over
them. -/
def decodeHeader (b : List Nat) : Header :=
  { command := b.getD 0 0
    flags := b.getD 1 0
    requestId := b.getD 2 0 + 256 * b.getD 3 0
    dataSize := b.getD 4 0 + 256 * b.getD 5 0 + 65536 * b.getD 6 0 + 16777216 * b.getD 7 0 }

/-- Modelled from the spec: the 8 bytes of a header. -/
def encodeHeader (h : Header) : List Nat :=
  [h.command % 256, h.flags % 256, h.requestId % 256, h.requestId / 256 % 256,
    h.dataSize % 256, h.dataSize / 256 % 256, h.dataSize / 65536 % 256,
    h.dataSize / 16777216 % 256]

/-- Modelled from the spec: the bytes of a message on the wire, "a frame is header || payload";
they are what `m_socket->write` is given. -/
def encode (f : Frame) : List Nat :=
  encodeHeader f.header ++ f.data

/-- Modelled from the spec: a message that can be constructed: its header fields fit their
widths and `data_size` is the length of its payload. -/
def Frame.constructable (f : Frame) : Prop :=
  f.header.command < 256 ∧ f.header.flags < 256 ∧ f.header.requestId < 65536 ∧
    f.header.dataSize < 4294967296 ∧ f.header.dataSize = f.data.length

instance (f : Frame) : Decidable f.constructable := by
  unfold Frame.constructable
  infer_instance

/-- Member `m_readBuffer`: `offset`, the bytes of `header` read so far (the first `offset`
bytes of the struct; the bytes beyond are overwritten before they are read), and `message`, the
message whose payload is being read, with the bytes of the payload read so far. -/
structure ReadBuffer where
  offset : Nat
  header : List Nat
  message : Option Frame
  deriving DecidableEq, Repr

/-- The read buffer between two messages, and at construction. -/
def ReadBuffer.idle : ReadBuffer :=
  { offset := 0, header := [], message := none }

/-- Method `Client::socketReadyRead`, lines 435-462, with `available` the bytes the socket
holds when the slot is called, so that `m_socket->read(p, n)` takes the first
`min(bytesAvailable, n)` of them.  `process` stands for `processMessage`, applied to the state
`s`.  Each unit of `fuel` pays for one iteration of the loop; there is no result when the
iterations allowed do not empty the socket. -/
def socketReadyRead {σ : Type} (process : σ → Frame → σ) :
    Nat → ReadBuffer → σ → List Nat → Option (ReadBuffer × σ)
  | 0, buffer, s, available => if available.length = 0 then some (buffer, s) else none
  | fuel + 1, buffer, s, available =>
    if available.length = 0 then some (buffer, s)
    else
      match buffer.message with
      | none =>
        let n := min available.length (8 - buffer.offset)
        let header := buffer.header ++ available.take n
        let offset := buffer.offset + n
        if offset = 8 then
          if (decodeHeader header).dataSize ≠ 0 then
            socketReadyRead process fuel
              { offset := 0, header := [],
                message := some { header := decodeHeader header, data := [] } }
              s (available.drop n)
          else
            socketReadyRead process fuel { offset := 0, header := [], message := none }
              (process s { header := decodeHeader header, data := [] }) (available.drop n)
        else
          socketReadyRead process fuel { buffer with offset := offset, header := header } s
            (available.drop n)
      | some message =>
        let n := min available.length (message.header.dataSize - buffer.offset)
        let data := message.data ++ available.take n
        let offset := buffer.offset + n
        if offset = message.header.dataSize then
          socketReadyRead process fuel { offset := 0, header := [], message := none }
            (process s { message with data := data }) (available.drop n)
        else
          socketReadyRead process fuel
            { buffer with offset := offset, message := some { message with data := data } } s
            (available.drop n)

/-- The slot called once per chunk of bytes, in order, each call with as many iterations allowed
as the chunk has bytes. -/
def deliver {σ : Type} (process : σ → Frame → σ) (buffer : ReadBuffer) (s : σ)
    (chunks : List (List Nat)) : Option (ReadBuffer × σ) :=
  match chunks with
  | [] => some (buffer, s)
  | chunk :: rest =>
    match socketReadyRead process chunk.length buffer s chunk with
    | some r => deliver process r.1 r.2 rest
    | none => none

/-- A state in which `socketReadyRead` can be entered: while the header is read `offset` counts
its bytes and is below 8; while the payload is read `offset` counts its bytes and is below the
size of the payload. -/
def ReadBuffer.valid (b : ReadBuffer) : Prop :=
  match b.message with
  | none => b.offset = b.header.length ∧ b.offset < 8
  | some m => b.offset = m.data.length ∧ b.offset < m.header.dataSize

/-- One byte arriving alone: the slot called with that byte as all the socket holds. -/
def pushByte {σ : Type} (process : σ → Frame → σ) (r : ReadBuffer × σ) (byte : Nat) :
    ReadBuffer × σ :=
  (socketReadyRead process 1 r.1 r.2 [byte]).getD r

/-- The read buffer after the bytes `p` of a message that is not yet complete. -/
def bufferOf (p : List Nat) : ReadBuffer :=
  if p.length < 8 then { offset := p.length, header := p, message := none }
  else
    { offset := p.length - 8, header := [],
      message := some { header := decodeHeader (p.take 8), data := p.drop 8 } }

/-- The handler that lists the messages it is given. -/
def collect (frames : List Frame) (f : Frame) : List Frame :=
  frames ++ [f]

/-- The event `TableModelSetRegion` for handle 9 and region (0, 1, 0, 2) as a frame: command
number 21 stands for the command, flag bit 2 marks an event, and the payload is the handle and
the four bounds in 4 bytes each. -/
def sampleFrame : Frame :=
  { header := { command := 21, flags := 4, requestId := 0, dataSize := 20 }
    data := [9, 0, 0, 0, 0, 0, 0, 0, 1, 0, 0, 0, 0, 0, 0, 0, 2, 0, 0, 0] }

/-- A frame without payload: a response to request 258. -/
def sampleEmptyFrame : Frame :=
  { header := { command := 2, flags := 2, requestId := 258, dataSize := 0 }, data := [] }

end Network

/-! ## The Z21 client kernel

Embedding of `server/src/hardware/protocol/z21/clientkernel.cpp`.  The kernel runs on its own
thread, which executes the closures posted on `m_ioContext` and the calls of `receive`; closures
for the main thread go to `EventLoop::call`.  Both queues and the calls of the IO handler are
fields of the state. -/

namespace Z21

open TraintasticDIY (TriState)

/-- Message received from the command station: the length and header fields and the bytes after
them; for a `LAN_X` message the first of these bytes is the X-header, the last the checksum. -/
structure Message where
  dataLen : Nat
  header : Nat
  data : List Nat
  deriving DecidableEq, Repr

/-- Enumeration `Direction` of `shared/src/traintastic/enum/direction.hpp`. -/
inductive Direction
  | Forward
  | Reverse
  deriving DecidableEq, Repr

/-- The three `BroadcastFlags` that `onStart` combines. -/
inductive BroadcastFlags
  | PowerLocoTurnoutChanges
  | SystemStatusChanges
  | AllLocoChanges
  deriving DecidableEq, Repr

/-- Fields of the command `LanXSetLocoDrive` that `decoderChanged` writes; the address bytes
written by `setAddress` are kept as the arguments of that call. -/
structure LanXSetLocoDrive where
  address : Nat
  longAddress : Bool
  db0 : Nat
  speedAndDirection : Nat
  checksum : Nat
  deriving DecidableEq, Repr

/-- Messages the kernel constructs and sends, one constructor per message class, with the
arguments of its constructor call. -/
inductive Sent
  | LanXSetTrackPowerOn
  | LanXSetTrackPowerOff
  | LanXSetStop
  | LanXSetLocoDrive (cmd : LanXSetLocoDrive)
  | LanXSetLocoFunction (address : Nat) (longAddress : Bool) (functionNumber : Nat) (value : Bool)
  | LanGetSerialNumber
  | LanGetHardwareInfo
  | LanSetBroadcastFlags (flags : List BroadcastFlags)
  | LanGetBroadcastFlags
  | LanSystemStateGetData
  | LanLogoff
  deriving DecidableEq, Repr

/-- Names that clientkernel.cpp takes from headers that are not among the sources
(`messages.hpp` of Z21 and of XpressNet, `clientkernel.hpp`, `config.hpp`): the header values
used as case labels, the checksum functions, the three broadcast messages `receive` compares
with, the sizes and accessors of the two replies, the unknown hardware type, the command
`LanXSetLocoDrive` as its default constructor leaves it, the largest function number and the
keep-alive interval. -/
structure Protocol where
  LAN_X : Nat
  LAN_GET_SERIAL_NUMBER : Nat
  LAN_GET_HWINFO : Nat
  isChecksumValid : List Nat → Bool
  calcChecksum : LanXSetLocoDrive → Nat
  LanXBCTrackPowerOff : Message
  LanXBCTrackPowerOn : Message
  LanXBCStopped : Message
  sizeofLanGetSerialNumberReply : Nat
  sizeofLanGetHardwareInfoReply : Nat
  serialNumber : Message → Nat
  hardwareType : Message → Nat
  firmwareVersionMajor : Message → Nat
  firmwareVersionMinor : Message → Nat
  HWT_UNKNOWN : Nat
  defaultLanXSetLocoDrive : LanXSetLocoDrive
  functionNumberMax : Nat
  keepAliveInterval : Nat

/-- The part of `ClientConfig` the kernel reads. -/
structure ClientConfig where
  debugLogRXTX : Bool
  deriving DecidableEq, Repr

/-- The part of a `Decoder` that `decoderChanged` reads.  The throttle enters only through
`Decoder::throttleToSpeedStep(decoder.throttle, n)` (`decoder.hpp` is not among the sources),
whose result for this decoder is the field `throttleToSpeedStep n`; `getFunction n` is the value
of function `n` if the decoder has it. -/
structure Decoder where
  address : Nat
  longAddress : Bool
  speedSteps : Nat
  emergencyStop : Bool
  direction : Direction
  throttleToSpeedStep : Nat → Nat
  getFunction : Nat → Option Bool

/-- Modelled from the spec: the bitset `DecoderChangeFlags` (`decoderchangeflags.hpp` is not
under src), "a bitset of EmergencyStop, Direction, Throttle, SpeedSteps, FunctionValue". -/
structure DecoderChangeFlags where
  emergencyStop : Bool
  direction : Bool
  throttle : Bool
  speedSteps : Bool
  functionValue : Bool
  deriving DecidableEq, Repr

/-- Modelled from the spec: `has(changes, mask)` of `decoderchangeflags.hpp` (not under src):
some flag of the mask is set in `changes`. -/
def has (changes mask : DecoderChangeFlags) : Bool :=
  (changes.emergencyStop && mask.emergencyStop) || (changes.direction && mask.direction)
    || (changes.throttle && mask.throttle) || (changes.speedSteps && mask.speedSteps)
    || (changes.functionValue && mask.functionValue)

/-- Closures that clientkernel.cpp hands to `EventLoop::call`, one constructor per lambda, each
with its captured values. -/
inductive MainTask
  | logRX (msg : Message)
  | logTX (msg : Sent)
  | onTrackPowerOnChanged (value : Bool)
  | onEmergencyStop
  | onSerialNumberChanged (serialNumber : Nat)
  | onHardwareInfoChanged (hardwareType firmwareVersionMajor firmwareVersionMinor : Nat)
  deriving DecidableEq, Repr

/-- Closures posted on `m_ioContext`: the lambdas of `setConfig`, `trackPowerOn`, `trackPowerOff`
and `emergencyStop`, and the send lambda of `postSend`. -/
inductive KernelTask
  | setConfig (newConfig : ClientConfig)
  | trackPowerOn
  | trackPowerOff
  | emergencyStop
  | send (message : Sent)
  deriving DecidableEq, Repr

/-- Members of `ClientKernel` followed by its surroundings: whether each callback is set, the
result of `m_ioHandler->send` per message, the closures waiting on the kernel's context and on
the main loop, the messages handed to the IO handler, how often the keep-alive timer was armed,
whether a failing assertion was reached, and whether `receive` read the X-header of a `LAN_X`
message that has no byte after its header. -/
structure ClientKernel where
  config : ClientConfig
  serialNumber : Nat
  hardwareType : Nat
  firmwareVersionMajor : Nat
  firmwareVersionMinor : Nat
  trackPowerOn : TriState
  emergencyStop : TriState
  onTrackPowerOnChanged : Bool
  onEmergencyStop : Bool
  onSerialNumberChanged : Bool
  onHardwareInfoChanged : Bool
  ioHandlerSend : Sent → Bool
  ioContext : List KernelTask
  eventLoop : List MainTask
  sent : List Sent
  keepAliveTimerStarts : Nat
  assertFailed : Bool
  readOutside : Bool

/-- Call `EventLoop::call(closure)`. -/
def eventLoopCall (k : ClientKernel) (task : MainTask) : ClientKernel :=
  { k with eventLoop := k.eventLoop ++ [task] }

/-- Call `m_ioContext.post(closure)`. -/
def ioContextPost (k : ClientKernel) (task : KernelTask) : ClientKernel :=
  { k with ioContext := k.ioContext ++ [task] }

/-- Method `ClientKernel::setConfig`, lines 40-47. -/
def setConfig (k : ClientKernel) (config : ClientConfig) : ClientKernel :=
  ioContextPost k (KernelTask.setConfig config)

/-- The RX log closure that `receive` posts ahead of its switch, lines 51-56. -/
def rxLog (k : ClientKernel) (message : Message) : List MainTask :=
  if k.config.debugLogRXTX then [MainTask.logRX message] else []

/-- Case `LAN_X` of `receive`, lines 67-113, after the checksum test, for X-header `xheader`. -/
def receiveLanX (P : Protocol) (k : ClientKernel) (message : Message) (xheader : Nat) :
    ClientKernel :=
  if xheader = 0x61 then
    if message = P.LanXBCTrackPowerOff then
      if k.trackPowerOn ≠ TriState.False then
        let k1 := { k with trackPowerOn := TriState.False }
        if k1.onTrackPowerOnChanged then
          eventLoopCall k1 (MainTask.onTrackPowerOnChanged false)
        else k1
      else k
    else if message = P.LanXBCTrackPowerOn then
      if k.trackPowerOn ≠ TriState.True then
        let k1 := { k with trackPowerOn := TriState.True }
        if k1.onTrackPowerOnChanged then
          eventLoopCall k1 (MainTask.onTrackPowerOnChanged true)
        else k1
      else k
    else k
  else if xheader = 0x81 then
    if message = P.LanXBCStopped then
      if k.emergencyStop ≠ TriState.True then
        let k1 := { k with emergencyStop := TriState.True }
        if k1.onEmergencyStop then eventLoopCall k1 MainTask.onEmergencyStop else k1
      else k
    else k
  else k

/-- Method `ClientKernel::receive`, lines 49-187.  The headers listed as not supported, and
every other header, leave the switch at once. -/
def receive (P : Protocol) (k : ClientKernel) (message : Message) : ClientKernel :=
  let k0 := { k with eventLoop := k.eventLoop ++ rxLog k message }
  if message.header = P.LAN_X then
    match message.data with
    | [] => { k0 with readOutside := true }
    | xheader :: _ =>
      if !P.isChecksumValid message.data then k0
      else receiveLanX P k0 message xheader
  else if message.header = P.LAN_GET_SERIAL_NUMBER then
    if message.dataLen = P.sizeofLanGetSerialNumberReply then
      if k0.serialNumber ≠ P.serialNumber message then
        let k1 := { k0 with serialNumber := P.serialNumber message }
        if k1.onSerialNumberChanged then
          eventLoopCall k1 (MainTask.onSerialNumberChanged k1.serialNumber)
        else k1
      else k0
    else k0
  else if message.header = P.LAN_GET_HWINFO then
    if message.dataLen = P.sizeofLanGetHardwareInfoReply then
      if k0.hardwareType ≠ P.hardwareType message
          ∨ k0.firmwareVersionMajor ≠ P.firmwareVersionMajor message
          ∨ k0.firmwareVersionMinor ≠ P.firmwareVersionMinor message then
        let k1 := { k0 with
          hardwareType := P.hardwareType message
          firmwareVersionMajor := P.firmwareVersionMajor message
          firmwareVersionMinor := P.firmwareVersionMinor message }
        if k1.onHardwareInfoChanged then
          eventLoopCall k1 (MainTask.onHardwareInfoChanged k1.hardwareType
            k1.firmwareVersionMajor k1.firmwareVersionMinor)
        else k1
      else k0
    else k0
  else k0

/-- Method `ClientKernel::send`, lines 312-325: the message goes to the IO handler; when the
handler accepts it and debug logging is on, a TX log closure is posted to the main loop. -/
def send (k : ClientKernel) (message : Sent) : ClientKernel :=
  let k1 := { k with sent := k.sent ++ [message] }
  if k.ioHandlerSend message then
    if k1.config.debugLogRXTX then eventLoopCall k1 (MainTask.logTX message) else k1
  else
    k1

/-- Modelled from the spec: `postSend` of `clientkernel.hpp` (not under src), "`post_send(msg)`
that runs on the kernel thread": a closure calling `send(message)` is posted on the kernel's
context. -/
def postSend (k : ClientKernel) (message : Sent) : ClientKernel :=
  ioContextPost k (KernelTask.send message)

/-- Method `ClientKernel::trackPowerOn`, lines 189-197: posts its lambda. -/
def trackPowerOn (k : ClientKernel) : ClientKernel :=
  ioContextPost k KernelTask.trackPowerOn

/-- Method `ClientKernel::trackPowerOff`, lines 199-207: posts its lambda. -/
def trackPowerOff (k : ClientKernel) : ClientKernel :=
  ioContextPost k KernelTask.trackPowerOff

/-- Method `ClientKernel::emergencyStop`, lines 209-217: posts its lambda. -/
def emergencyStop (k : ClientKernel) : ClientKernel :=
  ioContextPost k KernelTask.emergencyStop

/-- The three cases of the switch on `decoder.speedSteps`, lines 226-262, on the command `cmd`;
`speedStep` is a `uint8_t`, and so is the field `speedAndDirection` it is stored in. -/
def setSpeed (decoder : Decoder) (cmd : LanXSetLocoDrive) : LanXSetLocoDrive :=
  if decoder.speedSteps = 14 then
    let speedStep := decoder.throttleToSpeedStep 14 % 256
    let cmd1 := { cmd with db0 := 0x10 }
    if decoder.emergencyStop then { cmd1 with speedAndDirection := 0x01 }
    else if speedStep > 0 then { cmd1 with speedAndDirection := (speedStep + 1) % 256 }
    else cmd1
  else if decoder.speedSteps = 28 then
    let speedStep := decoder.throttleToSpeedStep 28 % 256
    let cmd1 := { cmd with db0 := 0x12 }
    if decoder.emergencyStop then { cmd1 with speedAndDirection := 0x01 }
    else if speedStep > 0 then
      let speedStep1 := (speedStep + 1) % 256
      { cmd1 with
        speedAndDirection := (((speedStep1 &&& 0x01) <<< 4) ||| (speedStep1 >>> 1)) % 256 }
    else cmd1
  else
    let speedStep := decoder.throttleToSpeedStep 126 % 256
    let cmd1 := { cmd with db0 := 0x13 }
    if decoder.emergencyStop then { cmd1 with speedAndDirection := 0x01 }
    else if speedStep > 0 then { cmd1 with speedAndDirection := (speedStep + 1) % 256 }
    else cmd1

/-- The command `LanXSetLocoDrive` that `decoderChanged` builds, lines 223-268. -/
def locoDrive (P : Protocol) (decoder : Decoder) : LanXSetLocoDrive :=
  let cmd0 := { P.defaultLanXSetLocoDrive with
    address := decoder.address, longAddress := decoder.longAddress }
  let cmd1 := setSpeed decoder cmd0
  let cmd2 :=
    if decoder.direction = Direction.Forward then
      { cmd1 with speedAndDirection := cmd1.speedAndDirection ||| 0x80 }
    else cmd1
  { cmd2 with checksum := P.calcChecksum cmd2 }

/-- The mask `EmergencyStop | Direction | Throttle | SpeedSteps` of line 221. -/
def driveMask : DecoderChangeFlags :=
  { emergencyStop := true, direction := true, throttle := true, speedSteps := true,
    functionValue := false }

/-- The mask `FunctionValue` of line 271. -/
def functionMask : DecoderChangeFlags :=
  { emergencyStop := false, direction := false, throttle := false, speedSteps := false,
    functionValue := true }

/-- Method `ClientKernel::decoderChanged`, lines 219-280; the function number is cast to
8 bits. -/
def decoderChanged (P : Protocol) (k : ClientKernel) (decoder : Decoder)
    (changes : DecoderChangeFlags) (functionNumber : Nat) : ClientKernel :=
  if has changes driveMask then
    postSend k (Sent.LanXSetLocoDrive (locoDrive P decoder))
  else if has changes functionMask then
    if functionNumber ≤ P.functionNumberMax then
      match decoder.getFunction functionNumber with
      | some value =>
        postSend k (Sent.LanXSetLocoFunction decoder.address decoder.longAddress
          (functionNumber % 256) value)
      | none => k
    else k
  else k

/-- Method `ClientKernel::startKeepAliveTimer`, lines 327-332. -/
def startKeepAliveTimer (P : Protocol) (k : ClientKernel) : ClientKernel :=
  { k with
    assertFailed := k.assertFailed || !decide (P.keepAliveInterval > 0)
    keepAliveTimerStarts := k.keepAliveTimerStarts + 1 }

/-- Method `ClientKernel::onStart`, lines 282-305. -/
def onStart (P : Protocol) (k : ClientKernel) : ClientKernel :=
  let k1 := { k with
    serialNumber := 0
    hardwareType := P.HWT_UNKNOWN
    firmwareVersionMajor := 0
    firmwareVersionMinor := 0
    trackPowerOn := TriState.Undefined
    emergencyStop := TriState.Undefined }
  let k2 := send k1 Sent.LanGetSerialNumber
  let k3 := send k2 Sent.LanGetHardwareInfo
  let k4 := send k3 (Sent.LanSetBroadcastFlags [BroadcastFlags.PowerLocoTurnoutChanges,
    BroadcastFlags.SystemStatusChanges, BroadcastFlags.AllLocoChanges])
  let k5 := send k4 Sent.LanGetBroadcastFlags
  let k6 := send k5 Sent.LanSystemStateGetData
  startKeepAliveTimer P k6

/-- Method `ClientKernel::onStop`, lines 307-310. -/
def onStop (k : ClientKernel) : ClientKernel :=
  send k Sent.LanLogoff

/-- Method `ClientKernel::keepAliveTimerExpired`, lines 334-342; `ec` tells whether the wait
ended with an error code. -/
def keepAliveTimerExpired (P : Protocol) (k : ClientKernel) (ec : Bool) : ClientKernel :=
  if ec then k
  else startKeepAliveTimer P (send k Sent.LanSystemStateGetData)

/-- The kernel thread runs a closure taken from its context. -/
def runKernelTask (k : ClientKernel) (task : KernelTask) : ClientKernel :=
  match task with
  | KernelTask.setConfig newConfig => { k with config := newConfig }
  | KernelTask.trackPowerOn =>
    if k.trackPowerOn ≠ TriState.True ∨ k.emergencyStop ≠ TriState.False then
      send k Sent.LanXSetTrackPowerOn
    else k
  | KernelTask.trackPowerOff =>
    if k.trackPowerOn ≠ TriState.False then send k Sent.LanXSetTrackPowerOff else k
  | KernelTask.emergencyStop =>
    if k.emergencyStop ≠ TriState.True then send k Sent.LanXSetStop else k
  | KernelTask.send message => send k message

/-- What can happen to a started kernel: calls of its public methods, a message delivered by the
IO handler, the kernel thread running the oldest closure of its context, the keep-alive wait
ending, and a restart. -/
inductive Event
  | receive (message : Message)
  | trackPowerOn
  | trackPowerOff
  | emergencyStop
  | setConfig (config : ClientConfig)
  | decoderChanged (decoder : Decoder) (changes : DecoderChangeFlags) (functionNumber : Nat)
  | kernelThread
  | keepAliveTimerExpired (ec : Bool)
  | onStart

/-- One event applied to the state. -/
def step (P : Protocol) (k : ClientKernel) (e : Event) : ClientKernel :=
  match e with
  | Event.receive message => receive P k message
  | Event.trackPowerOn => trackPowerOn k
  | Event.trackPowerOff => trackPowerOff k
  | Event.emergencyStop => emergencyStop k
  | Event.setConfig config => setConfig k config
  | Event.decoderChanged decoder changes functionNumber =>
    decoderChanged P k decoder changes functionNumber
  | Event.kernelThread =>
    match k.ioContext with
    | [] => k
    | task :: rest => runKernelTask { k with ioContext := rest } task
  | Event.keepAliveTimerExpired ec => keepAliveTimerExpired P k ec
  | Event.onStart => onStart P k

/-- A run: the events applied in order. -/
def run (P : Protocol) (k : ClientKernel) (events : List Event) : ClientKernel :=
  events.foldl (step P) k

/-- Whether an event is a restart of the kernel. -/
def Event.isOnStart (e : Event) : Bool :=
  match e with
  | Event.onStart => true
  | _ => false

/-- The callbacks among the closures of the main loop: everything but the log lines. -/
def callbacks (tasks : List MainTask) : List MainTask :=
  tasks.filter (fun t =>
    match t with
    | MainTask.logRX _ => false
    | MainTask.logTX _ => false
    | _ => true)

/-- The field of `LanXSetLocoDrive` that carries the speed: `speedAndDirection` without the
direction bit 0x80. -/
def speedField (cmd : LanXSetLocoDrive) : Nat :=
  cmd.speedAndDirection &&& 0x7F

/-! ### Sample values -/

/-- Sample values of the protocol names, for evaluating the model on concrete inputs: the header
values and broadcast messages of the Z21 LAN protocol, and the checksum of XpressNet, the
exclusive or of the bytes before it. -/
def sampleProtocol : Protocol :=
  { LAN_X := 0x40
    LAN_GET_SERIAL_NUMBER := 0x10
    LAN_GET_HWINFO := 0x1A
    isChecksumValid := fun data =>
      match data.getLast? with
      | some checksum => data.dropLast.foldl Nat.xor 0 == checksum
      | none => false
    calcChecksum := fun cmd =>
      [0xE4, cmd.db0, cmd.address / 256, cmd.address % 256, cmd.speedAndDirection].foldl
        Nat.xor 0
    LanXBCTrackPowerOff := { dataLen := 7, header := 0x40, data := [0x61, 0x00, 0x61] }
    LanXBCTrackPowerOn := { dataLen := 7, header := 0x40, data := [0x61, 0x01, 0x60] }
    LanXBCStopped := { dataLen := 7, header := 0x40, data := [0x81, 0x00, 0x81] }
    sizeofLanGetSerialNumberReply := 8
    sizeofLanGetHardwareInfoReply := 12
    serialNumber := fun m => m.data.headD 0
    hardwareType := fun m => m.data.headD 0
    firmwareVersionMajor := fun m => (m.data.drop 1).headD 0
    firmwareVersionMinor := fun m => (m.data.drop 2).headD 0
    HWT_UNKNOWN := 0
    defaultLanXSetLocoDrive :=
      { address := 0, longAddress := false, db0 := 0, speedAndDirection := 0, checksum := 0 }
    functionNumberMax := 28
    keepAliveInterval := 15 }

/-- A kernel with every callback set, debug logging off, an IO handler that accepts every
message, and nothing queued or sent. -/
def sampleKernel : ClientKernel :=
  { config := { debugLogRXTX := false }
    serialNumber := 0
    hardwareType := 0
    firmwareVersionMajor := 0
    firmwareVersionMinor := 0
    trackPowerOn := TriState.Undefined
    emergencyStop := TriState.Undefined
    onTrackPowerOnChanged := true
    onEmergencyStop := true
    onSerialNumberChanged := true
    onHardwareInfoChanged := true
    ioHandlerSend := fun _ => true
    ioContext := []
    eventLoop := []
    sent := []
    keepAliveTimerStarts := 0
    assertFailed := false
    readOutside := false }

/-- A decoder with address 3 running forward, with the given speed step setting, whose throttle
gives speed step `speedStep` at every setting. -/
def sampleDecoder (speedSteps speedStep : Nat) : Decoder :=
  { address := 3
    longAddress := false
    speedSteps := speedSteps
    emergencyStop := false
    direction := Direction.Forward
    throttleToSpeedStep := fun _ => speedStep
    getFunction := fun _ => none }

/-- The sample kernel started, after `setConfig` with debug logging switched on, the kernel
thread having run the closure that stores the new configuration. -/
def debugKernel : ClientKernel :=
  run sampleProtocol (onStart sampleProtocol sampleKernel)
    [Event.setConfig { debugLogRXTX := true }, Event.kernelThread]

/-- A `LAN_X` message of the sample protocol whose checksum byte is wrong. -/
def badChecksumMessage : Message :=
  { dataLen := 7, header := 0x40, data := [0x61, 0x00, 0x60] }

end Z21

/-! ## The board: adding tiles

`Board::addTile` is called by `server/test/board/addtile.cpp`; `board.cpp` and the tile classes
are not among the sources, so the method is modelled and the two test cases are embedded as the
source has them. -/

namespace Boards

/-- Error kinds of the spec that the factory can give. -/
inductive ErrorKind
  | UnknownClass
  deriving DecidableEq, Repr

/-- Rotation of a tile, in degrees; the test names `TileRotate::Deg0`. -/
abbrev TileRotate := Nat

/-- The enumerator `TileRotate::Deg0`. -/
def TileRotate.Deg0 : TileRotate := 0

/-- A tile on a board: its class id and its rotation. -/
structure Tile where
  classId : String
  rotate : TileRotate
  deriving DecidableEq, Repr

/-- Modelled from the spec: the factory, "maps class_id → constructor(parent, id); unknown class
fails with ErrorKind::UnknownClass".  Which class ids are registered is the field `registered`
(the table of registered classes is not among the sources). -/
structure Factory where
  registered : String → Bool

/-- Modelled from the spec: construction of a tile through the factory: a registered class id
gives a tile of that class, an unknown one fails with `UnknownClass`. -/
def Factory.create (F : Factory) (classId : String) (rotate : TileRotate) :
    Except ErrorKind Tile :=
  if F.registered classId then Except.ok { classId := classId, rotate := rotate }
  else Except.error ErrorKind.UnknownClass

/-- A board: the tile at each position, if there is one; positions are pairs of `int16_t`. -/
structure Board where
  tiles : Int × Int → Option Tile

/-- The board that `world->boards->add()` gives: no tile on it. -/
def freshBoard : Board :=
  { tiles := fun _ => none }

/-- Modelled from the spec: `Board::addTile(x, y, rotate, classId, replace)` (`board.cpp` is not
under src), as the test cases and the factory sentence of the spec describe it: at an occupied
position without `replace` nothing is added and the result is false; a class id the factory
does not know adds nothing and gives false; otherwise the tile made by the factory is put at the
position, in place of the tile that was there, and the result is true. -/
def addTile (F : Factory) (b : Board) (x y : Int) (rotate : TileRotate) (classId : String)
    (replace : Bool) : Board × Bool :=
  if (b.tiles (x, y)).isSome && !replace then (b, false)
  else
    match F.create classId rotate with
    | Except.error _ => (b, false)
    | Except.ok tile =>
      ({ tiles := fun l => if l = (x, y) then some tile else b.tiles l }, true)

/-- Test case "Board: Add non existing tile", addtile.cpp lines 52-58: whether its one
requirement holds. -/
def testAddNonExistingTile (F : Factory) : Bool :=
  !(addTile F freshBoard 0 0 TileRotate.Deg0 "board_tile.i_n_v_a_l_i_d" false).2

/-- Test case "Board: Add tile", addtile.cpp lines 60-95, for the tile class with class id
`classId`: whether its three requirements hold, the calls made one after the other on the same
board. -/
def testAddTile (F : Factory) (classId : String) : Bool :=
  let r1 := addTile F freshBoard 0 0 TileRotate.Deg0 classId false
  let r2 := addTile F r1.1 0 0 TileRotate.Deg0 classId false
  let r3 := addTile F r2.1 0 0 TileRotate.Deg0 classId true
  r1.2 && !r2.2 && r3.2

/-- A factory that knows two classes, for evaluating the model on concrete inputs. -/
def sampleFactory : Factory :=
  { registered := fun classId =>
      classId == "board_tile.rail.straight" || classId == "board_tile.rail.curve_45" }

/-- The fresh board with a straight rail tile at position (2, 3). -/
def sampleBoard : Board :=
  (addTile sampleFactory freshBoard 2 3 TileRotate.Deg0 "board_tile.rail.straight" false).1

end Boards

namespace TraintasticDIY

/-! ## Auxiliary lemmas -/

/-- Fields that `receive` of a `SetInputState` never changes. -/
theorem receive_setInputState_frame (P : Params) (k : Kernel) (address : Nat)
    (state : InputState) :
    (receive P k (Message.SetInputState address state)).config = k.config ∧
    (receive P k (Message.SetInputState address state)).featureFlagsSet = k.featureFlagsSet ∧
    hasFeatureInput P (receive P k (Message.SetInputState address state))
      = hasFeatureInput P k ∧
    (receive P k (Message.SetInputState address state)).outputValues = k.outputValues ∧
    (receive P k (Message.SetInputState address state)).ioContext = k.ioContext ∧
    (receive P k (Message.SetInputState address state)).sent = k.sent ∧
    (receive P k (Message.SetInputState address state)).effects = k.effects := by
  simp only [receive, restartHeartbeatTimeout, eventLoopCall, hasFeatureInput]
  split_ifs <;> simp

/-- The accepting branch of the `SetInputState` case. -/
theorem receive_setInputState_accept (P : Params) (k : Kernel) (address : Nat)
    (state : InputState) (hset : k.featureFlagsSet = true) (hfeat : hasFeatureInput P k = true)
    (hr : P.ioAddressMin ≤ address ∧ address ≤ P.ioAddressMax)
    (hc : k.inputValues address = none ∨ k.inputValues address ≠ some state) :
    (receive P k (Message.SetInputState address state)).inputValues
      = cacheSet k.inputValues address state ∧
    (receive P k (Message.SetInputState address state)).eventLoop
      = k.eventLoop ++ rxLog k (Message.SetInputState address state)
          ++ [MainTask.inputStateChanged address state] := by
  unfold hasFeatureInput at hfeat
  by_cases hd : debugLogs k (Message.SetInputState address state) = true <;>
  simp [receive, restartHeartbeatTimeout, eventLoopCall, rxLog, hasFeatureInput, inRange, hset,
    hfeat, hd, hr, hc]

/-- The dropping branches of the `SetInputState` case. -/
theorem receive_setInputState_drop (P : Params) (k : Kernel) (address : Nat)
    (state : InputState)
    (h : ¬ (k.featureFlagsSet = true ∧ hasFeatureInput P k = true ∧
      (P.ioAddressMin ≤ address ∧ address ≤ P.ioAddressMax) ∧
      (k.inputValues address = none ∨ k.inputValues address ≠ some state))) :
    (receive P k (Message.SetInputState address state)).inputValues = k.inputValues ∧
    (receive P k (Message.SetInputState address state)).eventLoop
      = k.eventLoop ++ rxLog k (Message.SetInputState address state) := by
  unfold hasFeatureInput at h
  by_cases hd : debugLogs k (Message.SetInputState address state) = true <;>
  by_cases hset : k.featureFlagsSet = true <;>
  by_cases hfeat : P.featureInput k.featureFlags1 k.featureFlags2 k.featureFlags3
    k.featureFlags4 = true <;>
  by_cases hr : (P.ioAddressMin ≤ address ∧ address ≤ P.ioAddressMax) <;>
  by_cases hc : (k.inputValues address = none ∨ k.inputValues address ≠ some state) <;>
  first
    | (simp [receive, restartHeartbeatTimeout, eventLoopCall, rxLog, hasFeatureInput, inRange,
        hd, hset, hfeat, hr, hc]; done)
    | exact absurd (by tauto) h

/-- After `receive` of an in-range `SetInputState` with the input feature on, the cache holds the
received state. -/
theorem receive_setInputState_cached (P : Params) (k : Kernel) (address : Nat)
    (state : InputState) (hset : k.featureFlagsSet = true) (hfeat : hasFeatureInput P k = true)
    (hr : P.ioAddressMin ≤ address ∧ address ≤ P.ioAddressMax) :
    (receive P k (Message.SetInputState address state)).inputValues address = some state := by
  by_cases hc : (k.inputValues address = none ∨ k.inputValues address ≠ some state)
  · rw [(receive_setInputState_accept P k address state hset hfeat hr hc).1]
    simp [cacheSet]
  · rw [(receive_setInputState_drop P k address state (fun h => hc h.2.2.2)).1]
    by_contra hne
    exact hc (Or.inr hne)

/-- Without debug logging of RX and TX, `receive` posts no log line. -/
theorem rxLog_off (k : Kernel) (m : Message) (h : k.config.debugLogRXTX = false) :
    rxLog k m = [] := by
  simp [rxLog, debugLogs, h]

/-- The RX debug log line is the only closure in `rxLog`. -/
theorem rxLog_mem (k : Kernel) (m : Message) (t : MainTask) (h : t ∈ rxLog k m) :
    t = MainTask.logRX m := by
  unfold rxLog at h
  split_ifs at h <;> simp_all

/-- The RX debug log depends on the configuration only. -/
theorem rxLog_congr (k1 k2 : Kernel) (m : Message) (h : k1.config = k2.config) :
    rxLog k1 m = rxLog k2 m := by
  simp [rxLog, debugLogs, h]

/-- What `send` changes: the message joins the sent ones and the TX debug log line may be
posted; every other field listed is kept. -/
theorem send_fields (k : Kernel) (m : Message) :
    (send k m).sent = k.sent ++ [m] ∧ (send k m).ioContext = k.ioContext ∧
    (send k m).eventLoop = k.eventLoop ++ txLog k m ∧ (send k m).config = k.config ∧
    (send k m).now = k.now ∧ (send k m).heartbeatExpiry = k.heartbeatExpiry ∧
    (send k m).onStartedSet = k.onStartedSet ∧ (send k m).ioHandlerSend = k.ioHandlerSend ∧
    (send k m).inputValues = k.inputValues ∧ (send k m).outputValues = k.outputValues ∧
    (send k m).featureFlagsSet = k.featureFlagsSet := by
  simp only [send, eventLoopCall, txLog, debugLogs]
  split_ifs <;> simp_all

/-- Sending a message that is no `Get*State` keeps `noGetState`. -/
theorem noGetState_send (k : Kernel) (m : Message) (hm : isGetState m = false)
    (h : noGetState k = true) : noGetState (send k m) = true := by
  obtain ⟨e1, e2, e3, -⟩ := send_fields k m
  simp only [noGetState, Bool.and_eq_true, e1, e2, e3, List.all_append] at h ⊢
  refine ⟨⟨⟨h.1.1, by simp [hm]⟩, h.1.2⟩, h.2, ?_⟩
  unfold txLog
  split_ifs <;> simp [isRequestTask]

/-- Re-arming the heartbeat timer keeps `noGetState`. -/
theorem noGetState_restart (k : Kernel) (h : noGetState k = true) :
    noGetState (restartHeartbeatTimeout k) = true := by
  simpa [noGetState, restartHeartbeatTimeout] using h

/-- A received message other than `Features` sends nothing, posts nothing on the kernel context
and posts no requesting closure. -/
theorem receive_other_fields (P : Params) (k : Kernel) (m : Message)
    (hm : isFeaturesReceived (Event.receive m) = false) :
    (receive P k m).sent = k.sent ∧ (receive P k m).ioContext = k.ioContext ∧
    (receive P k m).eventLoop.all (fun t => !isRequestTask t)
      = k.eventLoop.all (fun t => !isRequestTask t) := by
  cases m <;>
    first
      | (simp [isFeaturesReceived] at hm; done)
      | (simp only [receive, restartHeartbeatTimeout, eventLoopCall]
         split_ifs <;> simp [isRequestTask])

/-- Receiving a message other than `Features` keeps `noGetState`. -/
theorem noGetState_receive (P : Params) (k : Kernel) (m : Message)
    (hm : isFeaturesReceived (Event.receive m) = false) (h : noGetState k = true) :
    noGetState (receive P k m) = true := by
  obtain ⟨e1, e2, e3⟩ := receive_other_fields P k m hm
  simpa [noGetState, e1, e2, e3] using h

/-- A handler on the kernel context that sends no `Get*State` keeps `noGetState`. -/
theorem noGetState_runKernelTask (P : Params) (k : Kernel) (task : KernelTask)
    (ht : isGetStateTask task = false) (h : noGetState k = true) :
    noGetState (runKernelTask P k task) = true := by
  cases task with
  | startup =>
    have h1 : noGetState { k with ioHandlerStarted := true } = true := by
      simpa [noGetState] using h
    have h2 := noGetState_send _ Message.GetInfo rfl h1
    have h3 := noGetState_restart _ (noGetState_send _ Message.GetFeatures rfl h2)
    simp only [runKernelTask, startupTask]
    split_ifs
    · simpa [noGetState, eventLoopCall, isRequestTask] using h3
    · exact h3
  | send msg => exact noGetState_send k msg ht h
  | simulateInput address =>
    simp only [runKernelTask, simulateInputTask]
    cases hsim : simulatedState k.inputValues address with
    | none => simpa [noGetState] using h
    | some state => exact noGetState_receive P k _ rfl h
  | setConfig newConfig => simpa [runKernelTask, noGetState] using h

/-- A closure on the main loop other than the two requesting ones keeps `noGetState`. -/
theorem noGetState_runMainTask (P : Params) (c : Controllers) (k : Kernel) (task : MainTask)
    (ht : isRequestTask task = false) (h : noGetState k = true) :
    noGetState (runMainTask P c k task) = true := by
  cases task <;>
    first
      | (simp [isRequestTask] at ht; done)
      | (simp only [runMainTask, emit]
         split_ifs <;> simpa [noGetState] using h)
      | simpa [runMainTask, emit, noGetState] using h

/-- Time passing, with a heartbeat sent at most, keeps `noGetState`. -/
theorem noGetState_advance (k : Kernel) (dt : Nat) (h : noGetState k = true) :
    noGetState (advance k dt) = true := by
  simp only [advance]
  split
  · split_ifs
    · simp only [heartbeatTimeoutExpired, Bool.false_eq_true, if_false]
      apply noGetState_restart
      apply noGetState_send _ Message.Heartbeat rfl
      simpa [noGetState] using h
    · simpa [noGetState] using h
  · simpa [noGetState] using h

/-- Every event other than the reception of `Features` keeps `noGetState`. -/
theorem noGetState_step (P : Params) (k : Kernel) (e : Event)
    (he : isFeaturesReceived e = false) (h : noGetState k = true) :
    noGetState (step P k e) = true := by
  cases e with
  | start => simpa [step, start, ioContextPost, noGetState, isGetStateTask] using h
  | setConfig config => simpa [step, setConfig, ioContextPost, noGetState, isGetStateTask] using h
  | setOutput address value =>
    simpa [step, setOutput, postSend, ioContextPost, noGetState, isGetStateTask, isGetState]
      using h
  | simulateInputChange address =>
    simp only [step, simulateInputChange]
    split_ifs
    · simpa [ioContextPost, noGetState, isGetStateTask] using h
    · exact h
  | receive message => exact noGetState_receive P k message he h
  | kernelThread =>
    simp only [step]
    cases hq : k.ioContext with
    | nil => exact h
    | cons task rest =>
      have hk : noGetState { k with ioContext := rest } = true := by
        simp only [noGetState, hq, List.all_cons, Bool.and_eq_true] at h ⊢
        exact ⟨⟨h.1.1, h.1.2.2⟩, h.2⟩
      have ht : isGetStateTask task = false := by
        simp only [noGetState, hq, List.all_cons, Bool.and_eq_true] at h
        simpa using h.1.2.1
      exact noGetState_runKernelTask P _ task ht hk
  | mainLoop c =>
    simp only [step]
    cases hq : k.eventLoop with
    | nil => exact h
    | cons task rest =>
      have hk : noGetState { k with eventLoop := rest } = true := by
        simp only [noGetState, hq, List.all_cons, Bool.and_eq_true] at h ⊢
        exact ⟨h.1, h.2.2⟩
      have ht : isRequestTask task = false := by
        simp only [noGetState, hq, List.all_cons, Bool.and_eq_true] at h
        simpa using h.2.1
      exact noGetState_runMainTask P c _ task ht hk
  | advance dt => exact noGetState_advance k dt h

/-- A run without reception of `Features` keeps `noGetState`. -/
theorem noGetState_run (P : Params) (events : List Event) :
    ∀ k : Kernel, (∀ e ∈ events, isFeaturesReceived e = false) → noGetState k = true →
      noGetState (run P k events) = true := by
  induction events with
  | nil => intro k _ h; exact h
  | cons e rest ih =>
    intro k he h
    have h1 := noGetState_step P k e (he e (List.mem_cons_self e rest)) h
    exact ih (step P k e) (fun e2 h2 => he e2 (List.mem_cons_of_mem e h2)) h1

/-- The loop of `postSend` calls over a controller map posts one send handler per key, in
order. -/
theorem foldl_postSend (f : Nat × Nat → Message) (l : List (Nat × Nat)) :
    ∀ k : Kernel, l.foldl (fun acc it => postSend acc (f it)) k
      = { k with ioContext := k.ioContext ++ l.map (fun it => KernelTask.send (f it)) } := by
  induction l with
  | nil => intro k; simp
  | cons a rest ih =>
    intro k
    simp only [List.foldl_cons]
    rw [ih]
    simp [postSend, ioContextPost]

/-- Running posted send handlers hands their messages to the IO handler, in order. -/
theorem foldl_send_sent (P : Params) (f : Nat × Nat → Message) (l : List (Nat × Nat)) :
    ∀ k : Kernel, ((l.map (fun it => KernelTask.send (f it))).foldl (runKernelTask P) k).sent
      = k.sent ++ l.map f := by
  induction l with
  | nil => intro k; simp
  | cons a rest ih =>
    intro k
    simp only [List.map_cons, List.foldl_cons, runKernelTask, ih, (send_fields k (f a)).1]
    simp

/-- The `Features` case of `receive`: flags stored, requesting closures posted by feature. -/
theorem receive_features_fields (P : Params) (k : Kernel) (f1 f2 f3 f4 : Nat) :
    (receive P k (Message.Features f1 f2 f3 f4)).featureFlagsSet = true ∧
    (receive P k (Message.Features f1 f2 f3 f4)).featureFlags1 = f1 ∧
    (receive P k (Message.Features f1 f2 f3 f4)).featureFlags2 = f2 ∧
    (receive P k (Message.Features f1 f2 f3 f4)).featureFlags3 = f3 ∧
    (receive P k (Message.Features f1 f2 f3 f4)).featureFlags4 = f4 ∧
    (receive P k (Message.Features f1 f2 f3 f4)).eventLoop
      = k.eventLoop ++ rxLog k (Message.Features f1 f2 f3 f4)
          ++ (if P.featureInput f1 f2 f3 f4 then [MainTask.requestInputStates] else [])
          ++ (if P.featureOutput f1 f2 f3 f4 then [MainTask.requestOutputStates] else []) ∧
    (receive P k (Message.Features f1 f2 f3 f4)).ioContext = k.ioContext ∧
    (receive P k (Message.Features f1 f2 f3 f4)).sent = k.sent := by
  by_cases hd : debugLogs k (Message.Features f1 f2 f3 f4) = true <;>
  by_cases hi : P.featureInput f1 f2 f3 f4 = true <;>
  by_cases ho : P.featureOutput f1 f2 f3 f4 = true <;>
  simp [receive, restartHeartbeatTimeout, eventLoopCall, rxLog, hasFeatureInput,
    hasFeatureOutput, hd, hi, ho]

/-- After `Features` on an idle kernel, the main loop posts the `Get*State` sends. -/
theorem drainEventLoop_features (P : Params) (k : Kernel) (f1 f2 f3 f4 : Nat)
    (c : Controllers) (hq : k.eventLoop = []) (hio : k.ioContext = []) :
    (drainEventLoop P c (receive P k (Message.Features f1 f2 f3 f4))).sent = k.sent ∧
    (drainEventLoop P c (receive P k (Message.Features f1 f2 f3 f4))).ioContext
      = (if P.featureInput f1 f2 f3 f4
          then c.inputs.map (fun it => KernelTask.send (Message.GetInputState (it.2 % 65536)))
          else [])
        ++ (if P.featureOutput f1 f2 f3 f4
          then c.outputs.map (fun it => KernelTask.send (Message.GetOutputState (it.2 % 65536)))
          else []) := by
  obtain ⟨-, -, -, -, -, e1, e2, e3⟩ := receive_features_fields P k f1 f2 f3 f4
  unfold drainEventLoop
  rw [e1, hq]
  by_cases hd : debugLogs k (Message.Features f1 f2 f3 f4) = true <;>
  by_cases hi : P.featureInput f1 f2 f3 f4 = true <;>
  by_cases ho : P.featureOutput f1 f2 f3 f4 = true <;>
  simp [rxLog, hd, hi, ho, runMainTask, emit, foldl_postSend, e2, e3, hio]

/-- After `Features` on an idle kernel, with both threads run to the end, the messages sent. -/
theorem features_sent (P : Params) (k : Kernel) (f1 f2 f3 f4 : Nat) (c : Controllers)
    (hq : k.eventLoop = []) (hio : k.ioContext = []) :
    (drainIoContext P (drainEventLoop P c (receive P k (Message.Features f1 f2 f3 f4)))).sent
      = k.sent
        ++ (if P.featureInput f1 f2 f3 f4
            then c.inputs.map (fun it => Message.GetInputState (it.2 % 65536)) else [])
        ++ (if P.featureOutput f1 f2 f3 f4
            then c.outputs.map (fun it => Message.GetOutputState (it.2 % 65536)) else []) := by
  obtain ⟨e1, e2⟩ := drainEventLoop_features P k f1 f2 f3 f4 c hq hio
  unfold drainIoContext
  rw [e2]
  by_cases hi : P.featureInput f1 f2 f3 f4 = true <;>
  by_cases ho : P.featureOutput f1 f2 f3 f4 = true <;>
  simp [hi, ho, List.foldl_append, foldl_send_sent, e1]

/-- Every `receive` re-arms the heartbeat timer and leaves clock, configuration and sent
messages alone. -/
theorem receive_clock_fields (P : Params) (k : Kernel) (m : Message) :
    (receive P k m).heartbeatExpiry = some (k.now + k.config.heartbeatTimeout) ∧
    (receive P k m).now = k.now ∧ (receive P k m).config = k.config ∧
    (receive P k m).sent = k.sent := by
  cases m <;> simp only [receive, restartHeartbeatTimeout, eventLoopCall] <;>
    split_ifs <;> simp

/-- An expiry without error sends one `Heartbeat` and re-arms the timer. -/
theorem heartbeatTimeoutExpired_fields (k : Kernel) :
    (heartbeatTimeoutExpired k false).sent = k.sent ++ [Message.Heartbeat] ∧
    (heartbeatTimeoutExpired k false).heartbeatExpiry
      = some (k.now + k.config.heartbeatTimeout) ∧
    (heartbeatTimeoutExpired k false).now = k.now ∧
    (heartbeatTimeoutExpired k false).config = k.config := by
  obtain ⟨e1, -, -, e4, e5, -⟩ := send_fields k Message.Heartbeat
  simp [heartbeatTimeoutExpired, restartHeartbeatTimeout, e1, e4, e5]

/-- Time passing with the timer armed: a heartbeat is sent exactly when the expiry is reached. -/
theorem advance_fields (k : Kernel) (dt e : Nat) (he : k.heartbeatExpiry = some e) :
    (advance k dt).now = k.now + dt ∧ (advance k dt).config = k.config ∧
    (advance k dt).sent = (if e ≤ k.now + dt then k.sent ++ [Message.Heartbeat] else k.sent) ∧
    (advance k dt).heartbeatExpiry
      = (if e ≤ k.now + dt then some (k.now + dt + k.config.heartbeatTimeout) else some e) := by
  by_cases h : e ≤ k.now + dt
  · simp only [advance, he, h, if_true]
    obtain ⟨e1, e2, e3, e4⟩ := heartbeatTimeoutExpired_fields
      { k with now := k.now + dt, heartbeatExpiry := none }
    simp [e1, e2, e3, e4]
  · simp [advance, he, h]

/-- What the start-up closure does. -/
theorem startupTask_fields (k : Kernel) :
    (startupTask k).ioHandlerStarted = true ∧
    (startupTask k).sent = k.sent ++ [Message.GetInfo, Message.GetFeatures] ∧
    (startupTask k).heartbeatExpiry = some (k.now + k.config.heartbeatTimeout) ∧
    (startupTask k).eventLoop
      = k.eventLoop ++ txLog k Message.GetInfo ++ txLog k Message.GetFeatures
          ++ (if k.onStartedSet then [MainTask.onStarted] else []) ∧
    (startupTask k).now = k.now ∧ (startupTask k).config = k.config := by
  simp only [startupTask, send, eventLoopCall, restartHeartbeatTimeout, txLog, debugLogs]
  split_ifs <;> simp_all

/-- The renaming of states is one to one. -/
theorem toOutput_injective (s t : InputState) (h : s.toOutput = t.toOutput) : s = t := by
  cases s <;> cases t <;> first | rfl | cases h

/-- Renaming an output state twice gives it back. -/
theorem toOutput_toInput (s : OutputState) : s.toInput.toOutput = s := by
  cases s <;> rfl

/-- Renaming an input state twice gives it back. -/
theorem toInput_toOutput (s : InputState) : s.toOutput.toInput = s := by
  cases s <;> rfl

/-- Renaming a cache after an assignment is the assignment on the renamed cache. -/
theorem mirror_cacheSet (m : Nat → Option InputState) (a : Nat) (s : InputState) :
    (fun x => (cacheSet m a s x).map InputState.toOutput)
      = cacheSet (fun x => (m x).map InputState.toOutput) a s.toOutput := by
  funext x
  simp only [cacheSet]
  split_ifs <;> rfl

/-- On the renamed kernel `receive` of `SetOutputState` is the renaming of `receive` of
`SetInputState`. -/
theorem receive_setOutputState_mirror (P : Params) (k : Kernel) (address : Nat)
    (state : InputState) :
    receive (mirrorParams P) (mirrorKernel k) (Message.SetOutputState address state.toOutput)
      = mirrorKernel (receive P k (Message.SetInputState address state)) := by
  have hcs := mirror_cacheSet k.inputValues address state
  by_cases h1 : k.config.debugLogRXTX = true <;>
  by_cases h2 : k.featureFlagsSet = true <;>
  by_cases h3 : P.featureInput k.featureFlags1 k.featureFlags2 k.featureFlags3
    k.featureFlags4 = true <;>
  by_cases h4 : inRange address P.ioAddressMin P.ioAddressMax = true <;>
  by_cases h5 : (k.inputValues address = none ∨ k.inputValues address ≠ some state) <;>
  simp [receive, restartHeartbeatTimeout, eventLoopCall, debugLogs, hasFeatureInput,
    hasFeatureOutput, mirrorKernel, mirrorParams, mirrorTask, mirrorMessage, h1, h2, h3, h4, h5,
    hcs] <;>
  first
    | (intro hn x hx hxo
       have hxs := toOutput_injective _ _ hxo
       subst hxs
       exact h5.elim hn (fun h => h hx))
    | (push_neg at h5
       exact ⟨h5.1, state, h5.2, rfl⟩)

/-- Renaming a message twice gives it back. -/
theorem mirrorMessage_involutive (m : Message) : mirrorMessage (mirrorMessage m) = m := by
  cases m <;> simp [mirrorMessage, toInput_toOutput, toOutput_toInput]

/-- Renaming a closure twice gives it back. -/
theorem mirrorTask_involutive (t : MainTask) : mirrorTask (mirrorTask t) = t := by
  cases t <;> simp [mirrorTask, mirrorMessage_involutive, toInput_toOutput, toOutput_toInput]

/-- Renaming a handler twice gives it back. -/
theorem mirrorKernelTask_involutive (t : KernelTask) :
    mirrorKernelTask (mirrorKernelTask t) = t := by
  cases t <;> simp [mirrorKernelTask, mirrorMessage_involutive]

/-- Renaming an action twice gives it back. -/
theorem mirrorEffect_involutive (e : MainEffect) : mirrorEffect (mirrorEffect e) = e := by
  cases e <;> simp [mirrorEffect, mirrorMessage_involutive]

/-- Renaming a kernel state twice gives it back. -/
theorem mirrorKernel_involutive (k : Kernel) : mirrorKernel (mirrorKernel k) = k := by
  have h3 : (mirrorMessage ∘ mirrorMessage) = id := funext mirrorMessage_involutive
  have h4 : (mirrorTask ∘ mirrorTask) = id := funext mirrorTask_involutive
  have h5 : (mirrorKernelTask ∘ mirrorKernelTask) = id := funext mirrorKernelTask_involutive
  have h6 : (mirrorEffect ∘ mirrorEffect) = id := funext mirrorEffect_involutive
  have h7 : (OutputState.toInput ∘ InputState.toOutput) = id := funext toInput_toOutput
  have h8 : (InputState.toOutput ∘ OutputState.toInput) = id := funext toOutput_toInput
  cases k
  simp [mirrorKernel, h3, h4, h5, h6, h7, h8, mirrorMessage_involutive]

/-- Renaming the constants twice gives them back. -/
theorem mirrorParams_involutive (P : Params) : mirrorParams (mirrorParams P) = P := by
  cases P; rfl

/-- On the renamed kernel the output change closure is the renaming of the input change
closure. -/
theorem runMainTask_outputStateChanged_mirror (P : Params) (c : Controllers) (k : Kernel)
    (address : Nat) (state : InputState) :
    runMainTask (mirrorParams P) (mirrorControllers c) (mirrorKernel k)
        (MainTask.outputStateChanged address state.toOutput)
      = mirrorKernel (runMainTask P c k (MainTask.inputStateChanged address state)) := by
  cases state <;>
    by_cases h : List.count (P.defaultInputChannel, address) c.inputs = 0 <;>
    simp [runMainTask, emit, mirrorKernel, mirrorParams, mirrorControllers, mirrorEffect,
      InputState.toOutput, toTriState, toTriStateOutput, h]

/-! ## Theorems on the claims -/

/-- C1, as the code has it: with the feature flags set and the input feature present, an address
in `[ioAddressMin, ioAddressMax]` and a state other than `Invalid`, two calls of `receive` with
the same `SetInputState(addr, s)` post at most one `updateInputValue` call: the first posts the
change closure, which calls `updateInputValue(defaultInputChannel, addr, toTriState(s))`, unless
the cache already holds `s` for `addr`, and the second posts no change closure and leaves the
input cache as the first left it.  Each call also posts its RX debug log line (`rxLog`) when
debug logging is on, which makes no `updateInputValue` call. -/
theorem receive_setInputState_twice (P : Params) (k : Kernel) (address : Nat)
    (state : InputState) (hset : k.featureFlagsSet = true) (hfeat : hasFeatureInput P k = true)
    (hr : P.ioAddressMin ≤ address ∧ address ≤ P.ioAddressMax)
    (hs : state ≠ InputState.Invalid) :
    (receive P k (Message.SetInputState address state)).eventLoop
      = k.eventLoop ++ rxLog k (Message.SetInputState address state)
          ++ (if k.inputValues address = some state then []
              else [MainTask.inputStateChanged address state]) ∧
    (receive P (receive P k (Message.SetInputState address state))
        (Message.SetInputState address state)).eventLoop
      = (receive P k (Message.SetInputState address state)).eventLoop
          ++ rxLog k (Message.SetInputState address state) ∧
    (receive P (receive P k (Message.SetInputState address state))
        (Message.SetInputState address state)).inputValues
      = (receive P k (Message.SetInputState address state)).inputValues ∧
    (∀ (c : Controllers) (kk : Kernel),
      (runMainTask P c kk (MainTask.inputStateChanged address state)).effects
        = kk.effects ++ [MainEffect.updateInputValue P.defaultInputChannel address
            (toTriState state)]) ∧
    (∀ (c : Controllers) (kk : Kernel),
      updateInputValueCalls
          ((rxLog k (Message.SetInputState address state)).foldl (runMainTask P c) kk).effects
        = updateInputValueCalls kk.effects) := by
  have hcached := receive_setInputState_cached P k address state hset hfeat hr
  have hframe := receive_setInputState_frame P k address state
  have hdrop := receive_setInputState_drop P (receive P k (Message.SetInputState address state))
    address state (fun h => h.2.2.2.elim (fun h0 => by simp [hcached] at h0) (fun h1 => h1 hcached))
  rw [rxLog_congr _ k _ hframe.1] at hdrop
  refine ⟨?_, hdrop.2, hdrop.1, ?_, ?_⟩
  · by_cases hc : k.inputValues address = some state
    · rw [(receive_setInputState_drop P k address state
        (fun h => h.2.2.2.elim (fun h0 => by simp [hc] at h0) (fun h1 => h1 hc))).2]
      simp [hc]
    · rw [(receive_setInputState_accept P k address state hset hfeat hr (Or.inr hc)).2]
      simp [hc]
  · intro c kk
    simp [runMainTask, hs, emit]
  · intro c kk
    by_cases hd : debugLogs k (Message.SetInputState address state) = true <;>
    simp [rxLog, hd, runMainTask, emit, updateInputValueCalls]

/-- Witness of C1 (amended): the featured kernel, address 100, state `True`. -/
theorem receive_setInputState_twice_witness :
    featuredKernel.featureFlagsSet = true ∧ hasFeatureInput sampleParams featuredKernel = true ∧
    (sampleParams.ioAddressMin ≤ 100 ∧ 100 ≤ sampleParams.ioAddressMax) ∧
    InputState.True ≠ InputState.Invalid ∧
    (receive sampleParams (receive sampleParams featuredKernel
        (Message.SetInputState 100 InputState.True))
        (Message.SetInputState 100 InputState.True)).inputValues
      = (receive sampleParams featuredKernel
          (Message.SetInputState 100 InputState.True)).inputValues :=
  ⟨by decide, by decide, by decide, by decide,
    (receive_setInputState_twice sampleParams featuredKernel 100 InputState.True
      (by decide) (by decide) (by decide) (by decide)).2.2.1⟩

/-- C1 as stated fails: in a state with the feature flags set, the input feature present and the
cache already holding `True` for address 100, two calls of `receive` with
`SetInputState(100, True)` post nothing, so no `updateInputValue` call is made for them. -/
theorem receive_setInputState_twice_counterexample :
    cachedKernel.featureFlagsSet = true ∧ hasFeatureInput sampleParams cachedKernel = true ∧
    (sampleParams.ioAddressMin ≤ 100 ∧ 100 ≤ sampleParams.ioAddressMax) ∧
    cachedKernel.eventLoop = [] ∧
    (receive sampleParams (receive sampleParams cachedKernel
        (Message.SetInputState 100 InputState.True))
        (Message.SetInputState 100 InputState.True)).eventLoop = [] ∧
    updateInputValueCalls (drainEventLoop sampleParams sampleControllers
        (receive sampleParams (receive sampleParams cachedKernel
          (Message.SetInputState 100 InputState.True))
          (Message.SetInputState 100 InputState.True))).effects
      = updateInputValueCalls cachedKernel.effects := by
  decide

/-- C2: while `m_featureFlagsSet` is false, which is how `start` leaves it, `receive` of any
`SetInputState` or `SetOutputState` leaves both caches unchanged, posts nothing on the kernel
context and posts nothing to the main loop but its RX debug log line (`rxLog`), which writes a log
line when run: no call reaches either controller. -/
theorem receive_before_features_dropped (P : Params) (k : Kernel)
    (hset : k.featureFlagsSet = false) :
    (∀ k0 : Kernel, (start k0).featureFlagsSet = false) ∧
    (∀ (address : Nat) (state : InputState),
      (receive P k (Message.SetInputState address state)).inputValues = k.inputValues ∧
      (receive P k (Message.SetInputState address state)).outputValues = k.outputValues ∧
      (receive P k (Message.SetInputState address state)).eventLoop
        = k.eventLoop ++ rxLog k (Message.SetInputState address state) ∧
      (receive P k (Message.SetInputState address state)).ioContext = k.ioContext) ∧
    (∀ (address : Nat) (state : OutputState),
      (receive P k (Message.SetOutputState address state)).inputValues = k.inputValues ∧
      (receive P k (Message.SetOutputState address state)).outputValues = k.outputValues ∧
      (receive P k (Message.SetOutputState address state)).eventLoop
        = k.eventLoop ++ rxLog k (Message.SetOutputState address state) ∧
      (receive P k (Message.SetOutputState address state)).ioContext = k.ioContext) ∧
    (∀ (m : Message) (c : Controllers) (kk : Kernel), ∀ t ∈ rxLog k m,
      runMainTask P c kk t = emit kk (MainEffect.logDebugRX m)) := by
  refine ⟨fun k0 => rfl, fun address state => ?_, fun address state => ?_,
    fun m c kk t ht => by rw [rxLog_mem k m t ht]; rfl⟩
  · by_cases hd : debugLogs k (Message.SetInputState address state) = true <;>
    simp [receive, restartHeartbeatTimeout, eventLoopCall, rxLog, hset, hd]
  · by_cases hd : debugLogs k (Message.SetOutputState address state) = true <;>
    simp [receive, restartHeartbeatTimeout, eventLoopCall, rxLog, hset, hd]

/-- Witness of C2, scenario S5: the kernel is started and no `Features` has arrived;
`SetInputState(100, True)` posts nothing, and the main loop, run to the end, makes no
`updateInputValue` call. -/
theorem receive_before_features_dropped_witness :
    startedKernel.featureFlagsSet = false ∧
    (receive sampleParams startedKernel (Message.SetInputState 100 InputState.True)).eventLoop
      = startedKernel.eventLoop
          ++ rxLog startedKernel (Message.SetInputState 100 InputState.True) ∧
    (drainEventLoop sampleParams sampleControllers
      (receive sampleParams startedKernel (Message.SetInputState 100 InputState.True))).effects
      = [MainEffect.onStartedCalled] :=
  ⟨by decide,
    ((receive_before_features_dropped sampleParams startedKernel (by decide)).2.1
      100 InputState.True).2.2.1,
    by decide⟩

/-- C3 as stated fails: with debug logging on, the feature flags set and the input feature
present, `SetInputState(100, True)` on a cache that already holds `True` for address 100, and
`SetInputState(0, True)` with its address below `ioAddressMin`, both leave the cache as it is,
and each has `receive` post a closure to the main loop, the RX debug log line. -/
theorem receive_setInputState_spec_counterexample :
    debugKernel.featureFlagsSet = true ∧ hasFeatureInput sampleParams debugKernel = true ∧
    debugKernel.config.debugLogRXTX = true ∧ debugKernel.eventLoop = [] ∧
    debugKernel.inputValues 100 = some InputState.True ∧
    (receive sampleParams debugKernel
      (Message.SetInputState 100 InputState.True)).inputValues 100 = some InputState.True ∧
    (receive sampleParams debugKernel (Message.SetInputState 100 InputState.True)).eventLoop
      = [MainTask.logRX (Message.SetInputState 100 InputState.True)] ∧
    ¬ (sampleParams.ioAddressMin ≤ 0) ∧
    (receive sampleParams debugKernel
      (Message.SetInputState 0 InputState.True)).inputValues 0 = debugKernel.inputValues 0 ∧
    (receive sampleParams debugKernel (Message.SetInputState 0 InputState.True)).eventLoop
      = [MainTask.logRX (Message.SetInputState 0 InputState.True)] := by
  decide

/-- C3, amended: with the feature flags set and the input feature present, `receive` of
`SetInputState(addr, state)` sets the input cache at `addr` to `state` and posts the change closure
to the main loop exactly when `addr` lies in `[ioAddressMin, ioAddressMax]` and the cache holds no
entry for `addr` or a different one; otherwise the cache is unchanged and no change closure is
posted.  In both cases `receive` posts the RX debug log line `rxLog` ahead of its switch when
debug logging is on, and nothing else; the line is absent when debug logging is off. -/
theorem receive_setInputState_spec (P : Params) (k : Kernel) (address : Nat) (state : InputState)
    (hset : k.featureFlagsSet = true) (hfeat : hasFeatureInput P k = true) :
    ((P.ioAddressMin ≤ address ∧ address ≤ P.ioAddressMax) ∧
        (k.inputValues address = none ∨ k.inputValues address ≠ some state) →
      (receive P k (Message.SetInputState address state)).inputValues
          = cacheSet k.inputValues address state ∧
      (receive P k (Message.SetInputState address state)).inputValues address = some state ∧
      (receive P k (Message.SetInputState address state)).eventLoop
          = k.eventLoop ++ rxLog k (Message.SetInputState address state)
              ++ [MainTask.inputStateChanged address state]) ∧
    (¬ ((P.ioAddressMin ≤ address ∧ address ≤ P.ioAddressMax) ∧
        (k.inputValues address = none ∨ k.inputValues address ≠ some state)) →
      (receive P k (Message.SetInputState address state)).inputValues = k.inputValues ∧
      (receive P k (Message.SetInputState address state)).eventLoop
          = k.eventLoop ++ rxLog k (Message.SetInputState address state)) ∧
    (k.config.debugLogRXTX = false → rxLog k (Message.SetInputState address state) = []) ∧
    (∀ t ∈ rxLog k (Message.SetInputState address state),
      t = MainTask.logRX (Message.SetInputState address state)) := by
  refine ⟨?_, ?_, rxLog_off k _, rxLog_mem k _⟩
  · intro h
    exact ⟨(receive_setInputState_accept P k address state hset hfeat h.1 h.2).1,
      receive_setInputState_cached P k address state hset hfeat h.1,
      (receive_setInputState_accept P k address state hset hfeat h.1 h.2).2⟩
  · intro h
    exact receive_setInputState_drop P k address state (fun h4 => h ⟨h4.2.2.1, h4.2.2.2⟩)

/-- Witness of C3: the featured kernel accepts `SetInputState(100, True)`. -/
theorem receive_setInputState_spec_witness :
    featuredKernel.featureFlagsSet = true ∧ hasFeatureInput sampleParams featuredKernel = true ∧
    (receive sampleParams featuredKernel (Message.SetInputState 100 InputState.True)).eventLoop
      = featuredKernel.eventLoop
          ++ rxLog featuredKernel (Message.SetInputState 100 InputState.True)
          ++ [MainTask.inputStateChanged 100 InputState.True] :=
  ⟨by decide, by decide,
    ((receive_setInputState_spec sampleParams featuredKernel 100 InputState.True
      (by decide) (by decide)).1 ⟨⟨by decide, by decide⟩, by decide⟩).2.2⟩

/-- C4, as the code has it: the closure posted for an accepted `SetInputState(addr, state)`
change emits the warning when `state` is `Invalid` and the input controller knows
`(defaultInputChannel, addr)`, does nothing when `state` is `Invalid` and the controller does not
know the address, and calls `updateInputValue(defaultInputChannel, addr, toTriState(state))`
when `state` is not `Invalid`. -/
theorem inputStateChanged_task_spec (P : Params) (k : Kernel) (address : Nat)
    (state : InputState) (hset : k.featureFlagsSet = true) (hfeat : hasFeatureInput P k = true)
    (hr : P.ioAddressMin ≤ address ∧ address ≤ P.ioAddressMax)
    (hc : k.inputValues address = none ∨ k.inputValues address ≠ some state) :
    (receive P k (Message.SetInputState address state)).eventLoop
      = k.eventLoop ++ rxLog k (Message.SetInputState address state)
          ++ [MainTask.inputStateChanged address state] ∧
    ∀ (c : Controllers) (kk : Kernel),
      (state = InputState.Invalid → (P.defaultInputChannel, address) ∈ c.inputs →
        runMainTask P c kk (MainTask.inputStateChanged address state)
          = emit kk (MainEffect.warnInputAddressInvalid address)) ∧
      (state = InputState.Invalid → (P.defaultInputChannel, address) ∉ c.inputs →
        runMainTask P c kk (MainTask.inputStateChanged address state) = kk) ∧
      (state ≠ InputState.Invalid →
        runMainTask P c kk (MainTask.inputStateChanged address state)
          = emit kk (MainEffect.updateInputValue P.defaultInputChannel address
              (toTriState state))) := by
  refine ⟨(receive_setInputState_accept P k address state hset hfeat hr hc).2, ?_⟩
  intro c kk
  refine ⟨?_, ?_, ?_⟩
  · intro hs hmem
    simp [runMainTask, hs, List.count_eq_zero, hmem]
  · intro hs hmem
    simp [runMainTask, hs, List.count_eq_zero, hmem]
  · intro hs
    simp [runMainTask, hs]

/-- Witness of C4 (amended): `SetInputState(100, Invalid)` on the featured kernel, run against
controllers that know input 100. -/
theorem inputStateChanged_task_spec_witness :
    featuredKernel.featureFlagsSet = true ∧ hasFeatureInput sampleParams featuredKernel = true ∧
    (sampleParams.ioAddressMin ≤ 100 ∧ 100 ≤ sampleParams.ioAddressMax) ∧
    (featuredKernel.inputValues 100 = none ∨
      featuredKernel.inputValues 100 ≠ some InputState.Invalid) ∧
    runMainTask sampleParams sampleControllers freshKernel
        (MainTask.inputStateChanged 100 InputState.Invalid)
      = emit freshKernel (MainEffect.warnInputAddressInvalid 100) :=
  ⟨by decide, by decide, by decide, by decide,
    ((inputStateChanged_task_spec sampleParams featuredKernel 100 InputState.Invalid
      (by decide) (by decide) (by decide) (by decide)).2 sampleControllers freshKernel).1
      rfl (by decide)⟩

/-- C4 as stated fails: for the accepted change `SetInputState(100, Invalid)` and an input
controller that does not know address 100, the posted closure neither warns nor calls
`updateInputValue`: the main loop performs no action for it. -/
theorem inputStateChanged_task_counterexample :
    featuredKernel.featureFlagsSet = true ∧ hasFeatureInput sampleParams featuredKernel = true ∧
    (receive sampleParams featuredKernel (Message.SetInputState 100 InputState.Invalid)).eventLoop
      = featuredKernel.eventLoop ++ [MainTask.inputStateChanged 100 InputState.Invalid] ∧
    (runMainTask sampleParams emptyControllers freshKernel
      (MainTask.inputStateChanged 100 InputState.Invalid)).effects = [] ∧
    updateInputValueCalls (drainEventLoop sampleParams emptyControllers
      (receive sampleParams featuredKernel
        (Message.SetInputState 100 InputState.Invalid))).effects = 0 := by
  decide

/-- C5: `toTriState` maps `False` to `TriState::False`, `True` to `TriState::True`, and both
`Undefined` and `Invalid` to `TriState::Undefined`, for `InputState` and for `OutputState`. -/
theorem toTriState_mapping :
    toTriState InputState.False = TriState.False ∧
    toTriState InputState.True = TriState.True ∧
    toTriState InputState.Undefined = TriState.Undefined ∧
    toTriState InputState.Invalid = TriState.Undefined ∧
    toTriStateOutput OutputState.False = TriState.False ∧
    toTriStateOutput OutputState.True = TriState.True ∧
    toTriStateOutput OutputState.Undefined = TriState.Undefined ∧
    toTriStateOutput OutputState.Invalid = TriState.Undefined :=
  ⟨rfl, rfl, rfl, rfl, rfl, rfl, rfl, rfl⟩

/-- C6, as the code has it: in every run of a constructed kernel in which no `Features` message
has been received, no `GetInputState` and no `GetOutputState` has been sent; `receive` of
`Features` stores the four flag bytes and sets `m_featureFlagsSet`; and, on a kernel with both
queues empty, once the main loop and the kernel thread have run what was posted, exactly one
`GetInputState(addr)` has been sent for every input known to the input controller if the received
flags have the input feature, and none otherwise, followed by exactly one `GetOutputState(addr)`
for every known output if they have the output feature, and none otherwise (`addr` cast to 16
bits). -/
theorem features_gating (P : Params) :
    (∀ (config : Config) (simulation : Bool) (ioSend : Message → Bool) (onStarted : Bool)
        (events : List Event), (∀ e ∈ events, isFeaturesReceived e = false) →
      ∀ m ∈ (run P (Kernel.construct config simulation ioSend onStarted) events).sent,
        isGetState m = false) ∧
    (∀ (k : Kernel) (f1 f2 f3 f4 : Nat),
      (receive P k (Message.Features f1 f2 f3 f4)).featureFlagsSet = true ∧
      (receive P k (Message.Features f1 f2 f3 f4)).featureFlags1 = f1 ∧
      (receive P k (Message.Features f1 f2 f3 f4)).featureFlags2 = f2 ∧
      (receive P k (Message.Features f1 f2 f3 f4)).featureFlags3 = f3 ∧
      (receive P k (Message.Features f1 f2 f3 f4)).featureFlags4 = f4) ∧
    (∀ (k : Kernel) (f1 f2 f3 f4 : Nat) (c : Controllers),
      k.eventLoop = [] → k.ioContext = [] →
      (drainIoContext P (drainEventLoop P c (receive P k (Message.Features f1 f2 f3 f4)))).sent
        = k.sent
          ++ (if P.featureInput f1 f2 f3 f4
              then c.inputs.map (fun it => Message.GetInputState (it.2 % 65536)) else [])
          ++ (if P.featureOutput f1 f2 f3 f4
              then c.outputs.map (fun it => Message.GetOutputState (it.2 % 65536)) else [])) := by
  refine ⟨?_, ?_, ?_⟩
  · intro config simulation ioSend onStarted events hev m hm
    have h := noGetState_run P events (Kernel.construct config simulation ioSend onStarted) hev rfl
    simp only [noGetState, Bool.and_eq_true, List.all_eq_true] at h
    simpa using h.1.1 m hm
  · intro k f1 f2 f3 f4
    obtain ⟨e1, e2, e3, e4, e5, -⟩ := receive_features_fields P k f1 f2 f3 f4
    exact ⟨e1, e2, e3, e4, e5⟩
  · intro k f1 f2 f3 f4 c hq hio
    exact features_sent P k f1 f2 f3 f4 c hq hio

/-- Witness of C6 (amended): a run without `Features`, and `Features(3, 0, 0, 0)` received by the
idle kernel with one known input and one known output. -/
theorem features_gating_witness :
    (∀ e ∈ [Event.start, Event.kernelThread,
        Event.receive (Message.SetInputState 100 InputState.True),
        Event.mainLoop sampleControllers, Event.advance 60], isFeaturesReceived e = false) ∧
    (∀ m ∈ (run sampleParams (Kernel.construct sampleConfig true (fun _ => true) true)
        [Event.start, Event.kernelThread,
          Event.receive (Message.SetInputState 100 InputState.True),
          Event.mainLoop sampleControllers, Event.advance 60]).sent, isGetState m = false) ∧
    idleKernel.eventLoop = [] ∧ idleKernel.ioContext = [] ∧
    (drainIoContext sampleParams (drainEventLoop sampleParams sampleControllers
      (receive sampleParams idleKernel (Message.Features 3 0 0 0)))).sent
      = idleKernel.sent
        ++ (if sampleParams.featureInput 3 0 0 0
            then sampleControllers.inputs.map (fun it => Message.GetInputState (it.2 % 65536))
            else [])
        ++ (if sampleParams.featureOutput 3 0 0 0
            then sampleControllers.outputs.map (fun it => Message.GetOutputState (it.2 % 65536))
            else []) :=
  ⟨by decide,
    (features_gating sampleParams).1 sampleConfig true (fun _ => true) true _ (by decide),
    by decide, by decide,
    (features_gating sampleParams).2.2 idleKernel 3 0 0 0 sampleControllers (by decide)
      (by decide)⟩

/-- C6 as stated fails: the idle kernel receives `Features(0, 0, 0, 0)`, flags without the input
and output features, while the controllers know input 100 and output 100; the flags are set and,
with both threads run to the end, no `GetInputState` and no `GetOutputState` has been sent. -/
theorem features_gating_counterexample :
    idleKernel.eventLoop = [] ∧ idleKernel.ioContext = [] ∧
    sampleControllers.inputs = [(0, 100)] ∧ sampleControllers.outputs = [(0, 100)] ∧
    (receive sampleParams idleKernel (Message.Features 0 0 0 0)).featureFlagsSet = true ∧
    (drainIoContext sampleParams (drainEventLoop sampleParams sampleControllers
      (receive sampleParams idleKernel (Message.Features 0 0 0 0)))).sent
      = [Message.GetInfo, Message.GetFeatures] := by
  decide

/-- C7 at the failing input: a simulation kernel whose cache holds `True` for address 100.  The
closure of `simulateInputChange(100)` injects `SetInputState(100, True)`, not
`SetInputState(100, False)`: the cache still holds `True` afterwards and no change is posted. -/
theorem simulateInputChange_cached_true :
    cachedKernel.simulation = true ∧ cachedKernel.inputValues 100 = some InputState.True ∧
    simulatedState cachedKernel.inputValues 100 = some InputState.True ∧
    (run sampleParams cachedKernel
      [Event.simulateInputChange 100, Event.kernelThread]).inputValues 100
      = some InputState.True ∧
    (run sampleParams cachedKernel
      [Event.simulateInputChange 100, Event.kernelThread]).eventLoop = [] := by
  decide

/-- C8: every `receive`, whatever the opcode, re-arms the heartbeat timer to expire
`heartbeatTimeout` after the current instant; an expiry without error sends exactly one
`Heartbeat` and re-arms the timer, and an aborted wait does nothing; when time passes, a heartbeat
is sent exactly if the expiry has been reached.  Scenario S6: with `heartbeatTimeout` = 50 ms, a
kernel started at 0 ms that receives a frame at 49 ms has sent nothing more by 98 ms, and after
51 ms more it has sent exactly one `Heartbeat`. -/
theorem heartbeat_liveness (P : Params) :
    (∀ (k : Kernel) (m : Message),
      (receive P k m).heartbeatExpiry = some (k.now + k.config.heartbeatTimeout)) ∧
    (∀ k : Kernel,
      (heartbeatTimeoutExpired k false).sent = k.sent ++ [Message.Heartbeat] ∧
      (heartbeatTimeoutExpired k false).heartbeatExpiry
        = some (k.now + k.config.heartbeatTimeout) ∧
      heartbeatTimeoutExpired k true = k) ∧
    (∀ (k : Kernel) (dt e : Nat), k.heartbeatExpiry = some e →
      (advance k dt).sent
        = (if e ≤ k.now + dt then k.sent ++ [Message.Heartbeat] else k.sent)) ∧
    (∀ (config : Config) (simulation : Bool) (ioSend : Message → Bool) (onStarted : Bool),
      config.heartbeatTimeout = 50 →
      (run P (Kernel.construct config simulation ioSend onStarted)
        [Event.start, Event.kernelThread, Event.advance 49, Event.receive Message.Heartbeat,
          Event.advance 49]).sent = [Message.GetInfo, Message.GetFeatures] ∧
      (run P (Kernel.construct config simulation ioSend onStarted)
        [Event.start, Event.kernelThread, Event.advance 49, Event.receive Message.Heartbeat,
          Event.advance 49, Event.advance 51]).sent
        = [Message.GetInfo, Message.GetFeatures, Message.Heartbeat]) := by
  refine ⟨fun k m => (receive_clock_fields P k m).1, fun k => ?_, fun k dt e he => ?_, ?_⟩
  · obtain ⟨e1, e2, -⟩ := heartbeatTimeoutExpired_fields k
    exact ⟨e1, e2, rfl⟩
  · exact (advance_fields k dt e he).2.2.1
  · intro config simulation ioSend onStarted hto
    have hs : step P (step P (Kernel.construct config simulation ioSend onStarted) Event.start)
        Event.kernelThread
        = startupTask { start (Kernel.construct config simulation ioSend onStarted)
            with ioContext := [] } := rfl
    obtain ⟨-, s2, s3, -, s5, s6⟩ := startupTask_fields
      { start (Kernel.construct config simulation ioSend onStarted) with ioContext := [] }
    generalize startupTask { start (Kernel.construct config simulation ioSend onStarted)
      with ioContext := [] } = k0 at hs s2 s3 s5 s6
    have c0 : k0.config.heartbeatTimeout = 50 := by rw [s6]; exact hto
    have t0 : k0.now = 0 := by rw [s5]; rfl
    have x0 : k0.sent = [Message.GetInfo, Message.GetFeatures] := by rw [s2]; rfl
    have y0 : k0.heartbeatExpiry = some 50 := by rw [s3]; simp [start, Kernel.construct, ioContextPost, hto]
    obtain ⟨a1, a2, a3, a4⟩ := advance_fields k0 49 50 y0
    rw [t0] at a1 a3 a4
    norm_num at a1 a3 a4
    obtain ⟨b1, b2, b3, b4⟩ := receive_clock_fields P (advance k0 49) Message.Heartbeat
    rw [a1, a2, c0] at b1
    obtain ⟨d1, d2, d3, d4⟩ := advance_fields (receive P (advance k0 49) Message.Heartbeat)
      49 99 b1
    rw [b2, a1] at d1 d3 d4
    norm_num at d1 d3 d4
    obtain ⟨g1, g2, g3, g4⟩ := advance_fields
      (advance (receive P (advance k0 49) Message.Heartbeat) 49) 51 99 d4
    rw [d1] at g3
    norm_num at g3
    simp only [run, List.foldl_cons, List.foldl_nil, hs]
    simp only [step]
    refine ⟨?_, ?_⟩
    · rw [d3, b4, a3, x0]
    · rw [g3, d3, b4, a3, x0]
      rfl

/-- Witness of C8: the started sample kernel, whose timer expires at 50 ms, sends a heartbeat when
60 ms pass, and scenario S6 on the sample configuration. -/
theorem heartbeat_liveness_witness :
    startedKernel.heartbeatExpiry = some 50 ∧
    (advance startedKernel 60).sent
      = (if 50 ≤ startedKernel.now + 60 then startedKernel.sent ++ [Message.Heartbeat]
          else startedKernel.sent) ∧
    sampleConfig.heartbeatTimeout = 50 ∧
    (run sampleParams (Kernel.construct sampleConfig true (fun _ => true) true)
      [Event.start, Event.kernelThread, Event.advance 49, Event.receive Message.Heartbeat,
        Event.advance 49, Event.advance 51]).sent
      = [Message.GetInfo, Message.GetFeatures, Message.Heartbeat] :=
  ⟨by decide, (heartbeat_liveness sampleParams).2.2.1 startedKernel 60 50 (by decide),
    by decide,
    ((heartbeat_liveness sampleParams).2.2.2 sampleConfig true (fun _ => true) true
      (by decide)).2⟩

/-- C9: `setOutput(addr, value)` posts exactly one send handler, for `SetOutputState(addr, True)`
when `value` is true and for `SetOutputState(addr, False)` when it is false, returns `true` at
once, nothing being sent or awaited before it returns, and leaves the caches unchanged; the posted
handler, when run, hands that one message to the IO handler and leaves the output cache
unchanged. -/
theorem setOutput_spec (P : Params) (k : Kernel) (address : Nat) (value : Bool) :
    (setOutput k address true).1.ioContext
      = k.ioContext ++ [KernelTask.send (Message.SetOutputState address OutputState.True)] ∧
    (setOutput k address false).1.ioContext
      = k.ioContext ++ [KernelTask.send (Message.SetOutputState address OutputState.False)] ∧
    (setOutput k address value).2 = true ∧
    (setOutput k address value).1.outputValues = k.outputValues ∧
    (setOutput k address value).1.inputValues = k.inputValues ∧
    (setOutput k address value).1.sent = k.sent ∧
    (setOutput k address value).1.eventLoop = k.eventLoop ∧
    (∀ (kk : Kernel) (m : Message),
      (runKernelTask P kk (KernelTask.send m)).sent = kk.sent ++ [m] ∧
      (runKernelTask P kk (KernelTask.send m)).outputValues = kk.outputValues) := by
  refine ⟨rfl, rfl, rfl, rfl, rfl, rfl, rfl, fun kk m => ?_⟩
  obtain ⟨e1, -, -, -, -, -, -, -, -, e10, -⟩ := send_fields kk m
  exact ⟨e1, e10⟩

/-- C10: `start` resets `m_featureFlagsSet` to false and the four flag bytes to `None` and posts
the start-up closure; that closure starts the IO handler, sends `GetInfo` and then `GetFeatures`,
arms the heartbeat timer and then posts the started callback to the main loop when one is set
(`txLog` being the TX debug log lines of the two sends); on a kernel just constructed, `GetInfo`
and `GetFeatures` are the first two messages sent. -/
theorem start_spec (P : Params) :
    (∀ k : Kernel,
      (start k).featureFlagsSet = false ∧
      (start k).featureFlags1 = FeatureFlagsNone ∧ (start k).featureFlags2 = FeatureFlagsNone ∧
      (start k).featureFlags3 = FeatureFlagsNone ∧ (start k).featureFlags4 = FeatureFlagsNone ∧
      (start k).ioContext = k.ioContext ++ [KernelTask.startup] ∧
      (start k).sent = k.sent ∧ (start k).eventLoop = k.eventLoop) ∧
    (∀ k : Kernel,
      (runKernelTask P k KernelTask.startup).ioHandlerStarted = true ∧
      (runKernelTask P k KernelTask.startup).sent
        = k.sent ++ [Message.GetInfo, Message.GetFeatures] ∧
      (runKernelTask P k KernelTask.startup).heartbeatExpiry
        = some (k.now + k.config.heartbeatTimeout) ∧
      (runKernelTask P k KernelTask.startup).eventLoop
        = k.eventLoop ++ txLog k Message.GetInfo ++ txLog k Message.GetFeatures
            ++ (if k.onStartedSet then [MainTask.onStarted] else [])) ∧
    (∀ (c : Controllers) (k : Kernel),
      (runMainTask P c k MainTask.onStarted).effects
        = k.effects ++ [MainEffect.onStartedCalled]) ∧
    (∀ (config : Config) (simulation : Bool) (ioSend : Message → Bool) (onStarted : Bool),
      (run P (Kernel.construct config simulation ioSend onStarted)
        [Event.start, Event.kernelThread]).sent = [Message.GetInfo, Message.GetFeatures] ∧
      (run P (Kernel.construct config simulation ioSend onStarted)
        [Event.start, Event.kernelThread]).heartbeatExpiry
        = some config.heartbeatTimeout) := by
  refine ⟨fun k => ⟨rfl, rfl, rfl, rfl, rfl, rfl, rfl, rfl⟩, fun k => ?_, fun c k => rfl, ?_⟩
  · obtain ⟨e1, e2, e3, e4, -⟩ := startupTask_fields k
    exact ⟨e1, e2, e3, e4⟩
  · intro config simulation ioSend onStarted
    obtain ⟨-, e2, e3, -⟩ := startupTask_fields
      { start (Kernel.construct config simulation ioSend onStarted) with ioContext := [] }
    have hs : run P (Kernel.construct config simulation ioSend onStarted)
        [Event.start, Event.kernelThread]
        = startupTask { start (Kernel.construct config simulation ioSend onStarted)
            with ioContext := [] } := rfl
    rw [hs, e2, e3]
    simp [start, Kernel.construct, ioContextPost]

/-- C11: `SetOutputState` handling is `SetInputState` handling under the renaming input ↔
output (feature predicates, caches, controllers and their default channels, `updateInputValue` ↔
`updateOutputValue`, the two warnings, `InputState` ↔ `OutputState`): `receive` of
`SetOutputState(addr, state)` is the renaming of what `receive` of `SetInputState(addr, state)`
does on the renamed kernel, the posted closure run on the main loop is the renaming of what the
input closure does there, `toTriState` agrees on renamed states, and the renaming is its own
inverse. -/
theorem setOutputState_symmetric (P : Params) (k : Kernel) (c : Controllers) (address : Nat)
    (state : OutputState) :
    receive P k (Message.SetOutputState address state)
      = mirrorKernel (receive (mirrorParams P) (mirrorKernel k)
          (Message.SetInputState address state.toInput)) ∧
    runMainTask P c k (MainTask.outputStateChanged address state)
      = mirrorKernel (runMainTask (mirrorParams P) (mirrorControllers c) (mirrorKernel k)
          (MainTask.inputStateChanged address state.toInput)) ∧
    toTriStateOutput state = toTriState state.toInput ∧
    mirrorKernel (mirrorKernel k) = k ∧ mirrorParams (mirrorParams P) = P ∧
    mirrorControllers (mirrorControllers c) = c := by
  refine ⟨?_, ?_, ?_, mirrorKernel_involutive k, mirrorParams_involutive P, rfl⟩
  · have h := receive_setOutputState_mirror (mirrorParams P) (mirrorKernel k) address
      state.toInput
    rw [mirrorParams_involutive, mirrorKernel_involutive, toOutput_toInput] at h
    exact h
  · have h := runMainTask_outputStateChanged_mirror (mirrorParams P) (mirrorControllers c)
      (mirrorKernel k) address state.toInput
    rw [mirrorParams_involutive, mirrorKernel_involutive, toOutput_toInput] at h
    exact h
  · cases state <;> rfl

end TraintasticDIY

namespace ECoSInterface

/-- C19: `setOutputValue(channel, address, value)` returns false and calls nothing on the kernel
when the interface has no kernel or when `address` lies outside `outputAddressMinMax(channel)`;
with a kernel and the address in range it makes exactly one call `setOutput(channel, address,
value)` on the kernel and returns its result, the 16-bit cast leaving the address as it is.  The
address bounds of `ECoS::Kernel` are parameters, taken to fit 16 bits. -/
theorem setOutputValue_spec (K : KernelConstants) (kernelSetOutput : Nat → Nat → Bool → Bool)
    (i : Interface) (channel address : Nat) (value : Bool)
    (hdcc : K.outputDCCAddressMax < 65536) (hmot : K.outputMotorolaAddressMax < 65536) :
    (i.kernel = false →
      setOutputValue K kernelSetOutput i channel address value = (i, false)) ∧
    (¬ ((outputAddressMinMax K channel).value.1 ≤ address
        ∧ address ≤ (outputAddressMinMax K channel).value.2) →
      (setOutputValue K kernelSetOutput i channel address value).2 = false ∧
      (setOutputValue K kernelSetOutput i channel address value).1.kernelCalls
        = i.kernelCalls) ∧
    (i.kernel = true →
      ((outputAddressMinMax K channel).value.1 ≤ address
        ∧ address ≤ (outputAddressMinMax K channel).value.2) →
      (setOutputValue K kernelSetOutput i channel address value).2
        = kernelSetOutput channel address value ∧
      (setOutputValue K kernelSetOutput i channel address value).1.kernelCalls
        = i.kernelCalls ++ [KernelCall.setOutput channel address value] ∧
      address % 65536 = address) := by
  refine ⟨?_, ?_, ?_⟩
  · intro hk
    simp [setOutputValue, hk]
  · intro hr
    by_cases hk : i.kernel = true
    · simp [setOutputValue, hk, TraintasticDIY.inRange, hr]
    · simp [setOutputValue, hk]
  · intro hk hr
    have hmax : (outputAddressMinMax K channel).value.2 < 65536 := by
      unfold outputAddressMinMax
      split_ifs <;> simp [Checked.value, hdcc, hmot]
    have hlt : address % 65536 = address := Nat.mod_eq_of_lt (lt_of_le_of_lt hr.2 hmax)
    simp [setOutputValue, hk, TraintasticDIY.inRange, hr, hlt]

/-- Witness of C19: the online sample interface, DCC output 100 switched on, the kernel
accepting. -/
theorem setOutputValue_spec_witness :
    sampleConstants.outputDCCAddressMax < 65536 ∧
    sampleConstants.outputMotorolaAddressMax < 65536 ∧ onlineInterface.kernel = true ∧
    ((outputAddressMinMax sampleConstants 1).value.1 ≤ 100
      ∧ 100 ≤ (outputAddressMinMax sampleConstants 1).value.2) ∧
    (setOutputValue sampleConstants (fun _ _ _ => true) onlineInterface 1 100 true).2
      = (fun _ _ _ => true) 1 100 true ∧
    (setOutputValue sampleConstants (fun _ _ _ => true) onlineInterface 1 100 true).1.kernelCalls
      = onlineInterface.kernelCalls ++ [KernelCall.setOutput 1 100 true] :=
  ⟨by decide, by decide, by decide, by decide,
    ((setOutputValue_spec sampleConstants (fun _ _ _ => true) onlineInterface 1 100 true
      (by decide) (by decide)).2.2 (by decide) (by decide)).1,
    ((setOutputValue_spec sampleConstants (fun _ _ _ => true) onlineInterface 1 100 true
      (by decide) (by decide)).2.2 (by decide) (by decide)).2.1⟩

/-- C20: `inputAddressMinMax` returns the s88 bounds for the s88 channel and the ECoS detector
bounds for the ecosDetector channel, `outputAddressMinMax` the DCC bounds for the dcc channel and
the Motorola bounds for the motorola channel; every other channel reaches `assert(false)` and
yields `(0, 0)` when assertions are compiled out.  The channel numbers are case labels of one
switch, hence distinct. -/
theorem addressMinMax_spec (K : KernelConstants) (hin : K.s88 ≠ K.ecosDetector)
    (hout : K.dcc ≠ K.motorola) :
    inputAddressMinMax K K.s88 = Checked.ok (K.s88AddressMin, K.s88AddressMax) ∧
    inputAddressMinMax K K.ecosDetector
      = Checked.ok (K.ecosDetectorAddressMin, K.ecosDetectorAddressMax) ∧
    outputAddressMinMax K K.dcc = Checked.ok (K.outputDCCAddressMin, K.outputDCCAddressMax) ∧
    outputAddressMinMax K K.motorola
      = Checked.ok (K.outputMotorolaAddressMin, K.outputMotorolaAddressMax) ∧
    (∀ channel : Nat, channel ≠ K.s88 → channel ≠ K.ecosDetector →
      inputAddressMinMax K channel = Checked.assertFailed (0, 0)) ∧
    (∀ channel : Nat, channel ≠ K.dcc → channel ≠ K.motorola →
      outputAddressMinMax K channel = Checked.assertFailed (0, 0)) := by
  refine ⟨?_, ?_, ?_, ?_, ?_, ?_⟩
  · simp [inputAddressMinMax]
  · simp [inputAddressMinMax, Ne.symm hin]
  · simp [outputAddressMinMax]
  · simp [outputAddressMinMax, Ne.symm hout]
  · intro channel h1 h2
    simp [inputAddressMinMax, h1, h2]
  · intro channel h1 h2
    simp [outputAddressMinMax, h1, h2]

/-- Witness of C20: the sample constants; channel 7 is no channel of theirs. -/
theorem addressMinMax_spec_witness :
    sampleConstants.s88 ≠ sampleConstants.ecosDetector ∧
    sampleConstants.dcc ≠ sampleConstants.motorola ∧
    outputAddressMinMax sampleConstants sampleConstants.motorola
      = Checked.ok (sampleConstants.outputMotorolaAddressMin,
          sampleConstants.outputMotorolaAddressMax) ∧
    (7 ≠ sampleConstants.s88 → 7 ≠ sampleConstants.ecosDetector →
      inputAddressMinMax sampleConstants 7 = Checked.assertFailed (0, 0)) :=
  ⟨by decide, by decide,
    (addressMinMax_spec sampleConstants (by decide) (by decide)).2.2.2.1,
    (addressMinMax_spec sampleConstants (by decide) (by decide)).2.2.2.2.1 7⟩

/-- C27, as the code has it: `inputSimulateChange` forwards to the kernel exactly when the interface
has a kernel and the address lies within the range of `outputAddressMinMax(channel)`, the range of
the outputs, where the claim names `inputAddressMinMax(channel)`.  At the sample constants the two
differ: on the online interface, address 500 of the ECoS detector channel lies within the input
range 1..1000 and is not forwarded, and address 2000 of the S88 channel lies outside the input
range 1..1000 and is forwarded. -/
theorem inputSimulateChange_tests_output_range (K : KernelConstants) (i : Interface)
    (channel address : Nat) :
    (inputSimulateChange K i channel address).kernelCalls
      = (if i.kernel && TraintasticDIY.inRange address (outputAddressMinMax K channel).value.1
            (outputAddressMinMax K channel).value.2
          then i.kernelCalls ++ [KernelCall.simulateInputChange channel address]
          else i.kernelCalls) ∧
    (TraintasticDIY.inRange 500
        (inputAddressMinMax sampleConstants sampleConstants.ecosDetector).value.1
        (inputAddressMinMax sampleConstants sampleConstants.ecosDetector).value.2 = true ∧
      (inputSimulateChange sampleConstants onlineInterface sampleConstants.ecosDetector
        500).kernelCalls = []) ∧
    (TraintasticDIY.inRange 2000
        (inputAddressMinMax sampleConstants sampleConstants.s88).value.1
        (inputAddressMinMax sampleConstants sampleConstants.s88).value.2 = false ∧
      (inputSimulateChange sampleConstants onlineInterface sampleConstants.s88
        2000).kernelCalls = [KernelCall.simulateInputChange sampleConstants.s88 2000]) := by
  refine ⟨?_, ⟨by decide, by decide⟩, ⟨by decide, by decide⟩⟩
  unfold inputSimulateChange
  by_cases hk : i.kernel = true
  · by_cases hr : TraintasticDIY.inRange address (outputAddressMinMax K channel).value.1
        (outputAddressMinMax K channel).value.2 = true
    · simp [hk, hr]
    · simp [hk, hr]
  · simp [hk]

end ECoSInterface

namespace Network

/-! ## Auxiliary lemmas on the client -/

/-- Running a registered closure invokes no other registered closure. -/
theorem runCallback_invoked (Q : QtLib) (c : Client) (callback : RequestCallback)
    (m : Message) : (runCallback Q c callback m).invoked = c.invoked := by
  cases callback <;>
    simp only [runCallback, loginCallback, newSessionCallback, getObjectCallback,
      getTableModelCallback, sendRequest, socketWrite, newRequest, disconnectFromHost, setState,
      readFails] <;>
    split_ifs <;> (try split) <;> rfl

/-- Running a registered closure marks the run as undefined exactly when the closure
dereferences a null pointer. -/
theorem runCallback_undefinedBehaviour (Q : QtLib) (c : Client) (callback : RequestCallback)
    (m : Message) :
    (runCallback Q c callback m).undefinedBehaviour
      = (c.undefinedBehaviour || dereferencesNull callback m) := by
  cases callback <;>
    simp only [runCallback, loginCallback, newSessionCallback, getObjectCallback,
      getTableModelCallback, sendRequest, socketWrite, newRequest, disconnectFromHost, setState,
      readFails, dereferencesNull] <;>
    split_ifs <;> (try split) <;> simp_all

/-- A registered closure that dereferences a null pointer has called no user callback and added
no handle. -/
theorem runCallback_dereferencesNull (Q : QtLib) (c : Client) (callback : RequestCallback)
    (m : Message) (h : dereferencesNull callback m = true) :
    (runCallback Q c callback m).userCalls = c.userCalls ∧
    (runCallback Q c callback m).objects = c.objects ∧
    (runCallback Q c callback m).tableModels = c.tableModels := by
  cases callback <;>
    simp_all [runCallback, getObjectCallback, getTableModelCallback, dereferencesNull]

/-- What `processMessage` does with a response whose request id has a registered closure. -/
theorem processMessage_response_eq (Q : QtLib) (fuel : Nat) (c : Client) (m : Message)
    (callback : RequestCallback) (hr : m.isResponse = true)
    (hcb : c.requestCallback m.requestId = some callback) :
    processMessage Q fuel c m
      = some { runCallback Q { c with invoked := c.invoked ++ [(callback, m)] } callback m with
          requestCallback := mapErase
            (runCallback Q { c with invoked := c.invoked ++ [(callback, m)] }
              callback m).requestCallback m.requestId } := by
  unfold processMessage
  rw [if_pos hr, hcb]

/-- An `ObjectPropertyChanged` event for a handle that is not leased changes nothing. -/
theorem objectPropertyChanged_unleased (Q : QtLib) (fuel : Nat) (c : Client) (m : Message)
    (h : Nat) (rest : List Field) (hobj : c.objects h = none) (hr : m.isResponse = false)
    (he : m.isEvent = true) (hc : m.command = Command.ObjectPropertyChanged)
    (hd : m.data = Field.value (Scalar.handle h) :: rest) :
    processMessage Q fuel c m = some c := by
  simp [processMessage, hr, he, hc, hd, objectPropertyChanged, readHandle, hobj]

/-- A table model event for a handle that is not leased changes nothing. -/
theorem tableModelEvent_unleased (Q : QtLib) (fuel : Nat) (c : Client) (m : Message)
    (h : Nat) (rest : List Field) (hobj : c.tableModels h = none) (hr : m.isResponse = false)
    (he : m.isEvent = true)
    (hc : m.command = Command.TableModelColumnHeadersChanged
      ∨ m.command = Command.TableModelRowCountChanged
      ∨ m.command = Command.TableModelUpdateRegion)
    (hd : m.data = Field.value (Scalar.handle h) :: rest) :
    processMessage Q fuel c m = some c := by
  rcases hc with hc | hc | hc <;>
    simp [processMessage, hr, he, hc, hd, tableModelColumnHeadersChanged,
      tableModelRowCountChanged, tableModelUpdateRegion, readHandle, hobj]

/-- What `releaseObject` leaves behind for the mirror released. -/
theorem releaseObject_fields (c : Client) (object : Nat) (o : Object)
    (ho : c.objectHeap object = some o) :
    (releaseObject c object).objects o.handle = none ∧
    (releaseObject c object).objectHeap object = some { o with handle := invalidHandle } ∧
    (releaseObject c object).tableModels = c.tableModels ∧
    (releaseObject c object).socket = c.socket
      ++ [SocketCall.write (newEvent Command.ReleaseObject
            [Field.value (Scalar.handle o.handle)])] := by
  simp [releaseObject, ho, send, socketWrite, mapErase, mapSet]

/-- What `releaseTableModel` leaves behind for the mirror released. -/
theorem releaseTableModel_fields (c : Client) (tableModel : Nat) (t : TableModel)
    (ht : c.tableModelHeap tableModel = some t) :
    (releaseTableModel c tableModel).tableModels t.handle = none ∧
    (releaseTableModel c tableModel).tableModelHeap tableModel
      = some { t with handle := invalidHandle } ∧
    (releaseTableModel c tableModel).objects = c.objects ∧
    (releaseTableModel c tableModel).socket = c.socket
      ++ [SocketCall.write (newEvent Command.ReleaseTableModel
            [Field.value (Scalar.handle t.handle)])] := by
  simp [releaseTableModel, ht, send, socketWrite, mapErase, mapSet]

/-- The password `connectToHost` stores. -/
theorem connectToHost_password (Q : QtLib) (defaultPort : Nat) (c : Client) (host : String)
    (port : Option Nat) (username password : String) :
    (connectToHost Q defaultPort c host port username password).password
      = (if password.isEmpty then [] else Q.sha256 (Q.toUtf8 password)) := by
  simp only [connectToHost, setState]
  split_ifs <;> rfl

/-- The state after `connectToHost` depends on the password through the stored digest only. -/
theorem connectToHost_eq (Q : QtLib) (defaultPort : Nat) (c : Client) (host : String)
    (port : Option Nat) (username password : String) :
    connectToHost Q defaultPort c host port username password
      = { (setState { c with
            username := username
            password := (if password.isEmpty then [] else Q.sha256 (Q.toUtf8 password)) }
          State.Connecting) with
          socket := c.socket ++ [SocketCall.connectToHost host ((port.getD defaultPort) % 65536)] }
      := by
  simp only [connectToHost, setState]
  split_ifs <;> rfl

/-- The `Login` lambda: state and callback map afterwards. -/
theorem loginCallback_fields (c : Client) (m : Message) :
    (isGoodResponse m = true →
      (loginCallback c m).state = c.state ∧
      (loginCallback c m).requestCallback
        = mapSet c.requestCallback (c.nextRequestId % 65536) RequestCallback.newSession ∧
      (loginCallback c m).socket = c.socket
        ++ [SocketCall.write
          { command := Command.NewSession, isRequest := true, isResponse := false,
            isEvent := false, isError := false, errorCode := 0,
            requestId := c.nextRequestId % 65536, data := [] }]) ∧
    (isGoodResponse m = false →
      (loginCallback c m).state = State.ErrorAuthenticationFailed ∧
      (loginCallback c m).requestCallback = c.requestCallback ∧
      (loginCallback c m).socket = c.socket ++ [SocketCall.disconnectFromHost]) := by
  constructor
  · intro hg
    simp only [isGoodResponse] at hg
    simp [loginCallback, hg, sendRequest, socketWrite, newRequest]
  · intro hg
    simp only [isGoodResponse] at hg
    simp only [loginCallback, hg, disconnectFromHost, setState]
    split_ifs <;> simp_all

/-- The `NewSession` lambda: state, session UUID and callback map afterwards. -/
theorem newSessionCallback_fields (c : Client) (m : Message) :
    (newSessionCallback c m).requestCallback = c.requestCallback ∧
    (∀ (u : Nat) (rest : List Field), isGoodResponse m = true →
      m.data = Field.value (Scalar.uuid u) :: rest →
      (newSessionCallback c m).state = State.Connected ∧
      (newSessionCallback c m).sessionUUID = u ∧
      (newSessionCallback c m).socket = c.socket) ∧
    (isGoodResponse m = true → readUUID m.data = none →
      (newSessionCallback c m).state = c.state) ∧
    (isGoodResponse m = false →
      (newSessionCallback c m).state = State.ErrorNewSessionFailed ∧
      (newSessionCallback c m).socket = c.socket ++ [SocketCall.disconnectFromHost]) := by
  refine ⟨?_, ?_, ?_, ?_⟩
  · simp only [newSessionCallback, disconnectFromHost, setState, readFails]
    split_ifs <;> (try split) <;> rfl
  · intro u rest hg hd
    simp only [isGoodResponse] at hg
    simp only [newSessionCallback, hg, hd, readUUID, setState]
    split_ifs <;> simp_all
  · intro hg hu
    simp only [isGoodResponse] at hg
    simp [newSessionCallback, hg, hu, readFails]
  · intro hg
    simp only [isGoodResponse] at hg
    simp only [newSessionCallback, hg, disconnectFromHost, setState]
    split_ifs <;> simp_all

/-- The lambdas of `getObject` and `getTableModel` leave state and callback map alone. -/
theorem getCallbacks_fields (Q : QtLib) (c : Client) (callback : Nat) (m : Message) :
    (getObjectCallback Q c callback m).state = c.state ∧
    (getObjectCallback Q c callback m).requestCallback = c.requestCallback ∧
    (getTableModelCallback Q c callback m).state = c.state ∧
    (getTableModelCallback Q c callback m).requestCallback = c.requestCallback := by
  refine ⟨?_, ?_, ?_, ?_⟩ <;>
    simp only [getObjectCallback, getTableModelCallback, readFails] <;>
    split_ifs <;> (try split) <;> rfl

/-- Events leave state and callback map alone. -/
theorem event_fields (Q : QtLib) (fuel : Nat) (c c1 : Client) (m : Message)
    (hr : m.isResponse = false) (h : processMessage Q fuel c m = some c1) :
    c1.state = c.state ∧ c1.requestCallback = c.requestCallback := by
  simp only [processMessage, hr, Bool.false_eq_true, if_false] at h
  split_ifs at h
  · split at h
    · cases h
      simp only [objectPropertyChanged, readFails]
      repeat' split
      all_goals exact ⟨rfl, rfl⟩
    · cases h
      simp only [tableModelColumnHeadersChanged, readFails]
      repeat' split
      all_goals exact ⟨rfl, rfl⟩
    · cases h
      simp only [tableModelRowCountChanged, readFails]
      repeat' split
      all_goals exact ⟨rfl, rfl⟩
    · simp only [tableModelUpdateRegion, readFails] at h
      repeat' split at h
      all_goals first
        | (cases h; exact ⟨rfl, rfl⟩)
        | (exact absurd h (by simp))
    · cases h
      exact ⟨rfl, rfl⟩
  · cases h
    exact ⟨rfl, rfl⟩

/-- One message makes the client `Connected` only as a response without error to a pending
`NewSession` request. -/
theorem connected_only_by_newSession (Q : QtLib) (fuel : Nat) (c c1 : Client) (m : Message)
    (h : processMessage Q fuel c m = some c1) (h1 : c1.state = State.Connected)
    (h0 : c.state ≠ State.Connected) :
    isGoodResponse m = true ∧ c.requestCallback m.requestId = some RequestCallback.newSession := by
  by_cases hr : m.isResponse = true
  · cases hcb : c.requestCallback m.requestId with
    | none =>
      simp only [processMessage, hr, if_true, hcb] at h
      cases h
      exact absurd h1 h0
    | some callback =>
      rw [processMessage_response_eq Q fuel c m callback hr hcb] at h
      cases h
      simp only at h1
      cases callback with
      | login =>
        exfalso
        simp only [runCallback] at h1
        by_cases hg : isGoodResponse m = true
        · rw [((loginCallback_fields _ m).1 hg).1] at h1
          exact h0 h1
        · rw [((loginCallback_fields _ m).2 (by simpa using hg)).1] at h1
          cases h1
      | newSession =>
        simp only [runCallback] at h1
        by_cases hg : isGoodResponse m = true
        · exact ⟨hg, rfl⟩
        · rw [((newSessionCallback_fields _ m).2.2.2 (by simpa using hg)).1] at h1
          cases h1
      | getObject cb =>
        exfalso
        simp only [runCallback] at h1
        rw [(getCallbacks_fields Q _ cb m).1] at h1
        exact h0 h1
      | getTableModel cb =>
        exfalso
        simp only [runCallback] at h1
        rw [(getCallbacks_fields Q _ cb m).2.2.1] at h1
        exact h0 h1
  · have hr2 : m.isResponse = false := by simpa using hr
    rw [(event_fields Q fuel c c1 m hr2 h).1] at h1
    exact absurd h1 h0

/-- One message registers a `NewSession` closure only as a response without error to a pending
`Login` request. -/
theorem newSession_only_by_login (Q : QtLib) (fuel : Nat) (c c1 : Client) (m : Message)
    (id : Nat) (h : processMessage Q fuel c m = some c1)
    (h1 : c1.requestCallback id = some RequestCallback.newSession)
    (h0 : c.requestCallback id ≠ some RequestCallback.newSession) :
    isGoodResponse m = true ∧ c.requestCallback m.requestId = some RequestCallback.login := by
  by_cases hr : m.isResponse = true
  · cases hcb : c.requestCallback m.requestId with
    | none =>
      simp only [processMessage, hr, if_true, hcb] at h
      cases h
      exact absurd h1 h0
    | some callback =>
      rw [processMessage_response_eq Q fuel c m callback hr hcb] at h
      cases h
      simp only [mapErase] at h1
      split_ifs at h1 with hid
      cases callback with
      | login =>
        simp only [runCallback] at h1
        by_cases hg : isGoodResponse m = true
        · exact ⟨hg, rfl⟩
        · rw [((loginCallback_fields _ m).2 (by simpa using hg)).2.1] at h1
          exact absurd h1 h0
      | newSession =>
        exfalso
        simp only [runCallback] at h1
        rw [(newSessionCallback_fields _ m).1] at h1
        exact h0 h1
      | getObject cb =>
        exfalso
        simp only [runCallback] at h1
        rw [(getCallbacks_fields Q _ cb m).2.1] at h1
        exact h0 h1
      | getTableModel cb =>
        exfalso
        simp only [runCallback] at h1
        rw [(getCallbacks_fields Q _ cb m).2.2.2] at h1
        exact h0 h1
  · have hr2 : m.isResponse = false := by simpa using hr
    rw [(event_fields Q fuel c c1 m hr2 h).2] at h1
    exact absurd h1 h0

/-- Messages processed after one another: the list may be cut anywhere. -/
theorem processMessages_append (Q : QtLib) (fuel : Nat) (a b : List Message) :
    ∀ c : Client, processMessages Q fuel c (a ++ b)
      = (processMessages Q fuel c a).bind (fun c1 => processMessages Q fuel c1 b) := by
  induction a with
  | nil => intro c; rfl
  | cons m rest ih =>
    intro c
    simp only [List.cons_append, processMessages]
    cases processMessage Q fuel c m with
    | none => rfl
    | some c1 => exact ih c1

/-- A run that ends `Connected` from a state that is not contains a response without error to a
pending `NewSession` request. -/
theorem connected_after_newSession (Q : QtLib) (fuel : Nat) (ms : List Message) :
    ∀ c c2 : Client, c.state ≠ State.Connected → processMessages Q fuel c ms = some c2 →
      c2.state = State.Connected →
      ∃ (mid : List Message) (m2 : Message) (post : List Message) (cb : Client),
        ms = mid ++ m2 :: post ∧ processMessages Q fuel c mid = some cb ∧
        isGoodResponse m2 = true ∧
        cb.requestCallback m2.requestId = some RequestCallback.newSession := by
  induction ms with
  | nil =>
    intro c c2 h0 h h2
    simp only [processMessages] at h
    cases h
    exact absurd h2 h0
  | cons m rest ih =>
    intro c c2 h0 h h2
    simp only [processMessages] at h
    cases h1 : processMessage Q fuel c m with
    | none => rw [h1] at h; cases h
    | some c1 =>
      rw [h1] at h
      by_cases hc1 : c1.state = State.Connected
      · obtain ⟨hg, hcb⟩ := connected_only_by_newSession Q fuel c c1 m h1 hc1 h0
        exact ⟨[], m, rest, c, rfl, rfl, hg, hcb⟩
      · obtain ⟨mid, m2, post, cb, e1, e2, e3, e4⟩ := ih c1 c2 hc1 h h2
        refine ⟨m :: mid, m2, post, cb, by rw [e1]; rfl, ?_, e3, e4⟩
        simp only [processMessages, h1]
        exact e2

/-- A run that ends `Connected` from a state that is not, and in which no `NewSession` request
is pending, contains a response without error to a pending `Login` request and, later, one to a
pending `NewSession` request. -/
theorem connected_after_login_newSession (Q : QtLib) (fuel : Nat) (ms : List Message) :
    ∀ c c2 : Client, c.state ≠ State.Connected →
      (∀ id : Nat, c.requestCallback id ≠ some RequestCallback.newSession) →
      processMessages Q fuel c ms = some c2 → c2.state = State.Connected →
      ∃ (pre : List Message) (m1 : Message) (mid : List Message) (m2 : Message)
        (post : List Message) (ca cb : Client),
        ms = pre ++ m1 :: (mid ++ m2 :: post) ∧
        processMessages Q fuel c pre = some ca ∧ isGoodResponse m1 = true ∧
        ca.requestCallback m1.requestId = some RequestCallback.login ∧
        processMessages Q fuel c (pre ++ m1 :: mid) = some cb ∧ isGoodResponse m2 = true ∧
        cb.requestCallback m2.requestId = some RequestCallback.newSession := by
  induction ms with
  | nil =>
    intro c c2 h0 _ h h2
    simp only [processMessages] at h
    cases h
    exact absurd h2 h0
  | cons m rest ih =>
    intro c c2 h0 hns h h2
    simp only [processMessages] at h
    cases h1 : processMessage Q fuel c m with
    | none => rw [h1] at h; cases h
    | some c1 =>
      rw [h1] at h
      have hc1 : c1.state ≠ State.Connected := by
        intro hc
        exact hns m.requestId (connected_only_by_newSession Q fuel c c1 m h1 hc h0).2
      by_cases hex : ∃ id : Nat, c1.requestCallback id = some RequestCallback.newSession
      · obtain ⟨id, hid⟩ := hex
        obtain ⟨hg, hcb⟩ := newSession_only_by_login Q fuel c c1 m id h1 hid (hns id)
        obtain ⟨mid, m2, post, cb, e1, e2, e3, e4⟩ :=
          connected_after_newSession Q fuel rest c1 c2 hc1 h h2
        refine ⟨[], m, mid, m2, post, c, cb, by rw [e1]; rfl, rfl, hg, hcb, ?_, e3, e4⟩
        simp only [List.nil_append, processMessages, h1]
        exact e2
      · have hns1 : ∀ id : Nat, c1.requestCallback id ≠ some RequestCallback.newSession :=
          fun id hid => hex ⟨id, hid⟩
        obtain ⟨pre, m1, mid, m2, post, ca, cb, e1, e2, e3, e4, e5, e6, e7⟩ :=
          ih c1 c2 hc1 hns1 h h2
        refine ⟨m :: pre, m1, mid, m2, post, ca, cb, by rw [e1]; rfl, ?_, e3, e4, ?_, e6, e7⟩
        · simp only [processMessages, h1]
          exact e2
        · simp only [List.cons_append, processMessages, h1]
          exact e5

/-- The index of a cell in row-major order determines the cell. -/
theorem rowMajor_index_injective (w i j i2 j2 : Nat) (hj : j ≤ w) (hj2 : j2 ≤ w)
    (h : i2 * (w + 1) + j2 = i * (w + 1) + j) : i2 = i ∧ j2 = j := by
  have key : ∀ a b x y : Nat, x ≤ w → y ≤ w → a * (w + 1) + x = b * (w + 1) + y → a ≤ b := by
    intro a b x y _ hy hab
    by_contra hlt
    have h1 : (b + 1) * (w + 1) ≤ a * (w + 1) := Nat.mul_le_mul_right _ (by omega)
    rw [Nat.add_mul] at h1
    omega
  have h1 := key i2 i j2 j hj2 hj h
  have h2 := key i i2 j j2 hj hj2 h.symm
  have hi : i2 = i := by omega
  subst hi
  exact ⟨rfl, by omega⟩

/-- The cell loop from any cell on, when neither counter can wrap: it runs to its end, consuming
the remaining texts and leaving the rest of the payload. -/
theorem cellLoop_rowMajor (Q : QtLib) (columnMin rowMin w h : Nat) (strings : List (List Nat))
    (rest : List Field) (before : Nat × Nat → Option String)
    (hcm : columnMin + w < 4294967295) (hrm : rowMin + h < 4294967295)
    (hlen : strings.length = (h + 1) * (w + 1)) :
    ∀ (n extra i j k : Nat) (texts : Nat × Nat → Option String), i ≤ h → j ≤ w + 1 →
      k = i * (w + 1) + j → n = (strings.length - k) + (h - i) + 1 →
      RowMajorUpTo Q columnMin rowMin w h strings before k texts →
      ∃ texts1 : Nat × Nat → Option String,
        cellLoop Q (n + extra) columnMin (columnMin + w) (rowMin + h) (columnMin + j)
            (rowMin + i) ((strings.drop k).map bytesField ++ rest) texts
          = LoopResult.done texts1 rest ∧
        RowMajorUpTo Q columnMin rowMin w h strings before strings.length texts1 := by
  intro n
  induction n with
  | zero => intro extra i j k texts _ _ _ hn; omega
  | succ n ih =>
    intro extra i j k texts hi hj hk hn hP
    have hmul : i * (w + 1) ≤ h * (w + 1) := Nat.mul_le_mul_right _ hi
    have hlen2 : strings.length = h * (w + 1) + (w + 1) := by rw [hlen, Nat.add_mul]; simp
    have hfuel : n + 1 + extra = (n + extra) + 1 := by omega
    rw [hfuel]
    unfold cellLoop
    by_cases hcol : j ≤ w
    · have hklt : k < strings.length := by omega
      have hdrop : strings.drop k = strings.get ⟨k, hklt⟩ :: strings.drop (k + 1) :=
        (List.drop_eq_getElem_cons hklt)
      have hnext : (columnMin + j + 1) % 4294967296 = columnMin + (j + 1) := by omega
      simp only [show columnMin + j ≤ columnMin + w from by omega, if_true, hdrop,
        List.map_cons, List.cons_append, bytesField, readBytes, hnext]
      refine ih extra i (j + 1) (k + 1) _ hi (by omega) (by omega) (by omega) ?_
      constructor
      · intro i2 j2 hi2 hj2
        by_cases hcell : i2 * (w + 1) + j2 = k
        · obtain ⟨e1, e2⟩ := rowMajor_index_injective w i j i2 j2 hcol hj2 (by omega)
          subst e1; subst e2
          simp only [mapSet, if_true, show i2 * (w + 1) + j2 < k + 1 from by omega]
          rw [List.get?_eq_get (by omega)]
          simp [hk]
        · have hne : ¬ ((columnMin + j2, rowMin + i2) = (columnMin + j, rowMin + i)) := by
            intro heq
            simp only [Prod.mk.injEq] at heq
            have e1 : j2 = j := by omega
            have e2 : i2 = i := by omega
            subst e1; subst e2
            exact hcell hk.symm
          simp only [mapSet, hne, if_false]
          rw [hP.1 i2 j2 hi2 hj2]
          by_cases hlt : i2 * (w + 1) + j2 < k
          · simp [hlt, show i2 * (w + 1) + j2 < k + 1 from by omega]
          · simp [hlt, show ¬ i2 * (w + 1) + j2 < k + 1 from by omega]
      · intro c r hout
        have hne : ¬ ((c, r) = (columnMin + j, rowMin + i)) := by
          intro heq
          simp only [Prod.mk.injEq] at heq
          apply hout
          omega
        simp only [mapSet, hne, if_false]
        exact hP.2 c r hout
    · have hj2 : j = w + 1 := by omega
      subst hj2
      simp only [show ¬ (columnMin + (w + 1) ≤ columnMin + w) from by omega, if_false]
      by_cases hrow : i + 1 ≤ h
      · have hnext : (rowMin + i + 1) % 4294967296 = rowMin + (i + 1) := by omega
        simp only [hnext, show rowMin + (i + 1) ≤ rowMin + h from by omega, if_true]
        have hk2 : k = (i + 1) * (w + 1) + 0 := by rw [Nat.add_mul]; omega
        have h0 := ih extra (i + 1) 0 k texts hrow (by omega) hk2 (by omega) hP
        simpa using h0
      · have hi2 : i = h := by omega
        subst hi2
        have hnext : (rowMin + i + 1) % 4294967296 = rowMin + i + 1 := by omega
        simp only [hnext, show ¬ (rowMin + i + 1 ≤ rowMin + i) from by omega, if_false]
        have hkl : k = strings.length := by omega
        subst hkl
        refine ⟨texts, by simp, hP⟩

/-- The update of a region whose bounds are below 4294967295, with a text for every cell: with
enough iterations the loops run to their end, every cell `(c, r)` of the region then holds the
text number `(r - rowMin) * (columnMax - columnMin + 1) + (c - columnMin)`, every other cell is
as before, and the payload is consumed up to the end of the texts. -/
theorem updateRegion_rowMajor (Q : QtLib) (columnMin columnMax rowMin rowMax extra : Nat)
    (strings : List (List Nat)) (rest : List Field) (before : Nat × Nat → Option String)
    (hc : columnMin ≤ columnMax) (hr : rowMin ≤ rowMax) (hcm : columnMax < 4294967295)
    (hrm : rowMax < 4294967295)
    (hlen : strings.length = (rowMax - rowMin + 1) * (columnMax - columnMin + 1)) :
    ∃ texts1 : Nat × Nat → Option String,
      updateRegion Q (strings.length + (rowMax - rowMin) + 1 + extra) columnMin columnMax rowMin
          rowMax (strings.map bytesField ++ rest) before
        = LoopResult.done texts1 rest ∧
      (∀ c r : Nat, columnMin ≤ c → c ≤ columnMax → rowMin ≤ r → r ≤ rowMax →
        ∃ s : List Nat,
          strings.get? ((r - rowMin) * (columnMax - columnMin + 1) + (c - columnMin)) = some s ∧
          texts1 (c, r) = some (Q.fromUtf8 s)) ∧
      (∀ c r : Nat, ¬ (columnMin ≤ c ∧ c ≤ columnMax ∧ rowMin ≤ r ∧ r ≤ rowMax) →
        texts1 (c, r) = before (c, r)) := by
  obtain ⟨w, hw⟩ : ∃ w, columnMax = columnMin + w := ⟨columnMax - columnMin, by omega⟩
  obtain ⟨h, hh⟩ : ∃ h, rowMax = rowMin + h := ⟨rowMax - rowMin, by omega⟩
  subst hw; subst hh
  simp only [Nat.add_sub_cancel_left] at hlen ⊢
  have hP0 : RowMajorUpTo Q columnMin rowMin w h strings before 0 before :=
    ⟨fun _ _ _ _ => by simp, fun _ _ _ => rfl⟩
  obtain ⟨texts1, e1, e2⟩ := cellLoop_rowMajor Q columnMin rowMin w h strings rest before
    hcm hrm hlen (strings.length + h + 1) extra 0 0 0 before (by omega) (by omega) (by simp)
    (by omega) hP0
  refine ⟨texts1, ?_, ?_, e2.2⟩
  · simp only [updateRegion, show rowMin ≤ rowMin + h from by omega, if_true]
    simpa using e1
  · intro c r h1 h2 h3 h4
    obtain ⟨j, hj⟩ : ∃ j, c = columnMin + j := ⟨c - columnMin, by omega⟩
    obtain ⟨i, hi⟩ : ∃ i, r = rowMin + i := ⟨r - rowMin, by omega⟩
    subst hj; subst hi
    have hmul : i * (w + 1) ≤ h * (w + 1) := Nat.mul_le_mul_right _ (by omega)
    have hlen2 : strings.length = h * (w + 1) + (w + 1) := by rw [hlen, Nat.add_mul]; simp
    have hlt : i * (w + 1) + j < strings.length := by omega
    simp only [Nat.add_sub_cancel_left]
    refine ⟨strings.get ⟨_, hlt⟩, List.get?_eq_get hlt, ?_⟩
    rw [e2.1 i j (by omega) (by omega)]
    simp [hlt, List.get?_eq_get hlt]

/-- With `columnMax` = 4294967295 the test of the inner loop holds for every value of its 32-bit
counter: the loops never run to their end. -/
theorem cellLoop_lastColumn_not_done (Q : QtLib) (fuel : Nat) :
    ∀ (columnMin rowMax column row : Nat) (data : List Field)
      (texts : Nat × Nat → Option String),
      (cellLoop Q fuel columnMin 4294967295 rowMax (column % 4294967296) row data
        texts).isDone = false := by
  induction fuel with
  | zero => intros; rfl
  | succ n ih =>
    intro columnMin rowMax column row data texts
    unfold cellLoop
    have hle : column % 4294967296 ≤ 4294967295 := by omega
    rw [if_pos hle]
    cases hrd : readBytes data with
    | none => rfl
    | some p => exact ih columnMin rowMax (column % 4294967296 + 1) row p.2 _

/-- With `rowMax` = 4294967295 the test of the outer loop holds for every value of its 32-bit
counter: the loops never run to their end. -/
theorem cellLoop_lastRow_not_done (Q : QtLib) (fuel : Nat) :
    ∀ (columnMin columnMax column row : Nat) (data : List Field)
      (texts : Nat × Nat → Option String),
      (cellLoop Q fuel columnMin columnMax 4294967295 column row data texts).isDone = false := by
  induction fuel with
  | zero => intros; rfl
  | succ n ih =>
    intro columnMin columnMax column row data texts
    unfold cellLoop
    have hle : (row + 1) % 4294967296 ≤ 4294967295 := by omega
    by_cases hc : column ≤ columnMax
    · rw [if_pos hc]
      cases hrd : readBytes data with
      | none => rfl
      | some p => exact ih columnMin columnMax _ row p.2 _
    · rw [if_neg hc, if_pos hle]
      exact ih columnMin columnMax columnMin _ data texts

/-- With `rowMax` = 4294967295 and a column range that is empty the loops read nothing and go
round without end. -/
theorem cellLoop_emptyColumns_spins (Q : QtLib) (fuel : Nat) :
    ∀ (row : Nat) (data : List Field) (texts : Nat × Nat → Option String),
      cellLoop Q fuel 1 0 4294967295 1 row data texts = LoopResult.outOfFuel := by
  induction fuel with
  | zero => intros; rfl
  | succ n ih =>
    intro row data texts
    unfold cellLoop
    have hle : (row + 1) % 4294967296 ≤ 4294967295 := by omega
    rw [if_neg (by decide), if_pos hle]
    exact ih _ data texts

/-! ## Theorems on the claims -/

/-- C12, as the code has it: for a response whose request id has a registered callback,
`processMessage` invokes that callback exactly once, with the message.  When the callback is the
lambda of `getObject` or of `getTableModel` and the response is an error, the lambda dereferences
a null pointer: the run is undefined from there on, no user callback has been called and no
handle has been added, and nothing is said of the callback map, whose `erase` at line 310 comes
after the call.  In every other case the callback runs without that, and afterwards no callback
is registered under the id.  For a response whose request id has no registered callback nothing
is invoked and the client, its callback map included, is left as it is. -/
theorem processMessage_response_pairing (Q : QtLib) (fuel : Nat) (c : Client) (m : Message)
    (hr : m.isResponse = true) :
    (∀ callback : RequestCallback, c.requestCallback m.requestId = some callback →
      ∃ c1 : Client, processMessage Q fuel c m = some c1 ∧
        c1.invoked = c.invoked ++ [(callback, m)] ∧
        c1.undefinedBehaviour = (c.undefinedBehaviour || dereferencesNull callback m) ∧
        (dereferencesNull callback m = true →
          c1.userCalls = c.userCalls ∧ c1.objects = c.objects ∧
          c1.tableModels = c.tableModels) ∧
        (dereferencesNull callback m = false → c1.requestCallback m.requestId = none)) ∧
    (c.requestCallback m.requestId = none → processMessage Q fuel c m = some c) := by
  constructor
  · intro callback hcb
    refine ⟨_, processMessage_response_eq Q fuel c m callback hr hcb, ?_, ?_, ?_, ?_⟩
    · simp [runCallback_invoked]
    · exact runCallback_undefinedBehaviour Q _ callback m
    · intro hbad
      exact runCallback_dereferencesNull Q _ callback m hbad
    · intro _
      simp [mapErase]
  · intro hnone
    simp [processMessage, hr, hnone]

/-- Witness of C12: the `Login` request is pending under id 1 and its response arrives; and a
`getObject` request of the leased client is pending and an error response to it arrives. -/
theorem processMessage_response_pairing_witness :
    ((response 1 []).isResponse = true ∧
      loggingInClient.requestCallback (response 1 []).requestId
        = some RequestCallback.login ∧
      dereferencesNull RequestCallback.login (response 1 []) = false) ∧
    (∃ c1 : Client, processMessage sampleQt 0 loggingInClient (response 1 []) = some c1 ∧
      c1.invoked = loggingInClient.invoked ++ [(RequestCallback.login, response 1 [])] ∧
      c1.undefinedBehaviour = false ∧ c1.requestCallback 1 = none) ∧
    ((errorResponse 1 3).isResponse = true ∧
      (getObject sampleQt leasedClient "clock" 5).1.requestCallback
        (errorResponse 1 3).requestId = some (RequestCallback.getObject 5) ∧
      dereferencesNull (RequestCallback.getObject 5) (errorResponse 1 3) = true) ∧
    (∃ c1 : Client,
      processMessage sampleQt 0 (getObject sampleQt leasedClient "clock" 5).1
        (errorResponse 1 3) = some c1 ∧
      c1.undefinedBehaviour = true ∧ c1.userCalls = []) := by
  refine ⟨⟨rfl, by decide, rfl⟩, ?_, ⟨rfl, by decide, rfl⟩, ?_⟩
  · obtain ⟨c1, h1, h2, h3, _, h5⟩ :=
      (processMessage_response_pairing sampleQt 0 loggingInClient (response 1 []) rfl).1
        RequestCallback.login (by decide)
    exact ⟨c1, h1, h2, h3, h5 rfl⟩
  · obtain ⟨c1, h1, _, h3, h4, _⟩ :=
      (processMessage_response_pairing sampleQt 0 (getObject sampleQt leasedClient "clock" 5).1
        (errorResponse 1 3) rfl).1 (RequestCallback.getObject 5) (by decide)
    exact ⟨c1, h1, h3, (h4 rfl).1⟩

/-- C13: `cancelRequest(requestId)` changes nothing but the callback map, so it sends nothing;
for an id in 0..65535 no callback is registered under it afterwards and the callbacks under
other ids are as before; an id outside 0..65535 changes nothing. -/
theorem cancelRequest_spec (c : Client) (requestId : Int) :
    cancelRequest c requestId
      = { c with requestCallback := (cancelRequest c requestId).requestCallback } ∧
    (cancelRequest c requestId).socket = c.socket ∧
    (0 ≤ requestId ∧ requestId ≤ 65535 →
      (cancelRequest c requestId).requestCallback requestId.toNat = none ∧
      ∀ id : Nat, id ≠ requestId.toNat →
        (cancelRequest c requestId).requestCallback id = c.requestCallback id) ∧
    (requestId < 0 ∨ requestId > 65535 → cancelRequest c requestId = c) := by
  refine ⟨?_, ?_, ?_, ?_⟩
  · unfold cancelRequest
    split_ifs
    · rfl
    · split <;> rfl
  · unfold cancelRequest
    split_ifs
    · rfl
    · split <;> rfl
  · intro hr
    have hn : ¬ (requestId < 0 ∨ requestId > 65535) := by omega
    unfold cancelRequest
    rw [if_neg hn]
    constructor
    · split
      · simp [mapErase]
      · assumption
    · intro id hid
      split
      · simp [mapErase, hid]
      · rfl
  · intro hr
    simp [cancelRequest, hr]

/-- Witness of C13: cancelling the pending `Login` request, and an id that is out of range. -/
theorem cancelRequest_spec_witness :
    ((0 : Int) ≤ 1 ∧ (1 : Int) ≤ 65535) ∧
    (cancelRequest loggingInClient 1).requestCallback (1 : Int).toNat = none ∧
    ((70000 : Int) < 0 ∨ (70000 : Int) > 65535) ∧
    cancelRequest loggingInClient 70000 = loggingInClient :=
  ⟨by decide, ((cancelRequest_spec loggingInClient 1).2.2.1 (by decide)).1, by decide,
    (cancelRequest_spec loggingInClient 70000).2.2.2 (by decide)⟩

/-- C14: after `releaseObject` of a mirror with handle `h` the handle is no longer leased, the
mirror's handle is `invalidHandle`, and an `ObjectPropertyChanged` event that references `h`
leaves the whole client state as it is: no mirror changes and no signal is emitted; likewise
after `releaseTableModel` for `TableModelColumnHeadersChanged`, `TableModelRowCountChanged` and
`TableModelUpdateRegion` events; and later on the same holds in every state in which `h` is
not leased. -/
theorem release_revokes_handle (Q : QtLib) (fuel : Nat) (c : Client) :
    (∀ (object : Nat) (o : Object), c.objectHeap object = some o →
      (releaseObject c object).objects o.handle = none ∧
      (releaseObject c object).objectHeap object = some { o with handle := invalidHandle } ∧
      ∀ (m : Message) (rest : List Field), m.isResponse = false → m.isEvent = true →
        m.command = Command.ObjectPropertyChanged →
        m.data = Field.value (Scalar.handle o.handle) :: rest →
        processMessage Q fuel (releaseObject c object) m = some (releaseObject c object)) ∧
    (∀ (tableModel : Nat) (t : TableModel), c.tableModelHeap tableModel = some t →
      (releaseTableModel c tableModel).tableModels t.handle = none ∧
      (releaseTableModel c tableModel).tableModelHeap tableModel
        = some { t with handle := invalidHandle } ∧
      ∀ (m : Message) (rest : List Field), m.isResponse = false → m.isEvent = true →
        (m.command = Command.TableModelColumnHeadersChanged
          ∨ m.command = Command.TableModelRowCountChanged
          ∨ m.command = Command.TableModelUpdateRegion) →
        m.data = Field.value (Scalar.handle t.handle) :: rest →
        processMessage Q fuel (releaseTableModel c tableModel) m
          = some (releaseTableModel c tableModel)) ∧
    (∀ (h : Nat) (m : Message) (rest : List Field), c.objects h = none →
      m.isResponse = false → m.isEvent = true → m.command = Command.ObjectPropertyChanged →
      m.data = Field.value (Scalar.handle h) :: rest → processMessage Q fuel c m = some c) ∧
    (∀ (h : Nat) (m : Message) (rest : List Field), c.tableModels h = none →
      m.isResponse = false → m.isEvent = true →
      (m.command = Command.TableModelColumnHeadersChanged
        ∨ m.command = Command.TableModelRowCountChanged
        ∨ m.command = Command.TableModelUpdateRegion) →
      m.data = Field.value (Scalar.handle h) :: rest → processMessage Q fuel c m = some c) := by
  refine ⟨?_, ?_, ?_, ?_⟩
  · intro object o ho
    obtain ⟨e1, e2, -, -⟩ := releaseObject_fields c object o ho
    exact ⟨e1, e2, fun m rest hr he hc hd =>
      objectPropertyChanged_unleased Q fuel _ m o.handle rest e1 hr he hc hd⟩
  · intro tableModel t ht
    obtain ⟨e1, e2, -, -⟩ := releaseTableModel_fields c tableModel t ht
    exact ⟨e1, e2, fun m rest hr he hc hd =>
      tableModelEvent_unleased Q fuel _ m t.handle rest e1 hr he hc hd⟩
  · intro h m rest hobj hr he hc hd
    exact objectPropertyChanged_unleased Q fuel c m h rest hobj hr he hc hd
  · intro h m rest hobj hr he hc hd
    exact tableModelEvent_unleased Q fuel c m h rest hobj hr he hc hd

/-- Witness of C14: the object with handle 7 is released and a change of its property "on"
arrives afterwards. -/
theorem release_revokes_handle_witness :
    leasedClient.objectHeap 1
      = some { handle := 7, classId := "world",
               properties := [{ name := "notes", type := PropertyType.String,
                                value := Value.string "" },
                              { name := "on", type := PropertyType.Boolean,
                                value := Value.bool false }] } ∧
    (newEvent Command.ObjectPropertyChanged
      [Field.value (Scalar.handle 7), Field.value (Scalar.bytes [111, 110]),
        Field.value (Scalar.propertyType PropertyType.Boolean),
        Field.value (Scalar.bool true)]).isResponse = false ∧
    processMessage sampleQt 0 (releaseObject leasedClient 1)
        (newEvent Command.ObjectPropertyChanged
          [Field.value (Scalar.handle 7), Field.value (Scalar.bytes [111, 110]),
            Field.value (Scalar.propertyType PropertyType.Boolean),
            Field.value (Scalar.bool true)])
      = some (releaseObject leasedClient 1) :=
  ⟨rfl, rfl,
    ((release_revokes_handle sampleQt 0 leasedClient).1 1 _ rfl).2.2 _ _ rfl rfl rfl rfl⟩

/-- C15 at the failing input (S3): the client has leased the object with handle 7, whose mirror
has the `String` property "notes", and the event `ObjectPropertyChanged(7, "notes", String,
"hi")` arrives.  `processMessage` leaves the whole client state as it is, the value of "notes"
still empty and no signal emitted: the cases `Integer`, `Float` and `String` of the switch are
empty.  The `Boolean` case beside them does what the claim says: for the property "on" the
value is set and `valueChanged` is emitted. -/
theorem objectPropertyChanged_string_ignored :
    leasedClient.objects 7 = some 1 ∧
    (leasedClient.objectHeap 1).map (fun o => getProperty o (sampleQt.fromLatin1 notesBytes))
      = some (some { name := "notes", type := PropertyType.String, value := Value.string "" }) ∧
    processMessage sampleQt 0 leasedClient
        (newEvent Command.ObjectPropertyChanged
          [Field.value (Scalar.handle 7), Field.value (Scalar.bytes notesBytes),
            Field.value (Scalar.propertyType PropertyType.String),
            Field.value (Scalar.bytes hiBytes)])
      = some leasedClient ∧
    (processMessage sampleQt 0 leasedClient
        (newEvent Command.ObjectPropertyChanged
          [Field.value (Scalar.handle 7), Field.value (Scalar.bytes [111, 110]),
            Field.value (Scalar.propertyType PropertyType.Boolean),
            Field.value (Scalar.bool true)])).map
        (fun c => (c.signals, (c.objectHeap 1).map (fun o => getProperty o "on")))
      = some ([Signal.valueChanged 1 "on", Signal.valueChangedBool 1 "on" true],
          some (some { name := "on", type := PropertyType.Boolean,
                       value := Value.bool true })) := by
  refine ⟨rfl, by decide, rfl, by decide⟩

/-- C17: `connectToHost` stores the user name and, as password, a zero-length byte string when
the password is empty and otherwise the SHA-256 digest of the password's UTF-8 encoding, 32 bytes
long; `socketConnected` writes one `Login` request whose payload is the UTF-8 user name followed
by that stored byte string; so the request is the same for any two passwords with the same
stored digest, the plain password not being written.  Qt's hash is a parameter, assumed to return
32 bytes. -/
theorem login_transmits_digest (Q : QtLib) (defaultPort : Nat) (c : Client) (host : String)
    (port : Option Nat) (username password : String)
    (hlen : ∀ b : List Nat, (Q.sha256 b).length = 32) :
    (connectToHost Q defaultPort c host port username password).username = username ∧
    (password.isEmpty = true →
      (connectToHost Q defaultPort c host port username password).password = []) ∧
    (password.isEmpty = false →
      (connectToHost Q defaultPort c host port username password).password
        = Q.sha256 (Q.toUtf8 password) ∧
      (connectToHost Q defaultPort c host port username password).password.length = 32) ∧
    (∀ c1 : Client, (socketConnected Q c1).socket = c1.socket
      ++ [SocketCall.write
        { command := Command.Login, isRequest := true, isResponse := false, isEvent := false,
          isError := false, errorCode := 0, requestId := c1.nextRequestId % 65536,
          data := [Field.value (Scalar.bytes (Q.toUtf8 c1.username)),
            Field.value (Scalar.bytes c1.password)] }]) ∧
    (socketConnected Q (connectToHost Q defaultPort c host port username password)).socket.getLast?
      = some (SocketCall.write
        { command := Command.Login, isRequest := true, isResponse := false, isEvent := false,
          isError := false, errorCode := 0, requestId := c.nextRequestId % 65536,
          data := [Field.value (Scalar.bytes (Q.toUtf8 username)),
            Field.value (Scalar.bytes
              (if password.isEmpty then [] else Q.sha256 (Q.toUtf8 password)))] }) ∧
    (∀ password2 : String,
      (connectToHost Q defaultPort c host port username password2).password
        = (connectToHost Q defaultPort c host port username password).password →
      socketConnected Q (connectToHost Q defaultPort c host port username password2)
        = socketConnected Q (connectToHost Q defaultPort c host port username password)) := by
  have hp := connectToHost_password Q defaultPort c host port username password
  refine ⟨?_, ?_, ?_, ?_, ?_, ?_⟩
  · simp only [connectToHost, setState]
    split_ifs <;> rfl
  · intro he
    rw [hp, he]
    rfl
  · intro he
    have hp2 : (connectToHost Q defaultPort c host port username password).password
        = Q.sha256 (Q.toUtf8 password) := by
      rw [hp, he]
      rfl
    exact ⟨hp2, by rw [hp2]; exact hlen _⟩
  · intro c1
    simp [socketConnected, sendRequest, socketWrite, newRequest]
  · rw [connectToHost_eq]
    simp only [socketConnected, sendRequest, socketWrite, newRequest, setState]
    split_ifs <;> simp
  · intro password2 hp2
    rw [hp, connectToHost_password] at hp2
    rw [connectToHost_eq, connectToHost_eq Q defaultPort c host port username password, hp2]

/-- Witness of C17: user "admin" with password "secret", and with an empty password. -/
theorem login_transmits_digest_witness :
    (∀ b : List Nat, (sampleQt.sha256 b).length = 32) ∧
    ("secret".isEmpty = false →
      (connectToHost sampleQt 5740 freshClient "localhost" none "admin" "secret").password
        = sampleQt.sha256 (sampleQt.toUtf8 "secret") ∧
      (connectToHost sampleQt 5740 freshClient "localhost" none "admin" "secret").password.length
        = 32) ∧
    ("".isEmpty = true →
      (connectToHost sampleQt 5740 freshClient "localhost" none "admin" "").password = []) :=
  ⟨fun b => by simp [sampleQt],
    (login_transmits_digest sampleQt 5740 freshClient "localhost" none "admin" "secret"
      (fun b => by simp [sampleQt])).2.2.1,
    (login_transmits_digest sampleQt 5740 freshClient "localhost" none "admin" ""
      (fun b => by simp [sampleQt])).2.1⟩

/-- C18: `socketConnected` writes the `Login` request and registers its lambda without touching
the state.  A response without error to the pending `Login` request leaves the state alone,
writes the `NewSession` request and registers its lambda; a response without error to the pending
`NewSession` request that carries a UUID stores it as session UUID and makes the state
`Connected`.  An error response to `Login` sets `ErrorAuthenticationFailed`, one to `NewSession`
sets `ErrorNewSessionFailed`, and so do the two lambdas for any reply that is no response
without error; in these cases the only call on the socket is `disconnectFromHost`, no request
being written.  And `Connected` is reached only so: every run of messages after
`socketConnected` that ends `Connected` contains a response without error to the pending `Login`
request and after it one to the pending `NewSession` request. -/
theorem session_state_machine (Q : QtLib) (fuel : Nat) :
    (∀ c : Client,
      (socketConnected Q c).requestCallback (c.nextRequestId % 65536)
        = some RequestCallback.login ∧
      (socketConnected Q c).state = c.state ∧
      (socketConnected Q c).nextRequestId = (c.nextRequestId + 1) % 65536 ∧
      (c.nextRequestId + 1) % 65536 ≠ c.nextRequestId % 65536) ∧
    (∀ (c : Client) (m : Message), isGoodResponse m = true →
      c.requestCallback m.requestId = some RequestCallback.login →
      ∃ c2 : Client, processMessage Q fuel c m = some c2 ∧ c2.state = c.state ∧
        c2.socket = c.socket
          ++ [SocketCall.write
            { command := Command.NewSession, isRequest := true, isResponse := false,
              isEvent := false, isError := false, errorCode := 0,
              requestId := c.nextRequestId % 65536, data := [] }] ∧
        (c.nextRequestId % 65536 ≠ m.requestId →
          c2.requestCallback (c.nextRequestId % 65536) = some RequestCallback.newSession)) ∧
    (∀ (c : Client) (m : Message) (u : Nat) (rest : List Field), isGoodResponse m = true →
      c.requestCallback m.requestId = some RequestCallback.newSession →
      m.data = Field.value (Scalar.uuid u) :: rest →
      ∃ c2 : Client, processMessage Q fuel c m = some c2 ∧ c2.state = State.Connected ∧
        c2.sessionUUID = u ∧ c2.socket = c.socket) ∧
    (∀ (c : Client) (m : Message), m.isResponse = true → m.isError = true →
      c.requestCallback m.requestId = some RequestCallback.login →
      ∃ c2 : Client, processMessage Q fuel c m = some c2 ∧
        c2.state = State.ErrorAuthenticationFailed ∧
        c2.socket = c.socket ++ [SocketCall.disconnectFromHost]) ∧
    (∀ (c : Client) (m : Message), m.isResponse = true → m.isError = true →
      c.requestCallback m.requestId = some RequestCallback.newSession →
      ∃ c2 : Client, processMessage Q fuel c m = some c2 ∧
        c2.state = State.ErrorNewSessionFailed ∧
        c2.socket = c.socket ++ [SocketCall.disconnectFromHost]) ∧
    (∀ (c : Client) (m : Message), isGoodResponse m = false →
      (loginCallback c m).state = State.ErrorAuthenticationFailed ∧
      (loginCallback c m).socket = c.socket ++ [SocketCall.disconnectFromHost] ∧
      (newSessionCallback c m).state = State.ErrorNewSessionFailed ∧
      (newSessionCallback c m).socket = c.socket ++ [SocketCall.disconnectFromHost]) ∧
    (∀ (c c2 : Client) (ms : List Message), c.state ≠ State.Connected →
      (∀ id : Nat, c.requestCallback id ≠ some RequestCallback.newSession) →
      processMessages Q fuel (socketConnected Q c) ms = some c2 → c2.state = State.Connected →
      ∃ (pre : List Message) (m1 : Message) (mid : List Message) (m2 : Message)
        (post : List Message) (ca cb : Client),
        ms = pre ++ m1 :: (mid ++ m2 :: post) ∧
        processMessages Q fuel (socketConnected Q c) pre = some ca ∧
        isGoodResponse m1 = true ∧
        ca.requestCallback m1.requestId = some RequestCallback.login ∧
        processMessages Q fuel (socketConnected Q c) (pre ++ m1 :: mid) = some cb ∧
        isGoodResponse m2 = true ∧
        cb.requestCallback m2.requestId = some RequestCallback.newSession) := by
  refine ⟨?_, ?_, ?_, ?_, ?_, ?_, ?_⟩
  · intro c
    refine ⟨?_, ?_, ?_, ?_⟩
    · simp [socketConnected, sendRequest, socketWrite, newRequest, mapSet]
    · simp [socketConnected, sendRequest, socketWrite, newRequest]
    · simp [socketConnected, sendRequest, socketWrite, newRequest]
    · omega
  · intro c m hg hcb
    have hr : m.isResponse = true := by
      simp only [isGoodResponse, Bool.and_eq_true] at hg
      exact hg.1
    obtain ⟨e1, e2, e3⟩ := (loginCallback_fields
      { c with invoked := c.invoked ++ [(RequestCallback.login, m)] } m).1 hg
    refine ⟨_, processMessage_response_eq Q fuel c m _ hr hcb, ?_, ?_, ?_⟩
    · simpa [runCallback] using e1
    · simpa [runCallback] using e3
    · intro hne
      simp only [runCallback, mapErase, e2, mapSet]
      simp [hne]
  · intro c m u rest hg hcb hd
    have hr : m.isResponse = true := by
      simp only [isGoodResponse, Bool.and_eq_true] at hg
      exact hg.1
    obtain ⟨e1, e2, e3⟩ := (newSessionCallback_fields
      { c with invoked := c.invoked ++ [(RequestCallback.newSession, m)] } m).2.1 u rest hg hd
    refine ⟨_, processMessage_response_eq Q fuel c m _ hr hcb, ?_, ?_, ?_⟩
    · simpa [runCallback] using e1
    · simpa [runCallback] using e2
    · simpa [runCallback] using e3
  · intro c m hr herr hcb
    have hg : isGoodResponse m = false := by simp [isGoodResponse, hr, herr]
    obtain ⟨e1, -, e3⟩ := (loginCallback_fields
      { c with invoked := c.invoked ++ [(RequestCallback.login, m)] } m).2 hg
    refine ⟨_, processMessage_response_eq Q fuel c m _ hr hcb, ?_, ?_⟩
    · simpa [runCallback] using e1
    · simpa [runCallback] using e3
  · intro c m hr herr hcb
    have hg : isGoodResponse m = false := by simp [isGoodResponse, hr, herr]
    obtain ⟨e1, e3⟩ := (newSessionCallback_fields
      { c with invoked := c.invoked ++ [(RequestCallback.newSession, m)] } m).2.2.2 hg
    refine ⟨_, processMessage_response_eq Q fuel c m _ hr hcb, ?_, ?_⟩
    · simpa [runCallback] using e1
    · simpa [runCallback] using e3
  · intro c m hg
    obtain ⟨e1, -, e3⟩ := (loginCallback_fields c m).2 hg
    obtain ⟨f1, f3⟩ := (newSessionCallback_fields c m).2.2.2 hg
    exact ⟨e1, e3, f1, f3⟩
  · intro c c2 ms h0 hns h h2
    have hs : (socketConnected Q c).state ≠ State.Connected := by
      simpa [socketConnected, sendRequest, socketWrite, newRequest] using h0
    have hn : ∀ id : Nat,
        (socketConnected Q c).requestCallback id ≠ some RequestCallback.newSession := by
      intro id
      simp only [socketConnected, sendRequest, socketWrite, newRequest, mapSet]
      split_ifs
      · simp
      · exact hns id
    exact connected_after_login_newSession Q fuel ms (socketConnected Q c) c2 hs hn h h2

/-- Witness of C18: the response to the pending `Login` request (id 1) and then the response to
the `NewSession` request (id 2) with UUID 42 make the client `Connected`; an error response to
`Login` makes it `ErrorAuthenticationFailed`. -/
theorem session_state_machine_witness :
    isGoodResponse (response 1 []) = true ∧
    loggingInClient.requestCallback (response 1 []).requestId = some RequestCallback.login ∧
    (∃ c2 : Client, processMessage sampleQt 0 loggingInClient (response 1 []) = some c2 ∧
      c2.state = loggingInClient.state ∧
      c2.socket = loggingInClient.socket
        ++ [SocketCall.write
          { command := Command.NewSession, isRequest := true, isResponse := false,
            isEvent := false, isError := false, errorCode := 0,
            requestId := loggingInClient.nextRequestId % 65536, data := [] }] ∧
      (loggingInClient.nextRequestId % 65536 ≠ (response 1 []).requestId →
        c2.requestCallback (loggingInClient.nextRequestId % 65536)
          = some RequestCallback.newSession)) ∧
    (processMessages sampleQt 0 loggingInClient
        [response 1 [], response 2 [Field.value (Scalar.uuid 42)]]).map
        (fun c => (c.state, c.sessionUUID)) = some (State.Connected, 42) ∧
    (processMessages sampleQt 0 loggingInClient [errorResponse 1 3]).map
        (fun c => (c.state, c.socket.getLast?))
      = some (State.ErrorAuthenticationFailed, some SocketCall.disconnectFromHost) :=
  ⟨rfl, by decide,
    (session_state_machine sampleQt 0).2.1 loggingInClient (response 1 []) rfl (by decide),
    by decide, by decide⟩

/-- C16 at the failing input: the region is the single cell in column 4294967295 of row 0 and the
payload holds its one text.  After storing it the column counter, a `uint32_t`, wraps to 0, the
test `index.first <= columnMax` holds again and the loop reads on past the payload: with no
number of iterations does `processMessage` reach `endResetModel`.  On scenario S4, region
(0, 1, 0, 2), the six texts are consumed and stored in row-major order. -/
theorem updateRegion_column_wraps :
    (processMessage sampleQt 9 leasedClient updateRegionS4).map
        (fun c => ((c.tableModelHeap 2).map (fun t =>
          [t.texts (0, 0), t.texts (1, 0), t.texts (0, 1), t.texts (1, 1), t.texts (0, 2),
            t.texts (1, 2)]), c.signals, c.readError))
      = some (some [some "a", some "b", some "c", some "d", some "e", some "f"],
          [Signal.beginResetModel 2, Signal.endResetModel 2], false) ∧
    processMessage sampleQt 0 leasedClient updateRegionLastColumn = none ∧
    processMessage sampleQt 1 leasedClient updateRegionLastColumn = none ∧
    (∀ fuel : Nat,
      (processMessage sampleQt (fuel + 2) leasedClient updateRegionLastColumn).map
          (fun c => ((c.tableModelHeap 2).map (fun t => t.texts (4294967295, 0)), c.signals,
            c.readError))
        = some (some (some "x"), [Signal.beginResetModel 2], true)) := by
  refine ⟨by decide, rfl, rfl, fun fuel => ?_⟩
  rfl

/-- C24, as the code has it: after `getObject` (and after `getTableModel`), an error response to
the request runs the registered lambda, which leaves the pointer null and then evaluates
`object->handle()` on it: a null pointer is dereferenced before the user callback is reached.  The
user callback is not invoked and no map entry is added. -/
theorem getObject_error_response_dereferences_null (Q : QtLib) (fuel : Nat) (c : Client)
    (id : String) (callback errorCode : Nat) :
    (∃ c1 : Client,
      processMessage Q fuel (getObject Q c id callback).1
          (errorResponse (getObject Q c id callback).2 errorCode) = some c1 ∧
      c1.undefinedBehaviour = true ∧ c1.userCalls = c.userCalls ∧ c1.objects = c.objects ∧
      c1.tableModels = c.tableModels ∧
      c1.invoked = c.invoked ++ [(RequestCallback.getObject callback,
        errorResponse (getObject Q c id callback).2 errorCode)]) ∧
    (∃ c1 : Client,
      processMessage Q fuel (getTableModel Q c id callback).1
          (errorResponse (getTableModel Q c id callback).2 errorCode) = some c1 ∧
      c1.undefinedBehaviour = true ∧ c1.userCalls = c.userCalls ∧ c1.objects = c.objects ∧
      c1.tableModels = c.tableModels ∧
      c1.invoked = c.invoked ++ [(RequestCallback.getTableModel callback,
        errorResponse (getTableModel Q c id callback).2 errorCode)]) := by
  constructor
  · refine ⟨_, processMessage_response_eq Q fuel _ _ (RequestCallback.getObject callback) rfl
      (by simp [getObject, sendRequest, socketWrite, newRequest, mapSet, errorResponse]), ?_⟩
    simp [runCallback, getObjectCallback, errorResponse, getObject, sendRequest, socketWrite,
      newRequest]
  · refine ⟨_, processMessage_response_eq Q fuel _ _ (RequestCallback.getTableModel callback) rfl
      (by simp [getTableModel, sendRequest, socketWrite, newRequest, mapSet, errorResponse]), ?_⟩
    simp [runCallback, getTableModelCallback, errorResponse, getTableModel, sendRequest,
      socketWrite, newRequest]

/-- C30, as the code has it: the loop counters are `uint32_t` and the loop tests are `<=`, so a
bound of 4294967295 is never exceeded.  With `rowMax` = 4294967295 (any 32-bit `rowMin`), and
with `columnMax` = 4294967295 on a range of rows that is not empty, no number of iterations
brings the loops to their end; with `rowMax` = 4294967295 and an empty range of columns they go
round without a read.  On the region of the one cell (0, 4294967295) with three texts in the
payload, three texts are read and stored, in rows 4294967295, 0 and 1, and a fourth read is
attempted.  When `rowMin > rowMax` the loops end at once, without a read. -/
theorem updateRegion_last_bound_never_ends (Q : QtLib) (fuel columnMin columnMax rowMin h : Nat)
    (data : List Field) (texts : Nat × Nat → Option String) :
    (updateRegion Q fuel columnMin columnMax (rowMin % 4294967296) 4294967295 data
      texts).isDone = false ∧
    (updateRegion Q fuel (columnMin % 4294967296) 4294967295 rowMin (rowMin + h) data
      texts).isDone = false ∧
    updateRegion Q fuel 1 0 0 4294967295 data texts = LoopResult.outOfFuel ∧
    (match updateRegion sampleQt (fuel + 7) 0 0 4294967295 4294967295
        [bytesField [97], bytesField [98], bytesField [99]] (fun _ => none) with
      | LoopResult.readError t => [t (0, 4294967295), t (0, 0), t (0, 1)]
      | _ => []) = [some "a", some "b", some "c"] ∧
    updateRegion Q fuel columnMin columnMax (rowMin + h + 1) rowMin data texts
      = LoopResult.done texts data := by
  refine ⟨?_, ?_, ?_, ?_, ?_⟩
  · unfold updateRegion
    rw [if_pos (by omega)]
    exact cellLoop_lastRow_not_done Q fuel _ _ _ _ _ _
  · unfold updateRegion
    rw [if_pos (by omega)]
    exact cellLoop_lastColumn_not_done Q fuel _ _ _ _ _ _
  · unfold updateRegion
    rw [if_pos (by omega)]
    exact cellLoop_emptyColumns_spins Q fuel _ _ _
  · rfl
  · unfold updateRegion
    rw [if_neg (by omega)]

end Network

/-! ## Auxiliary lemmas on frames -/

namespace Network

/-- With nothing available the slot returns at once. -/
theorem socketReadyRead_nil {σ : Type} (process : σ → Frame → σ) (fuel : Nat)
    (buffer : ReadBuffer) (s : σ) :
    socketReadyRead process fuel buffer s [] = some (buffer, s) := by
  cases fuel <;> simp [socketReadyRead]

/-- One byte arriving while the header is read. -/
theorem pushByte_header {σ : Type} (process : σ → Frame → σ) (s : σ) (k : Nat)
    (hb : List Nat) (byte : Nat) (hk : k < 8) :
    pushByte process ({ offset := k, header := hb, message := none }, s) byte
      = if k + 1 = 8 then
          if (decodeHeader (hb ++ [byte])).dataSize ≠ 0 then
            ({ offset := 0, header := [],
               message := some { header := decodeHeader (hb ++ [byte]), data := [] } }, s)
          else
            (ReadBuffer.idle, process s { header := decodeHeader (hb ++ [byte]), data := [] })
        else ({ offset := k + 1, header := hb ++ [byte], message := none }, s) := by
  have hmin : min 1 (8 - k) = 1 := by omega
  simp only [pushByte, socketReadyRead, List.length_singleton, hmin, one_ne_zero, if_false,
    List.take_succ_cons, List.take_zero, List.drop_succ_cons, List.drop_zero, List.length_nil,
    if_true, ReadBuffer.idle]
  split_ifs <;> rfl

/-- One byte arriving while the payload is read. -/
theorem pushByte_data {σ : Type} (process : σ → Frame → σ) (s : σ) (k : Nat)
    (hb : List Nat) (m : Frame) (byte : Nat) (hk : k < m.header.dataSize) :
    pushByte process ({ offset := k, header := hb, message := some m }, s) byte
      = if k + 1 = m.header.dataSize then
          (ReadBuffer.idle, process s { m with data := m.data ++ [byte] })
        else
          ({ offset := k + 1, header := hb,
             message := some { m with data := m.data ++ [byte] } }, s) := by
  have hmin : min 1 (m.header.dataSize - k) = 1 := by omega
  simp only [pushByte, socketReadyRead, List.length_singleton, hmin, one_ne_zero, if_false,
    List.take_succ_cons, List.take_zero, List.drop_succ_cons, List.drop_zero, List.length_nil,
    if_true, ReadBuffer.idle]
  split_ifs <;> rfl

/-- Bytes arriving one at a time that do not complete the header are appended to it. -/
theorem pushBytes_header {σ : Type} (process : σ → Frame → σ) (s : σ) (l : List Nat) :
    ∀ (k : Nat) (hb : List Nat), k + l.length < 8 →
      l.foldl (pushByte process) ({ offset := k, header := hb, message := none }, s)
        = ({ offset := k + l.length, header := hb ++ l, message := none }, s) := by
  induction l with
  | nil => intro k hb _; simp
  | cons b l ih =>
    intro k hb h
    simp only [List.length_cons] at h
    rw [List.foldl_cons, pushByte_header process s k hb b (by omega), if_neg (by omega),
      ih (k + 1) (hb ++ [b]) (by omega)]
    simp only [List.length_cons, List.append_assoc, List.singleton_append]
    congr 2
    omega

/-- Bytes arriving one at a time that do not complete the payload are appended to it. -/
theorem pushBytes_data {σ : Type} (process : σ → Frame → σ) (s : σ) (l : List Nat) :
    ∀ (k : Nat) (hb : List Nat) (m : Frame), k + l.length < m.header.dataSize →
      l.foldl (pushByte process) ({ offset := k, header := hb, message := some m }, s)
        = ({ offset := k + l.length, header := hb,
             message := some { m with data := m.data ++ l } }, s) := by
  induction l with
  | nil => intro k hb m _; simp
  | cons b l ih =>
    intro k hb m h
    simp only [List.length_cons] at h
    rw [List.foldl_cons, pushByte_data process s k hb m b (by omega), if_neg (by omega),
      ih (k + 1) hb _ (by simpa using (by omega : k + 1 + l.length < m.header.dataSize))]
    simp only [List.length_cons, List.append_assoc, List.singleton_append]
    congr 2
    omega

/-- The state after the byte that completes a header: the payload is awaited, or, when the
header announces none, the message has been processed. -/
theorem pushBytes_header_complete {σ : Type} (process : σ → Frame → σ) (s : σ)
    (l : List Nat) :
    ∀ (k : Nat) (hb : List Nat), k + l.length = 8 → k < 8 →
      l.foldl (pushByte process) ({ offset := k, header := hb, message := none }, s)
        = if (decodeHeader (hb ++ l)).dataSize ≠ 0 then
            ({ offset := 0, header := [],
               message := some { header := decodeHeader (hb ++ l), data := [] } }, s)
          else (ReadBuffer.idle, process s { header := decodeHeader (hb ++ l), data := [] }) := by
  induction l with
  | nil => intro k hb h hk; simp at h; omega
  | cons b l ih =>
    intro k hb h hk
    simp only [List.length_cons] at h
    rw [List.foldl_cons, pushByte_header process s k hb b hk]
    cases l with
    | nil =>
      simp only [List.length_nil] at h
      rw [if_pos (by omega)]
      split_ifs <;> rfl
    | cons c l1 =>
      simp only [List.length_cons] at h
      rw [if_neg (by omega), ih (k + 1) (hb ++ [b]) (by simp only [List.length_cons]; omega)
        (by omega)]
      simp only [List.append_assoc, List.singleton_append]

/-- The state after the byte that completes a payload: the message has been processed. -/
theorem pushBytes_data_complete {σ : Type} (process : σ → Frame → σ) (s : σ)
    (l : List Nat) :
    ∀ (k : Nat) (hb : List Nat) (m : Frame), k + l.length = m.header.dataSize →
      k < m.header.dataSize →
      l.foldl (pushByte process) ({ offset := k, header := hb, message := some m }, s)
        = (ReadBuffer.idle, process s { m with data := m.data ++ l }) := by
  induction l with
  | nil => intro k hb m h hk; simp at h; omega
  | cons b l ih =>
    intro k hb m h hk
    simp only [List.length_cons] at h
    rw [List.foldl_cons, pushByte_data process s k hb m b hk]
    cases l with
    | nil =>
      simp only [List.length_nil] at h
      rw [if_pos (by omega)]
      rfl
    | cons c l1 =>
      simp only [List.length_cons] at h
      rw [if_neg (by omega), ih (k + 1) hb { m with data := m.data ++ [b] }
        (by simp only [List.length_cons]; omega) (by simp only; omega)]
      simp only [List.append_assoc, List.singleton_append]

/-- The slot called on a chunk does what its bytes do arriving one at a time, and leaves a state
in which it can be entered again. -/
theorem socketReadyRead_bytewise {σ : Type} (process : σ → Frame → σ) (fuel : Nat) :
    ∀ (buffer : ReadBuffer) (s : σ) (chunk : List Nat), buffer.valid → chunk.length ≤ fuel →
      socketReadyRead process fuel buffer s chunk
        = some (chunk.foldl (pushByte process) (buffer, s)) ∧
      (chunk.foldl (pushByte process) (buffer, s)).1.valid := by
  induction fuel with
  | zero =>
    intro buffer s chunk hv hlen
    have : chunk = [] := List.length_eq_zero.mp (by omega)
    subst this
    exact ⟨by simp [socketReadyRead], hv⟩
  | succ fuel ih =>
    intro buffer s chunk hv hlen
    by_cases hnil : chunk = []
    · subst hnil
      exact ⟨by simp [socketReadyRead], hv⟩
    have hpos : 0 < chunk.length := List.length_pos.mpr hnil
    obtain ⟨offset, hb, message⟩ := buffer
    cases message with
    | none =>
      simp only [ReadBuffer.valid] at hv
      obtain ⟨hoff, hlt⟩ := hv
      by_cases hroom : chunk.length < 8 - offset
      · have hmin : min chunk.length (8 - offset) = chunk.length := by omega
        have hfold := pushBytes_header process s chunk offset hb (by omega)
        rw [hfold]
        refine ⟨?_, ?_⟩
        · simp only [socketReadyRead, hmin, List.take_length, List.drop_length]
          rw [if_neg (by omega), if_neg (by omega)]
          exact socketReadyRead_nil process fuel _ s
        · simp only [ReadBuffer.valid, List.length_append]
          omega
      · have hmin : min chunk.length (8 - offset) = 8 - offset := by omega
        have hsplit : chunk = chunk.take (8 - offset) ++ chunk.drop (8 - offset) :=
          (List.take_append_drop _ _).symm
        have htake : (chunk.take (8 - offset)).length = 8 - offset := by
          rw [List.length_take]; omega
        have hfold := pushBytes_header_complete process s (chunk.take (8 - offset)) offset hb
          (by omega) hlt
        have hdrop : (chunk.drop (8 - offset)).length ≤ fuel := by
          rw [List.length_drop]; omega
        have hstep : chunk.foldl (pushByte process)
            ({ offset := offset, header := hb, message := none }, s)
            = (chunk.drop (8 - offset)).foldl (pushByte process)
              ((chunk.take (8 - offset)).foldl (pushByte process)
                ({ offset := offset, header := hb, message := none }, s)) := by
          rw [← List.foldl_append, List.take_append_drop]
        rw [hstep, hfold]
        simp only [socketReadyRead, hmin]
        rw [if_neg (by omega), if_pos (by omega)]
        by_cases hsize : (decodeHeader (hb ++ chunk.take (8 - offset))).dataSize ≠ 0
        · rw [if_pos hsize, if_pos hsize]
          exact ih _ s _ ⟨rfl, Nat.pos_of_ne_zero hsize⟩ hdrop
        · rw [if_neg hsize, if_neg hsize]
          exact ih _ _ _ (by simp [ReadBuffer.valid, ReadBuffer.idle]) hdrop
    | some m =>
      simp only [ReadBuffer.valid] at hv
      obtain ⟨hoff, hlt⟩ := hv
      by_cases hroom : chunk.length < m.header.dataSize - offset
      · have hmin : min chunk.length (m.header.dataSize - offset) = chunk.length := by omega
        have hfold := pushBytes_data process s chunk offset hb m (by omega)
        rw [hfold]
        refine ⟨?_, ?_⟩
        · simp only [socketReadyRead, hmin, List.take_length, List.drop_length]
          rw [if_neg (by omega), if_neg (by omega)]
          exact socketReadyRead_nil process fuel _ s
        · simp only [ReadBuffer.valid, List.length_append]
          omega
      · have hmin : min chunk.length (m.header.dataSize - offset) = m.header.dataSize - offset := by
          omega
        have htake : (chunk.take (m.header.dataSize - offset)).length
            = m.header.dataSize - offset := by
          rw [List.length_take]; omega
        have hfold := pushBytes_data_complete process s
          (chunk.take (m.header.dataSize - offset)) offset hb m (by omega) hlt
        have hdrop : (chunk.drop (m.header.dataSize - offset)).length ≤ fuel := by
          rw [List.length_drop]; omega
        have hstep : chunk.foldl (pushByte process)
            ({ offset := offset, header := hb, message := some m }, s)
            = (chunk.drop (m.header.dataSize - offset)).foldl (pushByte process)
              ((chunk.take (m.header.dataSize - offset)).foldl (pushByte process)
                ({ offset := offset, header := hb, message := some m }, s)) := by
          rw [← List.foldl_append, List.take_append_drop]
        rw [hstep, hfold]
        simp only [socketReadyRead, hmin]
        rw [if_neg (by omega), if_pos (by omega)]
        exact ih _ _ _ (by simp [ReadBuffer.valid, ReadBuffer.idle]) hdrop

/-- The slot called chunk by chunk does what the bytes of all chunks do arriving one at a
time. -/
theorem deliver_bytewise {σ : Type} (process : σ → Frame → σ) (chunks : List (List Nat)) :
    ∀ (buffer : ReadBuffer) (s : σ), buffer.valid →
      deliver process buffer s chunks
        = some (chunks.flatten.foldl (pushByte process) (buffer, s)) := by
  induction chunks with
  | nil => intro buffer s _; rfl
  | cons chunk rest ih =>
    intro buffer s hv
    obtain ⟨h1, h2⟩ := socketReadyRead_bytewise process chunk.length buffer s chunk hv
      (Nat.le_refl _)
    simp only [deliver, h1, List.flatten_cons, List.foldl_append]
    exact ih _ _ h2

/-- Reading back the 8 bytes of a header whose fields fit their widths gives the header. -/
theorem decodeHeader_encodeHeader (h : Header) (h1 : h.command < 256) (h2 : h.flags < 256)
    (h3 : h.requestId < 65536) (h4 : h.dataSize < 4294967296) :
    decodeHeader (encodeHeader h) = h := by
  obtain ⟨c, f, r, d⟩ := h
  simp only [decodeHeader, encodeHeader, List.getD_cons_zero, List.getD_cons_succ,
    Header.mk.injEq] at *
  refine ⟨by omega, by omega, by omega, by omega⟩

/-- Writing the header that 8 bytes stand for gives the 8 bytes. -/
theorem encodeHeader_decodeHeader (b : List Nat) (hlen : b.length = 8)
    (hbyte : ∀ x ∈ b, x < 256) :
    encodeHeader (decodeHeader b) = b ∧
    (decodeHeader b).command < 256 ∧ (decodeHeader b).flags < 256 ∧
    (decodeHeader b).requestId < 65536 ∧ (decodeHeader b).dataSize < 4294967296 := by
  match b, hlen with
  | [a0, a1, a2, a3, a4, a5, a6, a7], _ =>
    have h0 := hbyte a0 (by simp)
    have h1 := hbyte a1 (by simp)
    have h2 := hbyte a2 (by simp)
    have h3 := hbyte a3 (by simp)
    have h4 := hbyte a4 (by simp)
    have h5 := hbyte a5 (by simp)
    have h6 := hbyte a6 (by simp)
    have h7 := hbyte a7 (by simp)
    simp only [decodeHeader, encodeHeader, List.getD_cons_zero, List.getD_cons_succ,
      List.cons.injEq, and_true]
    refine ⟨⟨by omega, by omega, by omega, by omega, by omega, by omega, by omega, by omega⟩,
      by omega, by omega, by omega, by omega⟩

/-- The bytes of a constructable message, arriving one at a time between two messages, have the
message processed and leave the read buffer between two messages. -/
theorem pushBytes_frame {σ : Type} (process : σ → Frame → σ) (s : σ) (f : Frame)
    (hf : f.constructable) :
    (encode f).foldl (pushByte process) (ReadBuffer.idle, s)
      = (ReadBuffer.idle, process s f) := by
  obtain ⟨h1, h2, h3, h4, h5⟩ := hf
  have hdec := decodeHeader_encodeHeader f.header h1 h2 h3 h4
  have hhead := pushBytes_header_complete process s (encodeHeader f.header) 0 []
    (by simp [encodeHeader]) (by decide)
  simp only [List.nil_append, hdec] at hhead
  rw [encode, List.foldl_append]
  change List.foldl (pushByte process)
    (List.foldl (pushByte process) ({ offset := 0, header := [], message := none }, s)
      (encodeHeader f.header)) f.data = _
  rw [hhead]
  by_cases hsize : f.header.dataSize ≠ 0
  · rw [if_pos hsize]
    rw [pushBytes_data_complete process s f.data 0 [] { header := f.header, data := [] }
      (by simp only [Nat.zero_add]; exact h5.symm) (Nat.pos_of_ne_zero hsize)]
    simp
  · rw [if_neg hsize]
    have hnil : f.data = [] := List.length_eq_zero.mp (by omega)
    obtain ⟨fh, fd⟩ := f
    simp only at hnil
    subst hnil
    rfl

/-- The bytes of constructable messages one after the other, arriving one at a time, have the
messages processed in their order. -/
theorem pushBytes_frames {σ : Type} (process : σ → Frame → σ) (frames : List Frame) :
    ∀ s : σ, (∀ f ∈ frames, f.constructable) →
      (frames.map encode).flatten.foldl (pushByte process) (ReadBuffer.idle, s)
        = (ReadBuffer.idle, frames.foldl process s) := by
  induction frames with
  | nil => intro s _; rfl
  | cons f rest ih =>
    intro s hf
    simp only [List.map_cons, List.flatten_cons, List.foldl_append, List.foldl_cons]
    rw [pushBytes_frame process s f (hf f (List.mem_cons_self _ _))]
    exact ih _ (fun g hg => hf g (List.mem_cons_of_mem _ hg))

/-- The first bytes of a constructable message, some of its bytes still to come, arriving one
at a time between two messages, are kept in the read buffer and nothing is processed. -/
theorem pushBytes_partial {σ : Type} (process : σ → Frame → σ) (s : σ) (g : Frame)
    (p t : List Nat) (hg : g.constructable) (ht : t ≠ []) (hp : p ++ t = encode g) :
    p.foldl (pushByte process) (ReadBuffer.idle, s) = (bufferOf p, s) := by
  obtain ⟨h1, h2, h3, h4, h5⟩ := hg
  have htpos : 0 < t.length := List.length_pos.mpr ht
  have hlen : p.length + t.length = 8 + g.data.length := by
    have := congrArg List.length hp
    simp only [encode, encodeHeader, List.length_append, List.length_cons,
      List.length_nil] at this
    omega
  by_cases hshort : p.length < 8
  · have := pushBytes_header process s p 0 [] (by omega)
    simp only [ReadBuffer.idle, bufferOf, hshort, if_true]
    simpa using this
  · have hp8 : p = encodeHeader g.header ++ p.drop 8 := by
      have htake : p.take 8 = encodeHeader g.header := by
        have e1 : (p ++ t).take 8 = p.take 8 := by
          rw [List.take_append_of_le_length (by omega)]
        have e2 : (encode g).take 8 = encodeHeader g.header := by
          simp [encode, encodeHeader]
        rw [← e1, hp, e2]
      conv_lhs => rw [← List.take_append_drop 8 p, htake]
    have hdec := decodeHeader_encodeHeader g.header h1 h2 h3 h4
    have hhead := pushBytes_header_complete process s (encodeHeader g.header) 0 []
      (by simp [encodeHeader]) (by decide)
    simp only [List.nil_append, hdec] at hhead
    have hdroplen : (p.drop 8).length = p.length - 8 := List.length_drop _ _
    have hsize : g.header.dataSize ≠ 0 := by omega
    rw [if_pos hsize] at hhead
    have hbuf : bufferOf p
        = (⟨p.length - 8, [], some ⟨g.header, p.drop 8⟩⟩ : ReadBuffer) := by
      have htake : p.take 8 = encodeHeader g.header := by
        conv_lhs => rw [hp8]
        simp [encodeHeader]
      simp only [bufferOf, hshort, if_false, htake, hdec]
    rw [hbuf]
    conv_lhs => rw [hp8]
    rw [List.foldl_append]
    change List.foldl (pushByte process)
      (List.foldl (pushByte process) ({ offset := 0, header := [], message := none }, s)
        (encodeHeader g.header)) (p.drop 8) = _
    rw [hhead, pushBytes_data process s (p.drop 8) 0 [] { header := g.header, data := [] }
      (by simp only; omega)]
    simp [hdroplen]

/-! ## Theorems on the claims: frames -/

/-- C21: a constructable message written as header and payload and read back by
`socketReadyRead` is handed to `processMessage` as it was, once, and the read buffer is left
between two messages; and a valid frame, 8 header bytes followed by as many payload bytes as
its `data_size` field says, is read as a constructable message whose bytes are the frame. -/
theorem frame_round_trip (f : Frame) (b : List Nat) :
    (f.constructable →
      decodeHeader (encodeHeader f.header) = f.header ∧
      deliver collect ReadBuffer.idle [] [encode f] = some (ReadBuffer.idle, [f])) ∧
    ((∀ x ∈ b, x < 256) → b.length = 8 + (decodeHeader (b.take 8)).dataSize →
      ∃ m : Frame, deliver collect ReadBuffer.idle [] [b] = some (ReadBuffer.idle, [m]) ∧
        m.constructable ∧ encode m = b) := by
  have hone : ∀ g : Frame, g.constructable →
      deliver collect ReadBuffer.idle [] [encode g] = some (ReadBuffer.idle, [g]) := by
    intro g hg
    rw [deliver_bytewise collect _ _ _ (by simp [ReadBuffer.valid, ReadBuffer.idle])]
    simp only [List.flatten_cons, List.flatten_nil, List.append_nil]
    rw [pushBytes_frame collect [] g hg]
    rfl
  refine ⟨fun hf => ⟨decodeHeader_encodeHeader f.header hf.1 hf.2.1 hf.2.2.1 hf.2.2.2.1,
    hone f hf⟩, ?_⟩
  intro hbyte hlen
  have htake : (b.take 8).length = 8 := by rw [List.length_take]; omega
  obtain ⟨he, h1, h2, h3, h4⟩ := encodeHeader_decodeHeader (b.take 8) htake
    (fun x hx => hbyte x (List.mem_of_mem_take hx))
  have hm : encode { header := decodeHeader (b.take 8), data := b.drop 8 } = b := by
    simp only [encode, he, List.take_append_drop]
  have hc : Frame.constructable { header := decodeHeader (b.take 8), data := b.drop 8 } := by
    refine ⟨h1, h2, h3, h4, ?_⟩
    simp only [List.length_drop]
    omega
  refine ⟨_, ?_, hc, hm⟩
  have := hone _ hc
  rwa [hm] at this

/-- Witness of C21: the event `TableModelSetRegion` for handle 9 and region (0, 1, 0, 2), and
its 28 bytes. -/
theorem frame_round_trip_witness :
    sampleFrame.constructable ∧
    deliver collect ReadBuffer.idle [] [encode sampleFrame]
      = some (ReadBuffer.idle, [sampleFrame]) ∧
    (∀ x ∈ encode sampleFrame, x < 256) ∧
    (encode sampleFrame).length = 8 + (decodeHeader ((encode sampleFrame).take 8)).dataSize ∧
    ∃ m : Frame,
      deliver collect ReadBuffer.idle [] [encode sampleFrame] = some (ReadBuffer.idle, [m]) ∧
        m.constructable ∧ encode m = encode sampleFrame :=
  ⟨by decide,
    ((frame_round_trip sampleFrame (encode sampleFrame)).1 (by decide)).2,
    by decide, by decide,
    (frame_round_trip sampleFrame (encode sampleFrame)).2 (by decide) (by decide)⟩

/-- C26: what `socketReadyRead` hands to `processMessage` depends on the bytes delivered, not on
the chunks they come in; when the bytes are the frames of constructable messages one after the
other, the messages are processed each once and in their order and the read buffer is left
between two messages; when the first bytes of a further message follow, these are kept in the
read buffer and the message is not processed; and a message without payload is processed by
the call that delivers the last byte of its header. -/
theorem socketReadyRead_chunk_independent {σ : Type} (process : σ → Frame → σ) (s : σ)
    (frames : List Frame) (g : Frame) (h : Header) (p t : List Nat)
    (chunks1 chunks2 chunksA chunksB chunksC : List (List Nat)) :
    (chunks1.flatten = chunks2.flatten →
      deliver process ReadBuffer.idle s chunks1 = deliver process ReadBuffer.idle s chunks2) ∧
    ((∀ f ∈ frames, f.constructable) → chunksA.flatten = (frames.map encode).flatten →
      deliver process ReadBuffer.idle s chunksA
        = some (ReadBuffer.idle, frames.foldl process s)) ∧
    ((∀ f ∈ frames, f.constructable) → g.constructable → t ≠ [] → p ++ t = encode g →
      chunksB.flatten = (frames.map encode).flatten ++ p →
      deliver process ReadBuffer.idle s chunksB
        = some (bufferOf p, frames.foldl process s)) ∧
    ((∀ f ∈ frames, f.constructable) →
      Frame.constructable { header := h, data := [] } →
      chunksC.flatten = (frames.map encode).flatten ++ encodeHeader h →
      deliver process ReadBuffer.idle s chunksC
        = some (ReadBuffer.idle,
            process (frames.foldl process s) { header := h, data := [] })) := by
  have hidle : ReadBuffer.idle.valid := by simp [ReadBuffer.valid, ReadBuffer.idle]
  refine ⟨?_, ?_, ?_, ?_⟩
  · intro hsame
    rw [deliver_bytewise process chunks1 _ s hidle, deliver_bytewise process chunks2 _ s hidle,
      hsame]
  · intro hf hA
    rw [deliver_bytewise process chunksA _ s hidle, hA, pushBytes_frames process frames s hf]
  · intro hf hg ht hp hB
    rw [deliver_bytewise process chunksB _ s hidle, hB, List.foldl_append,
      pushBytes_frames process frames s hf, pushBytes_partial process _ g p t hg ht hp]
  · intro hf hh hC
    rw [deliver_bytewise process chunksC _ s hidle, hC, List.foldl_append,
      pushBytes_frames process frames s hf]
    have := pushBytes_frame process (frames.foldl process s) { header := h, data := [] } hh
    simpa [encode] using this

/-- Witness of C26: the frame of `TableModelSetRegion` and a frame without payload, cut inside
the first header, inside the first payload and inside the second header; the same two frames
followed by the first 11 bytes of a third; and the frame without payload in three chunks. -/
theorem socketReadyRead_chunk_independent_witness :
    ((∀ f ∈ [sampleFrame, sampleEmptyFrame], f.constructable) ∧ sampleFrame.constructable ∧
      (encode sampleFrame).drop 11 ≠ [] ∧
      (encode sampleFrame).take 11 ++ (encode sampleFrame).drop 11 = encode sampleFrame ∧
      Frame.constructable { header := sampleEmptyFrame.header, data := [] }) ∧
    deliver collect ReadBuffer.idle []
        [(encode sampleFrame).take 3, (encode sampleFrame).drop 3 ++ encode sampleEmptyFrame]
      = deliver collect ReadBuffer.idle []
        [(encode sampleFrame).take 13,
          (encode sampleFrame).drop 13 ++ (encode sampleEmptyFrame).take 5,
          (encode sampleEmptyFrame).drop 5] ∧
    deliver collect ReadBuffer.idle []
        [(encode sampleFrame).take 3, (encode sampleFrame).drop 3 ++ encode sampleEmptyFrame]
      = some (ReadBuffer.idle, [sampleFrame, sampleEmptyFrame]) ∧
    deliver collect ReadBuffer.idle []
        [encode sampleFrame ++ (encode sampleEmptyFrame).take 2,
          (encode sampleEmptyFrame).drop 2 ++ (encode sampleFrame).take 11]
      = some (bufferOf ((encode sampleFrame).take 11), [sampleFrame, sampleEmptyFrame]) ∧
    deliver collect ReadBuffer.idle []
        [(encode sampleEmptyFrame).take 1, ((encode sampleEmptyFrame).drop 1).take 6,
          (encode sampleEmptyFrame).drop 7]
      = some (ReadBuffer.idle, [sampleEmptyFrame]) :=
  ⟨⟨by decide, by decide, by decide, by decide, by decide⟩,
    (socketReadyRead_chunk_independent collect [] [sampleFrame, sampleEmptyFrame] sampleFrame
      sampleEmptyFrame.header ((encode sampleFrame).take 11) ((encode sampleFrame).drop 11)
      [(encode sampleFrame).take 3, (encode sampleFrame).drop 3 ++ encode sampleEmptyFrame]
      [(encode sampleFrame).take 13,
        (encode sampleFrame).drop 13 ++ (encode sampleEmptyFrame).take 5,
        (encode sampleEmptyFrame).drop 5]
      [(encode sampleFrame).take 3, (encode sampleFrame).drop 3 ++ encode sampleEmptyFrame]
      [encode sampleFrame ++ (encode sampleEmptyFrame).take 2,
        (encode sampleEmptyFrame).drop 2 ++ (encode sampleFrame).take 11]
      [(encode sampleEmptyFrame).take 1, ((encode sampleEmptyFrame).drop 1).take 6,
        (encode sampleEmptyFrame).drop 7]).1 (by decide),
    (socketReadyRead_chunk_independent collect [] [sampleFrame, sampleEmptyFrame] sampleFrame
      sampleEmptyFrame.header ((encode sampleFrame).take 11) ((encode sampleFrame).drop 11)
      [(encode sampleFrame).take 3, (encode sampleFrame).drop 3 ++ encode sampleEmptyFrame]
      [(encode sampleFrame).take 13,
        (encode sampleFrame).drop 13 ++ (encode sampleEmptyFrame).take 5,
        (encode sampleEmptyFrame).drop 5]
      [(encode sampleFrame).take 3, (encode sampleFrame).drop 3 ++ encode sampleEmptyFrame]
      [encode sampleFrame ++ (encode sampleEmptyFrame).take 2,
        (encode sampleEmptyFrame).drop 2 ++ (encode sampleFrame).take 11]
      [(encode sampleEmptyFrame).take 1, ((encode sampleEmptyFrame).drop 1).take 6,
        (encode sampleEmptyFrame).drop 7]).2.1 (by decide) (by decide),
    (socketReadyRead_chunk_independent collect [] [sampleFrame, sampleEmptyFrame] sampleFrame
      sampleEmptyFrame.header ((encode sampleFrame).take 11) ((encode sampleFrame).drop 11)
      [(encode sampleFrame).take 3, (encode sampleFrame).drop 3 ++ encode sampleEmptyFrame]
      [(encode sampleFrame).take 13,
        (encode sampleFrame).drop 13 ++ (encode sampleEmptyFrame).take 5,
        (encode sampleEmptyFrame).drop 5]
      [(encode sampleFrame).take 3, (encode sampleFrame).drop 3 ++ encode sampleEmptyFrame]
      [encode sampleFrame ++ (encode sampleEmptyFrame).take 2,
        (encode sampleEmptyFrame).drop 2 ++ (encode sampleFrame).take 11]
      [(encode sampleEmptyFrame).take 1, ((encode sampleEmptyFrame).drop 1).take 6,
        (encode sampleEmptyFrame).drop 7]).2.2.1 (by decide) (by decide) (by decide)
      (by decide) (by decide),
    (socketReadyRead_chunk_independent collect [] [] sampleFrame
      sampleEmptyFrame.header ((encode sampleFrame).take 11) ((encode sampleFrame).drop 11)
      [] [] [] []
      [(encode sampleEmptyFrame).take 1, ((encode sampleEmptyFrame).drop 1).take 6,
        (encode sampleEmptyFrame).drop 7]).2.2.2 (by decide) (by decide) (by decide)⟩

end Network

/-! ## Auxiliary lemmas on the Z21 client kernel -/

namespace Z21

open TraintasticDIY (TriState)

/-- What `send` leaves as it is. -/
theorem z21_send_fields (k : ClientKernel) (message : Sent) :
    (send k message).emergencyStop = k.emergencyStop ∧
    (send k message).trackPowerOn = k.trackPowerOn ∧
    (send k message).sent = k.sent ++ [message] ∧
    (send k message).ioContext = k.ioContext ∧
    (send k message).config = k.config := by
  unfold send eventLoopCall
  by_cases h1 : k.ioHandlerSend message = true <;>
    by_cases h2 : k.config.debugLogRXTX = true <;> simp [h1, h2]

/-- What `receive` does to the emergency stop state: it sets it to `True` or leaves it. -/
theorem z21_receive_emergencyStop (P : Protocol) (k : ClientKernel) (m : Message) :
    (receive P k m).emergencyStop = TriState.True ∨
    (receive P k m).emergencyStop = k.emergencyStop := by
  unfold receive receiveLanX eventLoopCall
  repeat' split
  all_goals simp
  all_goals split_ifs <;> simp

/-- What `onStart` leaves in the two states. -/
theorem z21_onStart_fields (P : Protocol) (k : ClientKernel) :
    (onStart P k).emergencyStop = TriState.Undefined ∧
    (onStart P k).trackPowerOn = TriState.Undefined := by
  simp [onStart, startKeepAliveTimer, z21_send_fields]

/-- What a closure of the kernel's context does to the emergency stop state: nothing. -/
theorem z21_runKernelTask_emergencyStop (k : ClientKernel) (task : KernelTask) :
    (runKernelTask k task).emergencyStop = k.emergencyStop := by
  cases task <;> simp only [runKernelTask] <;> (try split_ifs) <;>
    simp [z21_send_fields]

/-- Every event leaves the emergency stop state, sets it to `True`, or, if it is a restart,
resets it to `Undefined`. -/
theorem z21_step_emergencyStop (P : Protocol) (k : ClientKernel) (e : Event) :
    (step P k e).emergencyStop = k.emergencyStop ∨
    (step P k e).emergencyStop = TriState.True ∨
    (e.isOnStart = true ∧ (step P k e).emergencyStop = TriState.Undefined) := by
  cases e with
  | receive message =>
    rcases z21_receive_emergencyStop P k message with h | h
    · exact Or.inr (Or.inl h)
    · exact Or.inl h
  | trackPowerOn => exact Or.inl rfl
  | trackPowerOff => exact Or.inl rfl
  | emergencyStop => exact Or.inl rfl
  | setConfig config => exact Or.inl rfl
  | decoderChanged decoder changes functionNumber =>
    left
    simp only [step, decoderChanged, postSend, ioContextPost]
    repeat' split
    all_goals rfl
  | kernelThread =>
    left
    simp only [step]
    split
    · rfl
    · rw [z21_runKernelTask_emergencyStop]
  | keepAliveTimerExpired ec =>
    left
    simp only [step, keepAliveTimerExpired, startKeepAliveTimer]
    split_ifs
    · rfl
    · simp [z21_send_fields]
  | onStart => exact Or.inr (Or.inr ⟨rfl, (z21_onStart_fields P k).1⟩)

/-- A run from a state whose emergency stop state is not `False` ends in such a state. -/
theorem z21_run_emergencyStop (P : Protocol) (events : List Event) :
    ∀ k : ClientKernel,
      (k.emergencyStop = TriState.Undefined ∨ k.emergencyStop = TriState.True) →
      ((run P k events).emergencyStop = TriState.Undefined ∨
        (run P k events).emergencyStop = TriState.True) := by
  induction events with
  | nil => intro k h; exact h
  | cons e rest ih =>
    intro k h
    simp only [run, List.foldl_cons]
    apply ih
    rcases z21_step_emergencyStop P k e with h1 | h1 | ⟨_, h1⟩
    · rw [h1]; exact h
    · exact Or.inr h1
    · exact Or.inl h1

/-- A run without restart from a state in emergency stop ends in emergency stop. -/
theorem z21_run_stays_stopped (P : Protocol) (events : List Event) :
    ∀ k : ClientKernel, k.emergencyStop = TriState.True →
      (∀ e ∈ events, e.isOnStart = false) →
      (run P k events).emergencyStop = TriState.True := by
  induction events with
  | nil => intro k h _; exact h
  | cons e rest ih =>
    intro k h hno
    simp only [run, List.foldl_cons]
    apply ih
    · rcases z21_step_emergencyStop P k e with h1 | h1 | ⟨h0, _⟩
      · rw [h1]; exact h
      · exact h1
      · rw [hno e (List.mem_cons_self _ _)] at h0
        cases h0
    · intro e1 he1
      exact hno e1 (List.mem_cons_of_mem _ he1)

/-- The case `LAN_X` applied to a state that already has the track power and emergency stop
states it leads to changes nothing. -/
theorem z21_receiveLanX_settled (P : Protocol) (k k1 : ClientKernel) (m : Message) (x : Nat)
    (h1 : k1.trackPowerOn = (receiveLanX P k m x).trackPowerOn)
    (h2 : k1.emergencyStop = (receiveLanX P k m x).emergencyStop) :
    receiveLanX P k1 m x = k1 := by
  unfold receiveLanX eventLoopCall at h1 h2
  simp only [apply_ite ClientKernel.trackPowerOn, apply_ite ClientKernel.emergencyStop] at h1 h2
  unfold receiveLanX
  split_ifs at h1 h2 ⊢ <;> simp_all

/-- The case `LAN_X` leaves the configuration and the callbacks, and adds at most one callback
closure to the main loop. -/
theorem z21_receiveLanX_posts (P : Protocol) (k : ClientKernel) (m : Message) (x : Nat) :
    (receiveLanX P k m x).config = k.config ∧
    ∃ posted : List MainTask,
      (receiveLanX P k m x).eventLoop = k.eventLoop ++ posted ∧ posted.length ≤ 1 ∧
        callbacks posted = posted := by
  unfold receiveLanX eventLoopCall
  dsimp only
  split_ifs <;> first
    | exact ⟨rfl, [_], rfl, Nat.le_refl 1, rfl⟩
    | exact ⟨rfl, [], (List.append_nil _).symm, Nat.zero_le 1, rfl⟩

/-- The configuration is not touched by `receive`. -/
theorem z21_receive_config (P : Protocol) (k : ClientKernel) (m : Message) :
    (receive P k m).config = k.config := by
  unfold receive eventLoopCall
  dsimp only
  repeat' split
  all_goals first
    | rfl
    | exact (z21_receiveLanX_posts P _ m _).1

/-- A `LAN_X` message with a first byte and a valid checksum goes to the switch on the
X-header. -/
theorem z21_receive_lanX (P : Protocol) (k : ClientKernel) (m : Message) (x : Nat)
    (t : List Nat) (hx : m.header = P.LAN_X) (hd : m.data = x :: t)
    (hv : P.isChecksumValid m.data = true) :
    receive P k m
      = receiveLanX P { k with eventLoop := k.eventLoop ++ rxLog k m } m x := by
  have hv1 : P.isChecksumValid (x :: t) = true := hd ▸ hv
  simp [receive, hx, hd, hv1]

/-- A `LAN_X` message with a first byte and an invalid checksum is dropped. -/
theorem z21_receive_invalid (P : Protocol) (k : ClientKernel) (m : Message) (x : Nat)
    (t : List Nat) (hx : m.header = P.LAN_X) (hd : m.data = x :: t)
    (hv : P.isChecksumValid m.data = false) :
    receive P k m = { k with eventLoop := k.eventLoop ++ rxLog k m } := by
  have hv1 : P.isChecksumValid (x :: t) = false := hd ▸ hv
  simp [receive, hx, hd, hv1]

/-- Receiving a message a second time changes nothing and posts nothing but the RX log line. -/
theorem z21_receive_twice (P : Protocol) (k : ClientKernel) (m : Message) :
    receive P (receive P k m) m
      = { receive P k m with eventLoop := (receive P k m).eventLoop ++ rxLog k m } := by
  have hlog : rxLog (receive P k m) m = rxLog k m := by
    simp [rxLog, z21_receive_config]
  by_cases hx : m.header = P.LAN_X
  · cases hd : m.data with
    | nil => simp [receive, hx, hd, rxLog]
    | cons x t =>
      by_cases hv : P.isChecksumValid m.data = true
      · rw [z21_receive_lanX P (receive P k m) m x t hx hd hv, hlog]
        apply z21_receiveLanX_settled P { k with eventLoop := k.eventLoop ++ rxLog k m }
        · rw [z21_receive_lanX P k m x t hx hd hv]
        · rw [z21_receive_lanX P k m x t hx hd hv]
      · have hv1 : P.isChecksumValid m.data = false := by simpa using hv
        rw [z21_receive_invalid P (receive P k m) m x t hx hd hv1, hlog]
  · by_cases hs : m.header = P.LAN_GET_SERIAL_NUMBER
    · simp only [receive, if_neg hx, if_pos hs]
      by_cases hl : m.dataLen = P.sizeofLanGetSerialNumberReply <;>
        by_cases hn : k.serialNumber = P.serialNumber m <;>
        by_cases hc : k.onSerialNumberChanged = true <;>
        simp [eventLoopCall, rxLog, hl, hn, hc]
    · by_cases hh : m.header = P.LAN_GET_HWINFO
      · simp only [receive, if_neg hx, if_neg hs, if_pos hh]
        by_cases hl : m.dataLen = P.sizeofLanGetHardwareInfoReply <;>
          by_cases h1 : k.hardwareType = P.hardwareType m <;>
          by_cases h2 : k.firmwareVersionMajor = P.firmwareVersionMajor m <;>
          by_cases h3 : k.firmwareVersionMinor = P.firmwareVersionMinor m <;>
          by_cases hc : k.onHardwareInfoChanged = true <;>
          simp [eventLoopCall, rxLog, hl, h1, h2, h3, hc]
      · simp only [receive, if_neg hx, if_neg hs, if_neg hh]
        simp [rxLog]

/-- The closures `receive` posts: the RX log line, then at most one callback closure. -/
theorem z21_receive_posts (P : Protocol) (k : ClientKernel) (m : Message) :
    ∃ posted : List MainTask,
      (receive P k m).eventLoop = k.eventLoop ++ rxLog k m ++ posted ∧ posted.length ≤ 1 ∧
        callbacks posted = posted := by
  by_cases hx : m.header = P.LAN_X
  · cases hd : m.data with
    | nil => exact ⟨[], by simp [receive, hx, hd], by simp, rfl⟩
    | cons x t =>
      by_cases hv : P.isChecksumValid m.data = true
      · rw [z21_receive_lanX P k m x t hx hd hv]
        exact (z21_receiveLanX_posts P _ m x).2
      · have hv1 : P.isChecksumValid m.data = false := by simpa using hv
        rw [z21_receive_invalid P k m x t hx hd hv1]
        exact ⟨[], by simp, by simp, rfl⟩
  · by_cases hs : m.header = P.LAN_GET_SERIAL_NUMBER
    · simp only [receive, if_neg hx, if_pos hs]
      by_cases hl : m.dataLen = P.sizeofLanGetSerialNumberReply <;>
        by_cases hn : k.serialNumber = P.serialNumber m <;>
        by_cases hc : k.onSerialNumberChanged = true <;>
        simp only [eventLoopCall, hl, hn, hc, if_true, if_false, ne_eq, not_true_eq_false,
          not_false_eq_true] <;>
        first
          | exact ⟨[_], rfl, Nat.le_refl 1, rfl⟩
          | exact ⟨[], (List.append_nil _).symm, Nat.zero_le 1, rfl⟩
    · by_cases hh : m.header = P.LAN_GET_HWINFO
      · simp only [receive, if_neg hx, if_neg hs, if_pos hh]
        by_cases hl : m.dataLen = P.sizeofLanGetHardwareInfoReply <;>
          by_cases hc : k.onHardwareInfoChanged = true <;>
          simp only [eventLoopCall, hl, hc, if_true, if_false] <;>
          (try split_ifs) <;>
          first
            | exact ⟨[_], rfl, Nat.le_refl 1, rfl⟩
            | exact ⟨[], (List.append_nil _).symm, Nat.zero_le 1, rfl⟩
      · simp only [receive, if_neg hx, if_neg hs, if_neg hh]
        exact ⟨[], (List.append_nil _).symm, Nat.zero_le 1, rfl⟩

/-- The speed field of a byte below 128 is the byte, with or without the direction bit. -/
theorem z21_speed_bits (x : Nat) (h : x < 128) :
    (x ||| 128) &&& 127 = x ∧ x &&& 127 = x := by
  interval_cases x <;> exact ⟨rfl, rfl⟩

/-! ## Theorems on the claims -/

/-- C25, as the code has it: with 28 speed steps a decoder that is not in emergency stop and whose
throttle gives speed step 1 gets the speed field 0x01, the code of the emergency stop, since the
case adds 1 to the step before splitting it into the five bits; `decoderChanged` posts the
command with that field.  For the steps 2 to 28 the field is at least 2, and with 14, with 126
and with every other setting but 28 the field of step `n` is `n + 1`, which is at least 2. -/
theorem locoDrive_28_first_step_is_stop_code (P : Protocol) (k : ClientKernel) (d : Decoder)
    (s : Nat) :
    speedField (locoDrive P { d with
      speedSteps := 28, emergencyStop := false, throttleToSpeedStep := fun _ => 1 }) = 0x01 ∧
    (decoderChanged P k { d with
        speedSteps := 28, emergencyStop := false, throttleToSpeedStep := fun _ => 1 }
        driveMask 0).ioContext
      = k.ioContext ++ [KernelTask.send (Sent.LanXSetLocoDrive (locoDrive P { d with
          speedSteps := 28, emergencyStop := false, throttleToSpeedStep := fun _ => 1 }))] ∧
    speedField (locoDrive P { d with speedSteps := 28, emergencyStop := true }) = 0x01 ∧
    2 ≤ speedField (locoDrive P { d with
      speedSteps := 28, emergencyStop := false,
      throttleToSpeedStep := fun _ => s % 27 + 2 }) ∧
    speedField (locoDrive P { d with
      speedSteps := 14, emergencyStop := false,
      throttleToSpeedStep := fun _ => s % 14 + 1 }) = s % 14 + 2 ∧
    speedField (locoDrive P { d with
      speedSteps := 126, emergencyStop := false,
      throttleToSpeedStep := fun _ => s % 126 + 1 }) = s % 126 + 2 ∧
    (d.speedSteps = 14 ∨ d.speedSteps = 28 ∨
      speedField (locoDrive P { d with
        emergencyStop := false,
        throttleToSpeedStep := fun _ => s % 126 + 1 }) = s % 126 + 2) := by
  refine ⟨?_, ?_, ?_, ?_, ?_, ?_, ?_⟩
  · cases hdir : d.direction
    · simp [locoDrive, setSpeed, speedField, hdir]
      decide
    · simp [locoDrive, setSpeed, speedField, hdir]
  · simp [decoderChanged, has, driveMask, postSend, ioContextPost]
  · cases hdir : d.direction
    · simp [locoDrive, setSpeed, speedField, hdir]
      decide
    · simp [locoDrive, setSpeed, speedField, hdir]
  · have h : s % 27 < 27 := Nat.mod_lt _ (by decide)
    generalize s % 27 = r at h
    cases hdir : d.direction <;> interval_cases r <;>
      simp [locoDrive, setSpeed, speedField, hdir] <;> decide
  · have h : s % 14 < 14 := Nat.mod_lt _ (by decide)
    generalize s % 14 = r at h
    have e1 : (r + 1) % 256 = r + 1 := Nat.mod_eq_of_lt (by omega)
    have e2 : (r + 1 + 1) % 256 = r + 2 := Nat.mod_eq_of_lt (by omega)
    cases hdir : d.direction <;> simp [locoDrive, setSpeed, speedField, hdir, e1, e2]
    · exact (z21_speed_bits (r + 2) (by omega)).1
    · exact (z21_speed_bits (r + 2) (by omega)).2
  · have h : s % 126 < 126 := Nat.mod_lt _ (by decide)
    generalize s % 126 = r at h
    have e1 : (r + 1) % 256 = r + 1 := Nat.mod_eq_of_lt (by omega)
    have e2 : (r + 1 + 1) % 256 = r + 2 := Nat.mod_eq_of_lt (by omega)
    cases hdir : d.direction <;> simp [locoDrive, setSpeed, speedField, hdir, e1, e2]
    · exact (z21_speed_bits (r + 2) (by omega)).1
    · exact (z21_speed_bits (r + 2) (by omega)).2
  · have h : s % 126 < 126 := Nat.mod_lt _ (by decide)
    generalize s % 126 = r at h
    have e1 : (r + 1) % 256 = r + 1 := Nat.mod_eq_of_lt (by omega)
    have e2 : (r + 1 + 1) % 256 = r + 2 := Nat.mod_eq_of_lt (by omega)
    by_cases h14 : d.speedSteps = 14
    · exact Or.inl h14
    by_cases h28 : d.speedSteps = 28
    · exact Or.inr (Or.inl h28)
    right; right
    cases hdir : d.direction <;>
      simp [locoDrive, setSpeed, speedField, hdir, e1, e2, h14, h28]
    · exact (z21_speed_bits (r + 2) (by omega)).1
    · exact (z21_speed_bits (r + 2) (by omega)).2

/-- C28 as stated fails: with debug logging on, the second `receive` of the broadcast
`LanXBCStopped` changes no state and posts no callback, but it posts a closure to the main loop,
the RX debug log line; so does the `receive` of a `LAN_X` message with an invalid checksum. -/
theorem receive_broadcast_idempotent_counterexample :
    debugKernel.config.debugLogRXTX = true ∧ debugKernel.eventLoop = [] ∧
    sampleProtocol.isChecksumValid sampleProtocol.LanXBCStopped.data = true ∧
    (receive sampleProtocol debugKernel sampleProtocol.LanXBCStopped).eventLoop
      = [MainTask.logRX sampleProtocol.LanXBCStopped, MainTask.onEmergencyStop] ∧
    (receive sampleProtocol (receive sampleProtocol debugKernel sampleProtocol.LanXBCStopped)
        sampleProtocol.LanXBCStopped).eventLoop
      = (receive sampleProtocol debugKernel sampleProtocol.LanXBCStopped).eventLoop
          ++ [MainTask.logRX sampleProtocol.LanXBCStopped] ∧
    (receive sampleProtocol (receive sampleProtocol debugKernel sampleProtocol.LanXBCStopped)
        sampleProtocol.LanXBCStopped).emergencyStop
      = (receive sampleProtocol debugKernel sampleProtocol.LanXBCStopped).emergencyStop ∧
    badChecksumMessage.header = sampleProtocol.LAN_X ∧
    sampleProtocol.isChecksumValid badChecksumMessage.data = false ∧
    (receive sampleProtocol debugKernel badChecksumMessage).eventLoop
      = [MainTask.logRX badChecksumMessage] := by
  decide

/-- C28, amended: receiving any message a second time changes no state and posts nothing apart
from the RX log line of debug logging (with debug logging off the state after the second `receive` is the
state after the first), and a `receive` posts at most one callback closure.  For the three
broadcasts, whose header is `LAN_X`, whose X-header is 0x61, 0x61 and 0x81 and whose checksum is
valid: the first `receive` sets the state and posts the callback exactly when the state differs
and the callback is set.  A `LAN_X` message with an invalid checksum changes no state and posts
no callback. -/
theorem receive_broadcast_idempotent (P : Protocol) (k : ClientKernel) (m bad : Message)
    (xb : Nat) (tb tOff tOn tStopped : List Nat) :
    receive P (receive P k m) m
      = { receive P k m with eventLoop := (receive P k m).eventLoop ++ rxLog k m } ∧
    (k.config.debugLogRXTX = false → receive P (receive P k m) m = receive P k m) ∧
    (∃ posted : List MainTask,
      (receive P k m).eventLoop = k.eventLoop ++ rxLog k m ++ posted ∧ posted.length ≤ 1 ∧
        callbacks posted = posted) ∧
    (P.LanXBCTrackPowerOff.header = P.LAN_X → P.LanXBCTrackPowerOff.data = 0x61 :: tOff →
      P.isChecksumValid P.LanXBCTrackPowerOff.data = true →
      (receive P k P.LanXBCTrackPowerOff).trackPowerOn = TriState.False ∧
      (receive P k P.LanXBCTrackPowerOff).emergencyStop = k.emergencyStop ∧
      (receive P k P.LanXBCTrackPowerOff).eventLoop
        = k.eventLoop ++ rxLog k P.LanXBCTrackPowerOff
          ++ (if k.trackPowerOn ≠ TriState.False ∧ k.onTrackPowerOnChanged = true
              then [MainTask.onTrackPowerOnChanged false] else [])) ∧
    (P.LanXBCTrackPowerOn.header = P.LAN_X → P.LanXBCTrackPowerOn.data = 0x61 :: tOn →
      P.isChecksumValid P.LanXBCTrackPowerOn.data = true →
      P.LanXBCTrackPowerOn ≠ P.LanXBCTrackPowerOff →
      (receive P k P.LanXBCTrackPowerOn).trackPowerOn = TriState.True ∧
      (receive P k P.LanXBCTrackPowerOn).emergencyStop = k.emergencyStop ∧
      (receive P k P.LanXBCTrackPowerOn).eventLoop
        = k.eventLoop ++ rxLog k P.LanXBCTrackPowerOn
          ++ (if k.trackPowerOn ≠ TriState.True ∧ k.onTrackPowerOnChanged = true
              then [MainTask.onTrackPowerOnChanged true] else [])) ∧
    (P.LanXBCStopped.header = P.LAN_X → P.LanXBCStopped.data = 0x81 :: tStopped →
      P.isChecksumValid P.LanXBCStopped.data = true →
      (receive P k P.LanXBCStopped).emergencyStop = TriState.True ∧
      (receive P k P.LanXBCStopped).trackPowerOn = k.trackPowerOn ∧
      (receive P k P.LanXBCStopped).eventLoop
        = k.eventLoop ++ rxLog k P.LanXBCStopped
          ++ (if k.emergencyStop ≠ TriState.True ∧ k.onEmergencyStop = true
              then [MainTask.onEmergencyStop] else [])) ∧
    (bad.header = P.LAN_X → bad.data = xb :: tb → P.isChecksumValid bad.data = false →
      receive P k bad = { k with eventLoop := k.eventLoop ++ rxLog k bad }) := by
  refine ⟨z21_receive_twice P k m, ?_, z21_receive_posts P k m, ?_, ?_, ?_, ?_⟩
  · intro hoff
    rw [z21_receive_twice P k m]
    simp [rxLog, hoff]
  · intro hx hd hv
    rw [z21_receive_lanX P k _ _ tOff hx hd hv]
    by_cases h1 : k.trackPowerOn = TriState.False <;>
      by_cases h2 : k.onTrackPowerOnChanged = true <;>
      simp [receiveLanX, eventLoopCall, h1, h2]
  · intro hx hd hv hne
    rw [z21_receive_lanX P k _ _ tOn hx hd hv]
    by_cases h1 : k.trackPowerOn = TriState.True <;>
      by_cases h2 : k.onTrackPowerOnChanged = true <;>
      simp [receiveLanX, eventLoopCall, h1, h2, hne]
  · intro hx hd hv
    rw [z21_receive_lanX P k _ _ tStopped hx hd hv]
    by_cases h1 : k.emergencyStop = TriState.True <;>
      by_cases h2 : k.onEmergencyStop = true <;>
      simp [receiveLanX, eventLoopCall, h1, h2]
  · intro hx hd hv
    exact z21_receive_invalid P k bad xb tb hx hd hv

/-- Witness of C28: the sample protocol and a kernel whose states are undefined; the first
track-power-off broadcast posts the callback, the second posts nothing. -/
theorem receive_broadcast_idempotent_witness :
    (sampleProtocol.LanXBCTrackPowerOff.header = sampleProtocol.LAN_X ∧
      sampleProtocol.LanXBCTrackPowerOff.data = 0x61 :: [0x00, 0x61] ∧
      sampleProtocol.isChecksumValid sampleProtocol.LanXBCTrackPowerOff.data = true ∧
      sampleProtocol.LanXBCTrackPowerOn.data = 0x61 :: [0x01, 0x60] ∧
      sampleProtocol.isChecksumValid sampleProtocol.LanXBCTrackPowerOn.data = true ∧
      sampleProtocol.LanXBCTrackPowerOn ≠ sampleProtocol.LanXBCTrackPowerOff ∧
      sampleProtocol.LanXBCStopped.data = 0x81 :: [0x00, 0x81] ∧
      sampleProtocol.isChecksumValid sampleProtocol.LanXBCStopped.data = true ∧
      badChecksumMessage.data = 0x61 :: [0x00, 0x60] ∧
      sampleProtocol.isChecksumValid badChecksumMessage.data = false) ∧
    (receive sampleProtocol sampleKernel sampleProtocol.LanXBCTrackPowerOff).eventLoop
      = [MainTask.onTrackPowerOnChanged false] ∧
    (receive sampleProtocol
      (receive sampleProtocol sampleKernel sampleProtocol.LanXBCTrackPowerOff)
      sampleProtocol.LanXBCTrackPowerOff).eventLoop = [MainTask.onTrackPowerOnChanged false] ∧
    (receive sampleProtocol sampleKernel sampleProtocol.LanXBCTrackPowerOn).trackPowerOn
      = TriState.True ∧
    (receive sampleProtocol sampleKernel sampleProtocol.LanXBCStopped).emergencyStop
      = TriState.True ∧
    (receive sampleProtocol sampleKernel badChecksumMessage).eventLoop = [] :=
  ⟨by decide,
    ((receive_broadcast_idempotent sampleProtocol sampleKernel
      sampleProtocol.LanXBCTrackPowerOff badChecksumMessage 0x61 [0x00, 0x60] [0x00, 0x61]
      [0x01, 0x60] [0x00, 0x81]).2.2.2.1 rfl rfl (by decide)).2.2,
    congrArg ClientKernel.eventLoop
      ((receive_broadcast_idempotent sampleProtocol sampleKernel
        sampleProtocol.LanXBCTrackPowerOff badChecksumMessage 0x61 [0x00, 0x60] [0x00, 0x61]
        [0x01, 0x60] [0x00, 0x81]).2.1 rfl),
    ((receive_broadcast_idempotent sampleProtocol sampleKernel
      sampleProtocol.LanXBCTrackPowerOff badChecksumMessage 0x61 [0x00, 0x60] [0x00, 0x61]
      [0x01, 0x60] [0x00, 0x81]).2.2.2.2.1 rfl rfl (by decide) (by decide)).1,
    ((receive_broadcast_idempotent sampleProtocol sampleKernel
      sampleProtocol.LanXBCTrackPowerOff badChecksumMessage 0x61 [0x00, 0x60] [0x00, 0x61]
      [0x01, 0x60] [0x00, 0x81]).2.2.2.2.2.1 rfl rfl (by decide)).1,
    congrArg ClientKernel.eventLoop
      ((receive_broadcast_idempotent sampleProtocol sampleKernel
        sampleProtocol.LanXBCTrackPowerOff badChecksumMessage 0x61 [0x00, 0x60] [0x00, 0x61]
        [0x01, 0x60] [0x00, 0x81]).2.2.2.2.2.2 rfl rfl (by decide))⟩

/-- C29: in every state reached from `onStart` by receives, calls of `trackPowerOn`,
`trackPowerOff` and `emergencyStop` (and of `setConfig` and `decoderChanged`), closures run by
the kernel thread, keep-alive expiries and restarts, the emergency stop state is `Undefined` or
`True`; the closure of `trackPowerOn` run in such a state hands `LanXSetTrackPowerOn` to the IO
handler; and after a receive of the broadcast `LanXBCStopped` (header `LAN_X`, X-header 0x81,
valid checksum) every state reached without a restart is in emergency stop, where the closure of
`emergencyStop` changes nothing and sends nothing. -/
theorem emergencyStop_never_false (P : Protocol) (k0 : ClientKernel)
    (events later : List Event) (tStopped : List Nat) :
    ((run P (onStart P k0) events).emergencyStop = TriState.Undefined ∨
      (run P (onStart P k0) events).emergencyStop = TriState.True) ∧
    (runKernelTask (run P (onStart P k0) events) KernelTask.trackPowerOn).sent
      = (run P (onStart P k0) events).sent ++ [Sent.LanXSetTrackPowerOn] ∧
    (P.LanXBCStopped.header = P.LAN_X → P.LanXBCStopped.data = 0x81 :: tStopped →
      P.isChecksumValid P.LanXBCStopped.data = true →
      (∀ e ∈ later, e.isOnStart = false) →
      (run P (receive P (run P (onStart P k0) events) P.LanXBCStopped) later).emergencyStop
        = TriState.True ∧
      runKernelTask (run P (receive P (run P (onStart P k0) events) P.LanXBCStopped) later)
          KernelTask.emergencyStop
        = run P (receive P (run P (onStart P k0) events) P.LanXBCStopped) later) := by
  have hinv := z21_run_emergencyStop P events (onStart P k0)
    (Or.inl (z21_onStart_fields P k0).1)
  refine ⟨hinv, ?_, ?_⟩
  · have hne : (run P (onStart P k0) events).emergencyStop ≠ TriState.False := by
      rcases hinv with h | h <;> rw [h] <;> decide
    simp [runKernelTask, hne, z21_send_fields]
  · intro hx hd hv hno
    have hstop : (receive P (run P (onStart P k0) events) P.LanXBCStopped).emergencyStop
        = TriState.True := by
      rw [z21_receive_lanX P _ _ _ tStopped hx hd hv]
      by_cases h1 : (run P (onStart P k0) events).emergencyStop = TriState.True <;>
        by_cases h2 : (run P (onStart P k0) events).onEmergencyStop = true <;>
        simp [receiveLanX, eventLoopCall, h1, h2]
    have hlater := z21_run_stays_stopped P later _ hstop hno
    exact ⟨hlater, by simp [runKernelTask, hlater]⟩

/-- Witness of C29: the sample kernel is started, `trackPowerOn` is called and its closure run;
after the broadcast `LanXBCStopped`, `emergencyStop` is called and its closure run. -/
theorem emergencyStop_never_false_witness :
    (sampleProtocol.LanXBCStopped.header = sampleProtocol.LAN_X ∧
      sampleProtocol.LanXBCStopped.data = 0x81 :: [0x00, 0x81] ∧
      sampleProtocol.isChecksumValid sampleProtocol.LanXBCStopped.data = true ∧
      (∀ e ∈ [Event.emergencyStop, Event.kernelThread], e.isOnStart = false)) ∧
    (run sampleProtocol
      (receive sampleProtocol
        (run sampleProtocol (onStart sampleProtocol sampleKernel)
          [Event.trackPowerOn, Event.kernelThread])
        sampleProtocol.LanXBCStopped)
      [Event.emergencyStop, Event.kernelThread]).emergencyStop = TriState.True :=
  ⟨⟨rfl, rfl, by decide, by decide⟩,
    ((emergencyStop_never_false sampleProtocol sampleKernel
      [Event.trackPowerOn, Event.kernelThread] [Event.emergencyStop, Event.kernelThread]
      [0x00, 0x81]).2.2 rfl rfl (by decide) (by decide)).1⟩

end Z21

/-! ## Theorems on the claims: the board -/

namespace Boards

/-- C22: on every board and at every position, free or occupied, with or without `replace`,
`addTile` with a class id the factory does not know returns false and leaves every position of
the board as it was; and on a factory that does not know "board_tile.i_n_v_a_l_i_d" the
requirement of the test case holds. -/
theorem addTile_unknown_class (F : Factory) (b : Board) (x y : Int) (rotate : TileRotate)
    (classId : String) (replace : Bool) :
    (F.registered classId = false →
      F.create classId rotate = Except.error ErrorKind.UnknownClass ∧
      (addTile F b x y rotate classId replace).2 = false ∧
      (addTile F b x y rotate classId replace).1.tiles = b.tiles) ∧
    (F.registered "board_tile.i_n_v_a_l_i_d" = false → testAddNonExistingTile F = true) := by
  constructor
  · intro h
    have hc : F.create classId rotate = Except.error ErrorKind.UnknownClass := by
      simp [Factory.create, h]
    refine ⟨hc, ?_, ?_⟩
    · unfold addTile
      split_ifs
      · rfl
      · rw [hc]
    · unfold addTile
      split_ifs
      · rfl
      · rw [hc]
  · intro h
    simp [testAddNonExistingTile, addTile, freshBoard, Factory.create, h]

/-- Witness of C22: the sample factory, the board with a tile at (2, 3), that position, and the
class id of the test. -/
theorem addTile_unknown_class_witness :
    sampleFactory.registered "board_tile.i_n_v_a_l_i_d" = false ∧
    (addTile sampleFactory sampleBoard 2 3 TileRotate.Deg0 "board_tile.i_n_v_a_l_i_d" true).2
      = false ∧
    (addTile sampleFactory sampleBoard 2 3 TileRotate.Deg0 "board_tile.i_n_v_a_l_i_d"
      true).1.tiles = sampleBoard.tiles ∧
    testAddNonExistingTile sampleFactory = true :=
  ⟨by decide,
    ((addTile_unknown_class sampleFactory sampleBoard 2 3 TileRotate.Deg0
      "board_tile.i_n_v_a_l_i_d" true).1 (by decide)).2.1,
    ((addTile_unknown_class sampleFactory sampleBoard 2 3 TileRotate.Deg0
      "board_tile.i_n_v_a_l_i_d" true).1 (by decide)).2.2,
    (addTile_unknown_class sampleFactory sampleBoard 2 3 TileRotate.Deg0
      "board_tile.i_n_v_a_l_i_d" true).2 (by decide)⟩

/-- C23: for a class id the factory knows, `addTile` at a free position returns true and puts a
tile of that class there, leaving the other positions; a second `addTile` at the position, now
occupied, without `replace` returns false and leaves the board as it is; with `replace` it
returns true and the position holds the new tile, the other positions being left; and the three
requirements of the test case hold. -/
theorem addTile_occupied_replace (F : Factory) (b : Board) (x y : Int)
    (rotate rotate2 : TileRotate) (classId classId2 : String) :
    (F.registered classId = true → b.tiles (x, y) = none →
      (addTile F b x y rotate classId false).2 = true ∧
      (addTile F b x y rotate classId true).2 = true ∧
      (addTile F b x y rotate classId false).1.tiles (x, y)
        = some { classId := classId, rotate := rotate } ∧
      (∀ l : Int × Int, l ≠ (x, y) →
        (addTile F b x y rotate classId false).1.tiles l = b.tiles l) ∧
      (addTile F (addTile F b x y rotate classId false).1 x y rotate2 classId2 false).2
        = false ∧
      (addTile F (addTile F b x y rotate classId false).1 x y rotate2 classId2 false).1.tiles
        = (addTile F b x y rotate classId false).1.tiles ∧
      (F.registered classId2 = true →
        (addTile F (addTile F b x y rotate classId false).1 x y rotate2 classId2 true).2
          = true ∧
        (addTile F (addTile F b x y rotate classId false).1 x y rotate2 classId2
          true).1.tiles (x, y) = some { classId := classId2, rotate := rotate2 } ∧
        (∀ l : Int × Int, l ≠ (x, y) →
          (addTile F (addTile F b x y rotate classId false).1 x y rotate2 classId2
            true).1.tiles l = b.tiles l))) ∧
    (F.registered classId = true → testAddTile F classId = true) := by
  constructor
  · intro h hfree
    have hc : F.create classId rotate
        = Except.ok { classId := classId, rotate := rotate } := by
      simp [Factory.create, h]
    have h1 : ∀ replace : Bool, addTile F b x y rotate classId replace
        = ({ tiles := fun l =>
              if l = (x, y) then some { classId := classId, rotate := rotate }
              else b.tiles l }, true) := by
      intro replace
      simp [addTile, hfree, hc]
    refine ⟨by rw [h1], by rw [h1], by rw [h1]; simp, ?_, by rw [h1]; simp [addTile],
      by rw [h1]; simp [addTile], ?_⟩
    · intro l hl
      rw [h1]
      simp [hl]
    · intro h2
      have hc2 : F.create classId2 rotate2
          = Except.ok { classId := classId2, rotate := rotate2 } := by
        simp [Factory.create, h2]
      rw [h1]
      refine ⟨by simp [addTile, hc2], by simp [addTile, hc2], ?_⟩
      intro l hl
      simp [addTile, hc2, hl]
  · intro h
    simp [testAddTile, addTile, freshBoard, Factory.create, h]

/-- Witness of C23: the sample factory, the board with a tile at (2, 3), the free position
(0, 0), a straight rail tile and then a curve. -/
theorem addTile_occupied_replace_witness :
    (sampleFactory.registered "board_tile.rail.straight" = true ∧
      sampleBoard.tiles (0, 0) = none ∧
      sampleFactory.registered "board_tile.rail.curve_45" = true) ∧
    (addTile sampleFactory
      (addTile sampleFactory sampleBoard 0 0 TileRotate.Deg0 "board_tile.rail.straight"
        false).1 0 0 90 "board_tile.rail.curve_45" false).2 = false ∧
    (addTile sampleFactory
      (addTile sampleFactory sampleBoard 0 0 TileRotate.Deg0 "board_tile.rail.straight"
        false).1 0 0 90 "board_tile.rail.curve_45" true).1.tiles (0, 0)
      = some { classId := "board_tile.rail.curve_45", rotate := 90 } ∧
    testAddTile sampleFactory "board_tile.rail.straight" = true :=
  ⟨⟨by decide, by decide, by decide⟩,
    ((addTile_occupied_replace sampleFactory sampleBoard 0 0 TileRotate.Deg0 90
      "board_tile.rail.straight" "board_tile.rail.curve_45").1 (by decide)
      (by decide)).2.2.2.2.1,
    (((addTile_occupied_replace sampleFactory sampleBoard 0 0 TileRotate.Deg0 90
      "board_tile.rail.straight" "board_tile.rail.curve_45").1 (by decide)
      (by decide)).2.2.2.2.2.2 (by decide)).2.1,
    (addTile_occupied_replace sampleFactory sampleBoard 0 0 TileRotate.Deg0 90
      "board_tile.rail.straight" "board_tile.rail.curve_45").2 (by decide)⟩

end Boards
